import Mathlib

/-!
# DriveVision still controller: safety supervisor and settings store

A shallow embedding of `src/srs/safety.cpp` (the safety supervisor), of the
manual-override and engine start/stop request handlers of `src/srs/web.cpp`, of
`src/srs/settings.cpp` (the versioned settings store), of the process functions of
`src/srs/utils.cpp` and of the power and start routes of `src/srs/webserver.cpp`, followed
by theorems about them.

Conventions of the embedding.

* C `float` values are exact rationals (`ℚ`): no NaN, no infinities; a literal is its
  decimal value. Comparisons are the ones of the source. Arithmetic is taken without
  rounding where the source rounds to binary32: this concerns the quotient formed by
  `calculateTempRiseRate`, whose test inputs below are exact in binary32, and
  `calculateTempRiseRateWith` leaves that arithmetic as a parameter.
* `unsigned long` is 32 bits wide (ESP32); values are naturals and subtraction wraps
  modulo `2^32` (`subU32`); a product with an `int` is reduced modulo `2^32` (`toU32`).
* File-scope statics of `safety.cpp` are the fields of `Controller`; every function
  takes the controller state and returns the new one.
* `Serial.println` and `displayShowError` only produce output and are left out.
* The global `sysSettings` and the EEPROM are the fields of `SettingsStore`; the results of
  `EEPROM.begin` and `EEPROM.commit` are inputs of the functions that call them.
-/

namespace DriveVision

/-! ## Data model -/

/-- Error codes of the supervisor: `enum SafetyErrorCode` of `safety.h`. -/
inductive SafetyErrorCode
  | SAFETY_OK
  | SAFETY_ERROR_TEMPERATURE_HIGH
  | SAFETY_ERROR_TEMPERATURE_RISE
  | SAFETY_ERROR_SENSOR_DISCONNECT
  | SAFETY_ERROR_WATER_FLOW_LOW
  | SAFETY_ERROR_MAX_RUNTIME_EXCEEDED
  | SAFETY_ERROR_POWER_ISSUE
  | SAFETY_ERROR_EMERGENCY_STOP
  | SAFETY_ERROR_WATCHDOG_TIMEOUT
  | SAFETY_ERROR_PRESSURE_HIGH
  deriving DecidableEq, Repr

open SafetyErrorCode

/-- Safety status record: `struct SafetyStatus` of `safety.h`. -/
structure SafetyStatus where
  isSystemSafe : Bool
  errorCode : SafetyErrorCode
  errorTime : Nat
  errorDescription : String
  isSensorError : Bool
  isTemperatureError : Bool
  isWaterFlowError : Bool
  isPressureError : Bool
  isRuntimeError : Bool
  isEmergencyStop : Bool
  isWatchdogReset : Bool
  deriving DecidableEq, Repr

/-- Modelled from the spec: the probe identities `TEMP_CUBE`, `TEMP_COLUMN`, `TEMP_REFLUX`,
`TEMP_WATER_OUT`, `TEMP_TSA` of the absent `temp_sensors.h`; they are the
`MAX_TEMP_SENSORS = 5` indices of the history table. -/
inductive TempSensor
  | TEMP_CUBE
  | TEMP_COLUMN
  | TEMP_REFLUX
  | TEMP_WATER_OUT
  | TEMP_TSA
  deriving DecidableEq, Repr

open TempSensor

/-- Modelled from the spec: the actuator facade of the absent `heater.cpp`, `pump.cpp`,
`valve.cpp`, which "latches the last commanded values". The record holds the commands
issued to the drivers, not what the hardware did with them: the argument of the last
`setHeaterPower`, the flow of the last `pumpStart` (0 and not running after `pumpStop`),
and whether the last valve command was `valveOpen`. -/
structure Actuators where
  heaterPower : Int
  pumpFlowRate : ℚ
  pumpRunning : Bool
  valveOpen : Bool
  deriving DecidableEq

/-- The commanded state heater 0, pump stopped, valve closed. -/
def Actuators.allOff : Actuators :=
  { heaterPower := 0, pumpFlowRate := 0, pumpRunning := false, valveOpen := false }

/-- The state of the controller: the statics of `safety.cpp` (lines 30-65), the commanded
actuator state, and the running flags of the two engines that `web.cpp` queries through
`isRectificationRunning()` and `isDistillationRunning()`. -/
structure Controller where
  maxCubeTemp : ℚ
  maxTempRiseRate : ℚ
  minWaterOutTemp : ℚ
  maxWaterOutTemp : ℚ
  maxRuntimeHours : Int
  lastSafetyCheck : Nat
  processStartTime : Nat
  processRunning : Bool
  watchdogEnabled : Bool
  currentStatus : SafetyStatus
  tempHistory : TempSensor → Nat → ℚ
  tempHistoryTime : Nat → Nat
  tempHistoryIndex : Nat
  act : Actuators
  rectificationRunning : Bool
  distillationRunning : Bool

/-- What one call reads from the outside world: the three `millis()` reads of a tick
(`updateSafety` line 212, `updateTemperatureHistory` line 399, the runtime check at
lines 170/203) and the sensor module (`isSensorConnected`, `getTemperature`). -/
structure Env where
  millis : Nat
  millisHistory : Nat
  millisCheck : Nat
  connected : TempSensor → Bool
  temperature : TempSensor → ℚ

/-! ## Machine arithmetic and constants -/

/-- Two to the power 32, the modulus of `unsigned long`. -/
def U32_MOD : Nat := 4294967296

/-- Wrapping subtraction `a - b` of two `unsigned long` values. -/
def subU32 (a b : Nat) : Nat :=
  (a % U32_MOD + (U32_MOD - b % U32_MOD)) % U32_MOD

/-- Conversion of a signed value to `unsigned long`. -/
def toU32 (x : Int) : Nat :=
  (x % (U32_MOD : Int)).toNat

def DEFAULT_MAX_RUNTIME_HOURS : Int := 12
def DEFAULT_MAX_CUBE_TEMP : ℚ := 105
def DEFAULT_MAX_TEMP_RISE_RATE : ℚ := 5
def DEFAULT_MIN_WATER_OUT_TEMP : ℚ := 5
def DEFAULT_MAX_WATER_OUT_TEMP : ℚ := 50
def WATCHDOG_TIMEOUT_SECONDS : Int := 30
def SAFETY_CHECK_INTERVAL : Nat := 1000
def TEMP_HISTORY_SIZE : Nat := 10

/-! ## Actuator commands -/

/-- The call `setHeaterPower(p)`. -/
def setHeaterPower (p : Int) (c : Controller) : Controller :=
  { c with act := { c.act with heaterPower := p } }

/-- The call `pumpStart(flowRate)`. -/
def pumpStart (flowRate : ℚ) (c : Controller) : Controller :=
  { c with act := { c.act with pumpFlowRate := flowRate, pumpRunning := true } }

/-- The call `pumpStop()`. -/
def pumpStop (c : Controller) : Controller :=
  { c with act := { c.act with pumpFlowRate := 0, pumpRunning := false } }

/-- The call `valveOpen()`. -/
def valveOpen (c : Controller) : Controller :=
  { c with act := { c.act with valveOpen := true } }

/-- The call `valveClose()`. -/
def valveClose (c : Controller) : Controller :=
  { c with act := { c.act with valveOpen := false } }

/-! ## safety.cpp -/

/-- `getSafetyErrorDescription` (lines 310-335). -/
def getSafetyErrorDescription : SafetyErrorCode → String
  | SAFETY_OK => "Система в норме"
  | SAFETY_ERROR_TEMPERATURE_HIGH => "Превышение максимальной температуры"
  | SAFETY_ERROR_TEMPERATURE_RISE => "Слишком быстрый рост температуры"
  | SAFETY_ERROR_SENSOR_DISCONNECT => "Отключение датчика температуры"
  | SAFETY_ERROR_WATER_FLOW_LOW => "Низкий поток охлаждающей воды"
  | SAFETY_ERROR_MAX_RUNTIME_EXCEEDED => "Превышено максимальное время работы"
  | SAFETY_ERROR_POWER_ISSUE => "Проблемы с питанием"
  | SAFETY_ERROR_EMERGENCY_STOP => "Аварийная остановка"
  | SAFETY_ERROR_WATCHDOG_TIMEOUT => "Срабатывание сторожевого таймера"
  | SAFETY_ERROR_PRESSURE_HIGH => "Высокое давление"

/-- The status written by `initSafety` (lines 84-94) and the static initialiser. -/
def cleanStatus : SafetyStatus :=
  { isSystemSafe := true, errorCode := SAFETY_OK, errorTime := 0, errorDescription := "",
    isSensorError := false, isTemperatureError := false, isWaterFlowError := false,
    isPressureError := false, isRuntimeError := false, isEmergencyStop := false,
    isWatchdogReset := false }

/-- `startSafetyWatchdog` (lines 371-383), ESP32 build. -/
def startSafetyWatchdog (timeoutSeconds : Int) (c : Controller) : Controller :=
  if timeoutSeconds ≤ 0 then c else { c with watchdogEnabled := true }

/-- `resetSafetyWatchdog` (lines 386-394): pets the hardware timer, no state change. -/
def resetSafetyWatchdog (c : Controller) : Controller := c

/-- `initSafety` (lines 68-109); `wdtReset` is `esp_reset_reason() == ESP_RST_TASK_WDT`. -/
def initSafety (wdtReset : Bool) (c : Controller) : Bool × Controller :=
  let c1 : Controller :=
    { c with tempHistory := fun _ _ => 0, tempHistoryTime := fun _ => 0, tempHistoryIndex := 0,
             currentStatus := { cleanStatus with isWatchdogReset := wdtReset } }
  (true, startSafetyWatchdog WATCHDOG_TIMEOUT_SECONDS c1)

/-- `resetSafetyErrors` (lines 125-142). -/
def resetSafetyErrors (c : Controller) : Bool × Controller :=
  if c.currentStatus.isEmergencyStop || c.currentStatus.isSensorError then
    (false, c)
  else
    (true, { c with currentStatus :=
      { c.currentStatus with
        isSystemSafe := true, errorCode := SAFETY_OK, errorDescription := "",
        isTemperatureError := false, isWaterFlowError := false,
        isPressureError := false, isRuntimeError := false } })

/-- `updateTemperatureHistory` (lines 397-415). -/
def updateTemperatureHistory (env : Env) (c : Controller) : Controller :=
  let currentTime := env.millisHistory
  let idx := (c.tempHistoryIndex + 1) % TEMP_HISTORY_SIZE
  { c with
    tempHistoryIndex := idx
    tempHistoryTime := fun j => if j = idx then currentTime else c.tempHistoryTime j
    tempHistory := fun i j =>
      if j = idx then (if env.connected i then env.temperature i else -127)
      else c.tempHistory i j }

/-- One iteration of the search loop of `calculateTempRiseRate` (lines 430-443), acting on
the pair `(oldestIdx, oldestTime)`. -/
def riseRateStep (c : Controller) (sensorIndex : TempSensor) (currentIdx : Nat)
    (acc : Nat × Nat) (i : Nat) : Nat × Nat :=
  let idx := (currentIdx + TEMP_HISTORY_SIZE - i) % TEMP_HISTORY_SIZE
  if c.tempHistoryTime idx > 0 ∧ c.tempHistory sensorIndex idx > -100 ∧
      subU32 (c.tempHistoryTime currentIdx) (c.tempHistoryTime idx) ≤ 300000 then
    if c.tempHistoryTime idx < acc.2 ∨ acc.2 = c.tempHistoryTime acc.1 then
      (idx, c.tempHistoryTime idx)
    else acc
  else acc

/-- The index `oldestIdx` left by the search loop of `calculateTempRiseRate`. -/
def riseRateOldestIdx (c : Controller) (sensorIndex : TempSensor) : Nat :=
  ((List.range TEMP_HISTORY_SIZE).foldl
    (riseRateStep c sensorIndex c.tempHistoryIndex)
    (c.tempHistoryIndex, c.tempHistoryTime c.tempHistoryIndex)).1

/-- `calculateTempRiseRate` (lines 418-456), in degrees per minute. The search and the two
early returns use integer and comparison operations only and are reproduced exactly. The
quotient of lines 452-455 is taken in exact rational arithmetic, where the source rounds the
subtraction and the two divisions to binary32: the value agrees with the source where those
operations are exact (as in the test inputs of this file) and can differ from it by the
rounding elsewhere. `calculateTempRiseRateWith` leaves that arithmetic open. -/
def calculateTempRiseRate (env : Env) (c : Controller) (sensorIndex : TempSensor) : ℚ :=
  if !env.connected sensorIndex then 0
  else
    let currentIdx := c.tempHistoryIndex
    let oldestIdx := riseRateOldestIdx c sensorIndex
    if oldestIdx = currentIdx ∨
        subU32 (c.tempHistoryTime currentIdx) (c.tempHistoryTime oldestIdx) < 30000 then 0
    else
      let tempDelta := c.tempHistory sensorIndex currentIdx - c.tempHistory sensorIndex oldestIdx
      let timeDeltaMinutes : ℚ :=
        (subU32 (c.tempHistoryTime currentIdx) (c.tempHistoryTime oldestIdx) : ℚ) / 60000
      tempDelta / timeDeltaMinutes

/-- The arithmetic of lines 452-455 without rounding: the temperature difference divided by
the time span in minutes. -/
def riseRateQuotient (newest oldest : ℚ) (spanMs : Nat) : ℚ :=
  (newest - oldest) / ((spanMs : ℚ) / 60000)

/-- `calculateTempRiseRate` (lines 418-456) with the arithmetic of lines 452-455 as the
parameter `quot`: `quot newest oldest span` stands for the value the target computes for
`(newest - oldest) / ((float)span / 60000.0f)`, a function of the two stored readings and
of the span in ms. With `riseRateQuotient` this is `calculateTempRiseRate`; with the binary32
evaluation of that expression it is the function as compiled, so what holds for every
`quot` holds of both. -/
def calculateTempRiseRateWith (quot : ℚ → ℚ → Nat → ℚ) (env : Env) (c : Controller)
    (sensorIndex : TempSensor) : ℚ :=
  if !env.connected sensorIndex then 0
  else
    let currentIdx := c.tempHistoryIndex
    let oldestIdx := riseRateOldestIdx c sensorIndex
    if oldestIdx = currentIdx ∨
        subU32 (c.tempHistoryTime currentIdx) (c.tempHistoryTime oldestIdx) < 30000 then 0
    else
      quot (c.tempHistory sensorIndex currentIdx) (c.tempHistory sensorIndex oldestIdx)
        (subU32 (c.tempHistoryTime currentIdx) (c.tempHistoryTime oldestIdx))

/-- The runtime test shared by both checks (lines 170 and 203):
`processRunning && (millis() - processStartTime) > (maxRuntimeHours * 3600000UL)`. -/
def runtimeExceeded (env : Env) (c : Controller) : Bool :=
  c.processRunning &&
    decide (subU32 env.millisCheck c.processStartTime > toU32 (c.maxRuntimeHours * 3600000))

/-- `checkDistillationSafety` (lines 145-175). -/
def checkDistillationSafety (env : Env) (c : Controller) (cubeTemp waterOutTemp : ℚ) :
    SafetyErrorCode :=
  if !env.connected TEMP_CUBE then SAFETY_ERROR_SENSOR_DISCONNECT
  else if cubeTemp > c.maxCubeTemp then SAFETY_ERROR_TEMPERATURE_HIGH
  else if env.connected TEMP_WATER_OUT ∧ waterOutTemp > c.maxWaterOutTemp then
    SAFETY_ERROR_WATER_FLOW_LOW
  else if calculateTempRiseRate env c TEMP_CUBE > c.maxTempRiseRate then
    SAFETY_ERROR_TEMPERATURE_RISE
  else if runtimeExceeded env c then SAFETY_ERROR_MAX_RUNTIME_EXCEEDED
  else SAFETY_OK

/-- `checkRectificationSafety` (lines 178-208); `columnTemp`, `refluxTemp` and `tsaTemp`
are accepted and not used, as in the source. -/
def checkRectificationSafety (env : Env) (c : Controller)
    (cubeTemp _columnTemp _refluxTemp waterOutTemp _tsaTemp : ℚ) : SafetyErrorCode :=
  if !env.connected TEMP_CUBE || !env.connected TEMP_REFLUX then SAFETY_ERROR_SENSOR_DISCONNECT
  else if cubeTemp > c.maxCubeTemp then SAFETY_ERROR_TEMPERATURE_HIGH
  else if env.connected TEMP_WATER_OUT ∧ waterOutTemp > c.maxWaterOutTemp then
    SAFETY_ERROR_WATER_FLOW_LOW
  else if calculateTempRiseRate env c TEMP_CUBE > c.maxTempRiseRate then
    SAFETY_ERROR_TEMPERATURE_RISE
  else if runtimeExceeded env c then SAFETY_ERROR_MAX_RUNTIME_EXCEEDED
  else SAFETY_OK

/-- `emergencyStop` (lines 284-307). -/
def emergencyStop (reason : String) (c : Controller) : Controller :=
  let c1 : Controller :=
    { c with
      currentStatus :=
        { c.currentStatus with
          isSystemSafe := false, isEmergencyStop := true,
          errorDescription := "АВАРИЙНАЯ ОСТАНОВКА: " ++ reason }
      processRunning := false }
  valveClose (pumpStop (setHeaterPower 0 c1))

/-- The flag set by the `switch` of `updateSafety` (lines 252-271). -/
def setErrorFlag (errorCode : SafetyErrorCode) (st : SafetyStatus) : SafetyStatus :=
  match errorCode with
  | SAFETY_ERROR_SENSOR_DISCONNECT => { st with isSensorError := true }
  | SAFETY_ERROR_TEMPERATURE_HIGH => { st with isTemperatureError := true }
  | SAFETY_ERROR_TEMPERATURE_RISE => { st with isTemperatureError := true }
  | SAFETY_ERROR_WATER_FLOW_LOW => { st with isWaterFlowError := true }
  | SAFETY_ERROR_MAX_RUNTIME_EXCEEDED => { st with isRuntimeError := true }
  | SAFETY_ERROR_PRESSURE_HIGH => { st with isPressureError := true }
  | _ => st

/-- The body of `updateSafety` once an error code differing from `SAFETY_OK` was found
(lines 245-278). -/
def raiseSafetyError (currentTime : Nat) (errorCode : SafetyErrorCode) (c : Controller) :
    Controller :=
  let st : SafetyStatus :=
    { c.currentStatus with
      isSystemSafe := false, errorCode := errorCode, errorTime := currentTime,
      errorDescription := getSafetyErrorDescription errorCode }
  let c1 : Controller := { c with currentStatus := setErrorFlag errorCode st }
  if errorCode = SAFETY_ERROR_TEMPERATURE_HIGH ∨ errorCode = SAFETY_ERROR_PRESSURE_HIGH ∨
      errorCode = SAFETY_ERROR_WATER_FLOW_LOW then
    emergencyStop c1.currentStatus.errorDescription c1
  else c1

/-- The state in which an evaluated tick runs its check: `lastSafetyCheck` stored, the
watchdog pet and the history sampled (lines 219-225). -/
def tickSampled (env : Env) (c : Controller) : Controller :=
  updateTemperatureHistory env (resetSafetyWatchdog { c with lastSafetyCheck := env.millis })

/-- The value of the local `errorCode` of `updateSafety` (line 241): the result of
`checkRectificationSafety` on the current temperatures. -/
def tickCheck (env : Env) (c : Controller) : SafetyErrorCode :=
  checkRectificationSafety env (tickSampled env c)
    (env.temperature TEMP_CUBE) (env.temperature TEMP_COLUMN) (env.temperature TEMP_REFLUX)
    (env.temperature TEMP_WATER_OUT) (env.temperature TEMP_TSA)

/-- `updateSafety` (lines 211-281). -/
def updateSafety (env : Env) (c : Controller) : Controller :=
  let currentTime := env.millis
  if subU32 currentTime c.lastSafetyCheck < SAFETY_CHECK_INTERVAL then c
  else
    let c1 := tickSampled env c
    if c1.processRunning then
      let errorCode := tickCheck env c
      if errorCode ≠ SAFETY_OK then raiseSafetyError currentTime errorCode c1
      else c1
    else c1

/-- Whether a call of `updateSafety` passes the interval gate of line 215. -/
def tickEvaluated (env : Env) (c : Controller) : Bool :=
  !decide (subU32 env.millis c.lastSafetyCheck < SAFETY_CHECK_INTERVAL)

/-- The call of `updateSafety` is evaluated with a process registered and its check
(line 241) returns `code`. -/
def tickDetects (env : Env) (c : Controller) (code : SafetyErrorCode) : Prop :=
  tickEvaluated env c = true ∧ c.processRunning = true ∧ tickCheck env c = code

instance (env : Env) (c : Controller) (code : SafetyErrorCode) :
    Decidable (tickDetects env c code) := by
  unfold tickDetects; infer_instance

/-- `isSafetyOK` (lines 112-117). -/
def isSafetyOK (env : Env) (c : Controller) : Bool × Controller :=
  let c1 := updateSafety env c
  (c1.currentStatus.isSystemSafe, c1)

/-- `setSafetyMaxRuntime` (lines 338-342). -/
def setSafetyMaxRuntime (hours : Int) (c : Controller) : Controller :=
  if hours > 0 then { c with maxRuntimeHours := hours } else c

/-- `setSafetyMaxCubeTemp` (lines 345-349). -/
def setSafetyMaxCubeTemp (maxTemp : ℚ) (c : Controller) : Controller :=
  if maxTemp > 0 then { c with maxCubeTemp := maxTemp } else c

/-- `setSafetyMaxTempRiseRate` (lines 352-356). -/
def setSafetyMaxTempRiseRate (maxRatePerMinute : ℚ) (c : Controller) : Controller :=
  if maxRatePerMinute > 0 then { c with maxTempRiseRate := maxRatePerMinute } else c

/-- `setSafetyMinWaterOutTemp` (lines 359-361). -/
def setSafetyMinWaterOutTemp (minTemp : ℚ) (c : Controller) : Controller :=
  { c with minWaterOutTemp := minTemp }

/-- `setSafetyMaxWaterOutTemp` (lines 364-368). -/
def setSafetyMaxWaterOutTemp (maxTemp : ℚ) (c : Controller) : Controller :=
  if maxTemp > 0 then { c with maxWaterOutTemp := maxTemp } else c

/-- `registerProcessStart` (lines 459-467); `now` is the `millis()` read. -/
def registerProcessStart (now : Nat) (c : Controller) : Controller :=
  (resetSafetyErrors { c with processStartTime := now, processRunning := true }).2

/-- `registerProcessEnd` (lines 470-473). -/
def registerProcessEnd (c : Controller) : Controller :=
  { c with processRunning := false }

/-! ## web.cpp: manual-override handlers -/

/-- Handler of `POST /api/heater/set` (`web.cpp` lines 495-508); `power` is the parsed
`power` parameter when the request has one. Returns the HTTP status and the new state. -/
def handleHeaterSet (power : Option Int) (c : Controller) : Nat × Controller :=
  if c.rectificationRunning || c.distillationRunning then (409, c)
  else
    let powerWatts : Int := match power with
      | some p => p
      | none => 0
    (200, setHeaterPower powerWatts c)

/-- Handler of `POST /api/pump/set` (`web.cpp` lines 511-531); `flowRate` is the parsed
`flowRate` parameter when the request has one. -/
def handlePumpSet (flowRate : Option ℚ) (c : Controller) : Nat × Controller :=
  if c.rectificationRunning || c.distillationRunning then (409, c)
  else
    match flowRate with
    | none => (400, c)
    | some f => if f > 0 then (200, pumpStart f c) else (200, pumpStop c)

/-- Handler of `POST /api/valve/set` (`web.cpp` lines 534-554); `openParam` is the text
of the `open` parameter when the request has one. -/
def handleValveSet (openParam : Option String) (c : Controller) : Nat × Controller :=
  if c.rectificationRunning || c.distillationRunning then (409, c)
  else
    match openParam with
    | none => (400, c)
    | some v => if v = "true" then (200, valveOpen c) else (200, valveClose c)

/-! ## Operation sequences -/

/-- The calls into the supervisor that do not re-initialise it. -/
inductive SafetyOp
  | updateSafety (env : Env)
  | resetSafetyErrors
  | registerProcessStart (now : Nat)
  | registerProcessEnd
  | emergencyStop (reason : String)
  | setSafetyMaxRuntime (hours : Int)
  | setSafetyMaxCubeTemp (maxTemp : ℚ)
  | setSafetyMaxTempRiseRate (maxRatePerMinute : ℚ)
  | setSafetyMinWaterOutTemp (minTemp : ℚ)
  | setSafetyMaxWaterOutTemp (maxTemp : ℚ)

/-- The effect of one call on the controller. -/
def SafetyOp.apply (c : Controller) : SafetyOp → Controller
  | .updateSafety env => DriveVision.updateSafety env c
  | .resetSafetyErrors => (DriveVision.resetSafetyErrors c).2
  | .registerProcessStart now => DriveVision.registerProcessStart now c
  | .registerProcessEnd => DriveVision.registerProcessEnd c
  | .emergencyStop reason => DriveVision.emergencyStop reason c
  | .setSafetyMaxRuntime hours => DriveVision.setSafetyMaxRuntime hours c
  | .setSafetyMaxCubeTemp t => DriveVision.setSafetyMaxCubeTemp t c
  | .setSafetyMaxTempRiseRate r => DriveVision.setSafetyMaxTempRiseRate r c
  | .setSafetyMinWaterOutTemp t => DriveVision.setSafetyMinWaterOutTemp t c
  | .setSafetyMaxWaterOutTemp t => DriveVision.setSafetyMaxWaterOutTemp t c

/-- The effect of a sequence of calls, first call first. -/
def runOps (ops : List SafetyOp) (c : Controller) : Controller :=
  ops.foldl SafetyOp.apply c

/-! ## Concrete states used as test inputs -/

/-- The controller right after boot: default thresholds, clean status, empty history,
nothing commanded, no engine running. -/
def bootController : Controller :=
  { maxCubeTemp := DEFAULT_MAX_CUBE_TEMP, maxTempRiseRate := DEFAULT_MAX_TEMP_RISE_RATE,
    minWaterOutTemp := DEFAULT_MIN_WATER_OUT_TEMP, maxWaterOutTemp := DEFAULT_MAX_WATER_OUT_TEMP,
    maxRuntimeHours := DEFAULT_MAX_RUNTIME_HOURS, lastSafetyCheck := 0, processStartTime := 0,
    processRunning := false, watchdogEnabled := true, currentStatus := cleanStatus,
    tempHistory := fun _ _ => 0, tempHistoryTime := fun _ => 0, tempHistoryIndex := 0,
    act := Actuators.allOff, rectificationRunning := false, distillationRunning := false }

/-- A run in progress: process registered at time 0, heater commanded to 50, pump running
at 250 ml/min, valve open, and one history sample (all probes at 20 degrees) taken by the
first tick at 1000 ms, which the ring stores at index 1. -/
def runningController : Controller :=
  { bootController with
    processRunning := true
    lastSafetyCheck := 1000
    tempHistoryIndex := 1
    tempHistoryTime := fun j => if j = 1 then 1000 else 0
    tempHistory := fun _ j => if j = 1 then 20 else 0
    act := { heaterPower := 50, pumpFlowRate := 250, pumpRunning := true, valveOpen := true } }

/-- Sensor readings at time `t`: all five probes connected, Cube at `cube` degrees, the
others at 20 degrees. -/
def envAt (t : Nat) (cube : ℚ) : Env :=
  { millis := t, millisHistory := t, millisCheck := t,
    connected := fun _ => true,
    temperature := fun i => if i = TEMP_CUBE then cube else 20 }

/-- Sensor readings at time `t` with the Cube probe unplugged (it reads the sentinel). -/
def envCubeUnplugged (t : Nat) : Env :=
  { millis := t, millisHistory := t, millisCheck := t,
    connected := fun i => decide (i ≠ TEMP_CUBE),
    temperature := fun i => if i = TEMP_CUBE then -127 else 20 }

/-- The running test state with the runtime limit set to one hour (the process was
registered at time 0). -/
def oneHourController : Controller :=
  setSafetyMaxRuntime 1 runningController

/-- The calls that lead from boot to the running test state: the three manual commands,
the registration of the process at time 0 and a first tick at 1000 ms with every probe
connected and reading 20 degrees. -/
def runningControllerTrace : Controller :=
  updateSafety (envAt 1000 20)
    (registerProcessStart 0
      (handleValveSet (some "true")
        (handlePumpSet (some 250) (handleHeaterSet (some 50) bootController).2).2).2)

/-! ## settings.h, settings.cpp and the defaults of config.h -/

def MAX_TEMP_SENSORS : Nat := 5
def SETTINGS_VERSION : Nat := 1
def SAFETY_MAX_RUNTIME_HOURS_DEFAULT : Int := 12
def SAFETY_MAX_CUBE_TEMP_DEFAULT : ℚ := 105
def SAFETY_MAX_TEMP_RISE_RATE_DEFAULT : ℚ := 5
def SAFETY_MIN_WATER_OUT_TEMP_DEFAULT : ℚ := 5
def SAFETY_MAX_WATER_OUT_TEMP_DEFAULT : ℚ := 50
def WIFI_AP_SSID : String := "Distiller"
def WIFI_AP_PASSWORD : String := "password"

/-- Heater settings: `struct HeaterSettings`. -/
structure HeaterSettings where
  maxPowerWatts : Int
  volts : Int
  deriving DecidableEq

/-- Pump settings: `struct PumpSettings`. -/
structure PumpSettings where
  headsFlowRate : ℚ
  bodyFlowRate : ℚ
  tailsFlowRate : ℚ
  calibrationFactor : ℚ
  deriving DecidableEq

/-- Rectification settings: `struct RectificationSettings`. -/
structure RectificationSettings where
  model : Int
  heatingPowerWatts : Int
  stabilizationPowerWatts : Int
  bodyPowerWatts : Int
  tailsPowerWatts : Int
  headsTemp : ℚ
  bodyTemp : ℚ
  tailsTemp : ℚ
  endTemp : ℚ
  maxCubeTemp : ℚ
  tailsCubeTemp : ℚ
  tempDeltaEndBody : ℚ
  stabilizationTime : Int
  postHeadsStabilizationTime : Int
  headsVolume : Int
  bodyVolume : Int
  refluxRatio : ℚ
  refluxPeriod : Int
  useSameFlowForTails : Bool
  deriving DecidableEq

/-- Distillation settings: `struct DistillationSettings`. -/
structure DistillationSettings where
  heatingPowerWatts : Int
  distillationPowerWatts : Int
  startCollectingTemp : ℚ
  endTemp : ℚ
  maxCubeTemp : ℚ
  separateHeads : Bool
  headsVolume : Int
  flowRate : ℚ
  headsFlowRate : ℚ
  deriving DecidableEq

/-- Safety settings: `struct SafetySettings`. -/
structure SafetySettings where
  maxRuntimeHours : Int
  maxCubeTemp : ℚ
  maxTempRiseRate : ℚ
  minWaterOutTemp : ℚ
  maxWaterOutTemp : ℚ
  emergencyStopEnabled : Bool
  watchdogEnabled : Bool
  deriving DecidableEq

/-- The settings record: `struct SystemSettings`. The three per-probe arrays are lists of
`MAX_TEMP_SENSORS` entries (an address is a list of 8 bytes); the two `char` arrays are the
strings they hold. -/
structure SystemSettings where
  settingsVersion : Nat
  tempSensorAddresses : List (List Nat)
  tempSensorEnabled : List Bool
  tempSensorCalibration : List ℚ
  heaterSettings : HeaterSettings
  pumpSettings : PumpSettings
  rectificationSettings : RectificationSettings
  distillationSettings : DistillationSettings
  safetySettings : SafetySettings
  wifiSsid : String
  wifiPassword : String
  useAccessPoint : Bool
  deriving DecidableEq

/-- The EEPROM library as `settings.cpp` uses it: `get` and `put` work on a RAM image of
the record stored at `SETTINGS_EEPROM_ADDRESS`, `begin` loads that image from the
non-volatile store and `commit` writes it back; `begin` and `commit` can fail. -/
structure Eeprom where
  image : SystemSettings
  persisted : SystemSettings
  deriving DecidableEq

/-- The state of `settings.cpp`: the global `sysSettings` and the EEPROM. -/
structure SettingsStore where
  sysSettings : SystemSettings
  eeprom : Eeprom
  deriving DecidableEq

/-- `EEPROM.begin(EEPROM_SIZE)`; `ok` is the result reported by the hardware. -/
def eepromBegin (ok : Bool) (e : Eeprom) : Bool × Eeprom :=
  if ok then (true, { e with image := e.persisted }) else (false, e)

/-- `EEPROM.commit()`; `ok` is the result reported by the hardware. -/
def eepromCommit (ok : Bool) (e : Eeprom) : Bool × Eeprom :=
  if ok then (true, { e with persisted := e.image }) else (false, e)

/-- `loadSystemSettings` (lines 45-58). -/
def loadSystemSettings (st : SettingsStore) : Bool × SettingsStore :=
  let st1 : SettingsStore := { st with sysSettings := st.eeprom.image }
  if st1.sysSettings.settingsVersion ≠ SETTINGS_VERSION then (false, st1)
  else (true, st1)

/-- `saveSystemSettings` (lines 61-76); `commitOk` is the result of `EEPROM.commit()`. -/
def saveSystemSettings (commitOk : Bool) (st : SettingsStore) : Bool × SettingsStore :=
  let s1 : SystemSettings := { st.sysSettings with settingsVersion := SETTINGS_VERSION }
  let e1 : Eeprom := { st.eeprom with image := s1 }
  let r := eepromCommit commitOk e1
  if !r.1 then (false, { sysSettings := s1, eeprom := r.2 })
  else (true, { sysSettings := s1, eeprom := r.2 })

/-- The record left by `memset(&sysSettings, 0, sizeof(SystemSettings))` (line 83). -/
def zeroSettings : SystemSettings :=
  { settingsVersion := 0
    tempSensorAddresses := List.replicate MAX_TEMP_SENSORS (List.replicate 8 0)
    tempSensorEnabled := List.replicate MAX_TEMP_SENSORS false
    tempSensorCalibration := List.replicate MAX_TEMP_SENSORS 0
    heaterSettings := { maxPowerWatts := 0, volts := 0 }
    pumpSettings :=
      { headsFlowRate := 0, bodyFlowRate := 0, tailsFlowRate := 0, calibrationFactor := 0 }
    rectificationSettings :=
      { model := 0, heatingPowerWatts := 0, stabilizationPowerWatts := 0, bodyPowerWatts := 0,
        tailsPowerWatts := 0, headsTemp := 0, bodyTemp := 0, tailsTemp := 0, endTemp := 0,
        maxCubeTemp := 0, tailsCubeTemp := 0, tempDeltaEndBody := 0, stabilizationTime := 0,
        postHeadsStabilizationTime := 0, headsVolume := 0, bodyVolume := 0, refluxRatio := 0,
        refluxPeriod := 0, useSameFlowForTails := false }
    distillationSettings :=
      { heatingPowerWatts := 0, distillationPowerWatts := 0, startCollectingTemp := 0,
        endTemp := 0, maxCubeTemp := 0, separateHeads := false, headsVolume := 0,
        flowRate := 0, headsFlowRate := 0 }
    safetySettings :=
      { maxRuntimeHours := 0, maxCubeTemp := 0, maxTempRiseRate := 0, minWaterOutTemp := 0,
        maxWaterOutTemp := 0, emergencyStopEnabled := false, watchdogEnabled := false }
    wifiSsid := ""
    wifiPassword := ""
    useAccessPoint := false }

/-- `resetSystemSettings` (lines 79-152): the record is zeroed and then every assignment of
the source is applied, in the order of the source. -/
def resetSystemSettings (st : SettingsStore) : SettingsStore :=
  let s0 : SystemSettings := zeroSettings
  let s1 : SystemSettings := { s0 with settingsVersion := SETTINGS_VERSION }
  let s2 : SystemSettings :=
    { s1 with
      tempSensorEnabled := List.replicate MAX_TEMP_SENSORS false
      tempSensorCalibration := List.replicate MAX_TEMP_SENSORS 0
      tempSensorAddresses := List.replicate MAX_TEMP_SENSORS (List.replicate 8 0) }
  let s3 : SystemSettings :=
    { s2 with heaterSettings := { s2.heaterSettings with maxPowerWatts := 2000, volts := 220 } }
  let s4 : SystemSettings :=
    { s3 with pumpSettings :=
      { s3.pumpSettings with
        headsFlowRate := 50, bodyFlowRate := 250, tailsFlowRate := 350,
        calibrationFactor := 1 } }
  let s5 : SystemSettings :=
    { s4 with rectificationSettings :=
      { s4.rectificationSettings with
        model := 0, heatingPowerWatts := 1800, stabilizationPowerWatts := 1200,
        bodyPowerWatts := 1000, tailsPowerWatts := 1200, headsTemp := 78,
        bodyTemp := 783 / 10, tailsTemp := 92, endTemp := 97, maxCubeTemp := 101,
        tailsCubeTemp := 95, tempDeltaEndBody := 1 / 2, stabilizationTime := 30,
        postHeadsStabilizationTime := 10, headsVolume := 150, bodyVolume := 2000,
        refluxRatio := 3, refluxPeriod := 60, useSameFlowForTails := true } }
  let s6 : SystemSettings :=
    { s5 with distillationSettings :=
      { s5.distillationSettings with
        heatingPowerWatts := 2000, distillationPowerWatts := 1500, startCollectingTemp := 70,
        endTemp := 97, maxCubeTemp := 101, separateHeads := true, headsVolume := 200,
        flowRate := 800, headsFlowRate := 200 } }
  let s7 : SystemSettings :=
    { s6 with safetySettings :=
      { s6.safetySettings with
        maxRuntimeHours := SAFETY_MAX_RUNTIME_HOURS_DEFAULT
        maxCubeTemp := SAFETY_MAX_CUBE_TEMP_DEFAULT
        maxTempRiseRate := SAFETY_MAX_TEMP_RISE_RATE_DEFAULT
        minWaterOutTemp := SAFETY_MIN_WATER_OUT_TEMP_DEFAULT
        maxWaterOutTemp := SAFETY_MAX_WATER_OUT_TEMP_DEFAULT
        emergencyStopEnabled := true, watchdogEnabled := true } }
  let s8 : SystemSettings :=
    { s7 with wifiSsid := WIFI_AP_SSID, wifiPassword := WIFI_AP_PASSWORD, useAccessPoint := true }
  { st with sysSettings := s8 }

/-- `initSettings` (lines 24-42); `beginOk` and `commitOk` are the results of
`EEPROM.begin` and of the `EEPROM.commit` inside `saveSystemSettings`. -/
def initSettings (beginOk commitOk : Bool) (st : SettingsStore) : Bool × SettingsStore :=
  let b := eepromBegin beginOk st.eeprom
  if !b.1 then (false, st)
  else
    let st1 : SettingsStore := { st with eeprom := b.2 }
    let l := loadSystemSettings st1
    if !l.1 then
      (true, (saveSystemSettings commitOk (resetSystemSettings l.2)).2)
    else (true, l.2)

/-- The factory defaults: what `resetSystemSettings` leaves in `sysSettings`. -/
def factoryDefaults : SystemSettings :=
  (resetSystemSettings { sysSettings := zeroSettings,
                         eeprom := { image := zeroSettings, persisted := zeroSettings } }).sysSettings

/-- A store whose persisted record carries version 7 and whose in-memory record is still
zeroed, as at boot after a change of the settings layout. -/
def staleStore : SettingsStore :=
  { sysSettings := zeroSettings
    eeprom :=
      { image := zeroSettings
        persisted := { factoryDefaults with settingsVersion := 7, wifiSsid := "Old" } } }

/-! ## The rise rate as the specification words it -/

/-- The ring position `i` samples back from the newest one (line 431). -/
def ringIdx (c : Controller) (i : Nat) : Nat :=
  (c.tempHistoryIndex + TEMP_HISTORY_SIZE - i) % TEMP_HISTORY_SIZE

/-- The age in ms of the entry at ring position `idx`, relative to the newest entry, in
`unsigned long` arithmetic. -/
def entryAge (c : Controller) (idx : Nat) : Nat :=
  subU32 (c.tempHistoryTime c.tempHistoryIndex) (c.tempHistoryTime idx)

/-- The test of lines 434-436: the entry was written, holds a reading and is at most five
minutes old. -/
def entryValid (c : Controller) (sensorIndex : TempSensor) (idx : Nat) : Bool :=
  decide (c.tempHistoryTime idx > 0) && decide (c.tempHistory sensorIndex idx > -100) &&
    decide (entryAge c idx ≤ 300000)

/-- The value a disconnected probe is stored as (line 412): the sentinel of the
specification. -/
def disconnectedSentinel : ℚ := -127

/-- Specification side: the ring slot `idx` holds a valid sample. It holds a sample (a slot
never written keeps the timestamp 0 that `initSafety` gives it) and that sample is not the
sentinel of a disconnected probe. -/
def specSampleValid (c : Controller) (sensorIndex : TempSensor) (idx : Nat) : Bool :=
  decide (c.tempHistoryTime idx ≠ 0) &&
    decide (c.tempHistory sensorIndex idx ≠ disconnectedSentinel)

/-- Specification side: the age in ms of the sample in slot `idx` relative to the newest
entry (timestamps within a ring are non-decreasing, so the difference of the two
timestamps). -/
def specAge (c : Controller) (idx : Nat) : Nat :=
  c.tempHistoryTime c.tempHistoryIndex - c.tempHistoryTime idx

/-- Specification side: the entry `i` samples back is a valid sample "whose age is in
[30 s, 300 s]", the age being taken relative to the newest entry. -/
def specEligible (c : Controller) (sensorIndex : TempSensor) (i : Nat) : Bool :=
  specSampleValid c sensorIndex (ringIdx c i) &&
    decide (30000 ≤ specAge c (ringIdx c i)) && decide (specAge c (ringIdx c i) ≤ 300000)

/-- Specification side: how many samples back the oldest eligible entry lies (the search
covers the whole ring); 0 when there is none. -/
def specOldestSteps (c : Controller) (sensorIndex : TempSensor) : Nat :=
  Nat.findGreatest (fun i => specEligible c sensorIndex i = true) (TEMP_HISTORY_SIZE - 1)

/-- Specification side: `rise_rate` "selects the oldest valid entry whose age is in
[30 s, 300 s]; returns (newest - oldest)/(dt in minutes). If no such pair exists,
returns 0." A pair needs two valid samples ("returns 0 unless >= 2 valid samples spanning
>= 30 s exist", "must never include sentinel entries"): the newest entry has to be a valid
sample as well. `quot` is the arithmetic that forms the quotient from the two readings and
the span in ms. -/
def specRiseRateWith (quot : ℚ → ℚ → Nat → ℚ) (c : Controller)
    (sensorIndex : TempSensor) : ℚ :=
  if specSampleValid c sensorIndex c.tempHistoryIndex then
    if specEligible c sensorIndex (specOldestSteps c sensorIndex) then
      quot (c.tempHistory sensorIndex c.tempHistoryIndex)
        (c.tempHistory sensorIndex (ringIdx c (specOldestSteps c sensorIndex)))
        (specAge c (ringIdx c (specOldestSteps c sensorIndex)))
    else 0
  else 0

/-- Specification side: the rise rate with the quotient taken without rounding,
(newest - oldest) / (dt in minutes). -/
def specRiseRate (c : Controller) (sensorIndex : TempSensor) : ℚ :=
  specRiseRateWith riseRateQuotient c sensorIndex

/-- Every reading in the ring of the probe is the sentinel or lies above -100 degrees: the
histories on which the test of line 435 (`> -100.0`) rejects the sentinel and nothing
else. -/
def readingsInRange (c : Controller) (sensorIndex : TempSensor) : Prop :=
  ∀ i, i < TEMP_HISTORY_SIZE →
    c.tempHistory sensorIndex (ringIdx c i) = disconnectedSentinel ∨
      c.tempHistory sensorIndex (ringIdx c i) > -100

/-- Timestamps are non-decreasing in ring order: an entry further back is not younger. -/
def ringMonotone (c : Controller) : Prop :=
  ∀ i j, i ≤ j → j < TEMP_HISTORY_SIZE →
    c.tempHistoryTime (ringIdx c j) ≤ c.tempHistoryTime (ringIdx c i)

/-! ## More test inputs -/

/-- The running test state with the distillation engine as the running process. -/
def distillationController : Controller :=
  { runningController with distillationRunning := true }

/-- Sensor readings at time `t` with the Reflux probe unplugged, every other probe
connected and reading 20 degrees. -/
def envRefluxUnplugged (t : Nat) : Env :=
  { millis := t, millisHistory := t, millisCheck := t,
    connected := fun i => decide (i ≠ TEMP_REFLUX),
    temperature := fun i => if i = TEMP_REFLUX then -127 else 20 }

/-- The running test state after a history sample taken at 61 s while the Cube probe was
unplugged: the newest entry of the Cube history is the sentinel. -/
def sentinelNewestController : Controller :=
  updateTemperatureHistory (envCubeUnplugged 61000) runningController

/-- A run whose first history sample, taken at 1000 ms, stored -110 degrees for the Cube (a
reading that is not the sentinel), followed by a sample at 61 s with the Cube at 20
degrees. -/
def coldEntryController : Controller :=
  updateTemperatureHistory (envAt 61000 20)
    (updateTemperatureHistory (envAt 1000 (-110)) { bootController with processRunning := true })

/-- The running test state with the rectification engine as the running process. -/
def rectificationController : Controller :=
  { runningController with rectificationRunning := true }

/-! ## utils.cpp and the process routes of webserver.cpp -/

/-- Modelled from the spec: the operation mode of the absent `utils.h`; `startProcess`
distinguishes `MODE_RECTIFICATION` and `MODE_DISTILLATION` and does nothing special for any
other value. -/
inductive OperationMode
  | MODE_RECTIFICATION
  | MODE_DISTILLATION
  | MODE_OTHER (value : Int)
  deriving DecidableEq

/-- Phases of the rectification process, as `getPhaseNameRussian` lists them. -/
inductive RectificationPhase
  | PHASE_NONE
  | PHASE_HEATING
  | PHASE_STABILIZATION
  | PHASE_HEADS
  | PHASE_POST_HEADS_STABILIZATION
  | PHASE_BODY
  | PHASE_TAILS
  | PHASE_COMPLETED
  deriving DecidableEq

/-- Phases of the distillation process, as `getDistPhaseNameRussian` lists them. -/
inductive DistillationPhase
  | DIST_PHASE_NONE
  | DIST_PHASE_HEATING
  | DIST_PHASE_DISTILLATION
  | DIST_PHASE_COMPLETED
  deriving DecidableEq

/-- Power control modes, as `getPowerControlModeName` lists them. -/
inductive PowerControlMode
  | POWER_CONTROL_MANUAL
  | POWER_CONTROL_PI
  | POWER_CONTROL_PZEM
  deriving DecidableEq

/-- Modelled from the spec: the heater command latched by the absent power module, either
the argument of the last `setPowerPercent` or the argument of the last `setPowerWatts`. -/
inductive PowerCommand
  | percent (p : Int)
  | watts (w : Int)
  deriving DecidableEq

/-- The fields of `rectParams` that `startProcess` reads. -/
structure RectParams where
  heatingPower : Int
  heatingPowerWatts : Int
  model : Int
  deriving DecidableEq

/-- The fields of `distParams` that `startProcess` reads. -/
structure DistParams where
  heatingPower : Int
  heatingPowerWatts : Int
  deriving DecidableEq

/-- The alternative rectification model (`settings.h`: 0 classical, 1 alternative). -/
def MODEL_ALTERNATIVE : Int := 1

/-- The globals that `utils.cpp` and the process routes of `webserver.cpp` read and write,
with the commands latched by the power, pump and valve modules. -/
structure ProcessState where
  systemRunning : Bool
  systemPaused : Bool
  currentMode : OperationMode
  rectPhase : RectificationPhase
  distPhase : DistillationPhase
  processStartTime : Nat
  headsCollected : ℚ
  bodyCollected : ℚ
  tailsCollected : ℚ
  distillationCollected : ℚ
  temperatureStabilized : Bool
  pausedPower : Int
  heaterCommand : PowerCommand
  pumpEnabled : Bool
  valveEnabled : Bool
  powerControlMode : PowerControlMode
  maxHeaterPowerWatts : Int
  rectParams : RectParams
  distParams : DistParams
  deriving DecidableEq

/-- The whole firmware state seen by `utils.cpp`: its own globals and the safety
supervisor. -/
structure World where
  proc : ProcessState
  ctl : Controller

/-- `wattsToPercent` (lines 281-283), `(int)((float)watts * 100.0f / maxHeaterPowerWatts)`,
in integer arithmetic: the quotient truncated toward zero, as the cast to `int` does. The
source forms the product and the quotient in binary32, so its value can differ from this
one once an operand or the product is not exact in binary32 (from 2^24 on), and it is
undefined for a divisor 0, where this definition gives 0. No theorem below depends on the
value returned. -/
def wattsToPercent (w : World) (watts : Int) : Int :=
  Int.tdiv (watts * 100) w.proc.maxHeaterPowerWatts

/-- The call `setPowerPercent(p)`. -/
def setPowerPercent (p : Int) (w : World) : World :=
  { w with proc := { w.proc with heaterCommand := PowerCommand.percent p } }

/-- The call `setPowerWatts(x)`. -/
def setPowerWatts (x : Int) (w : World) : World :=
  { w with proc := { w.proc with heaterCommand := PowerCommand.watts x } }

/-- Modelled from the spec: `getCurrentPowerPercent()` of the absent power module reports
the latched command as a percentage ("heater_watts = heater_percent x max_heater_watts /
100"). -/
def getCurrentPowerPercent (w : World) : Int :=
  match w.proc.heaterCommand with
  | PowerCommand.percent p => p
  | PowerCommand.watts x => wattsToPercent w x

/-- The call `disablePump()`. -/
def disablePump (w : World) : World :=
  { w with proc := { w.proc with pumpEnabled := false } }

/-- The call `disableValve()`. -/
def disableValve (w : World) : World :=
  { w with proc := { w.proc with valveEnabled := false } }

/-- `checkRequiredSensors` (lines 345-359); `connected` is `tempSensors.isConnected`. -/
def checkRequiredSensors (connected : TempSensor → Bool) (w : World) : Bool :=
  if w.proc.currentMode = OperationMode.MODE_RECTIFICATION then
    if !connected TEMP_CUBE || !connected TEMP_REFLUX then false else true
  else if w.proc.currentMode = OperationMode.MODE_DISTILLATION then
    if !connected TEMP_CUBE then false else true
  else true

/-- `startProcess` (lines 126-193); `now` is the `millis()` read. Notifications, sounds and
screen changes only produce output and are left out. -/
def startProcess (now : Nat) (connected : TempSensor → Bool) (w : World) : World :=
  if w.proc.systemRunning then w
  else if !checkRequiredSensors connected w then w
  else
    let w1 : World :=
      { w with proc :=
        { w.proc with systemRunning := true, systemPaused := false, processStartTime := now } }
    if w1.proc.currentMode = OperationMode.MODE_RECTIFICATION then
      let w2 : World := { w1 with proc := { w1.proc with rectPhase := .PHASE_HEATING } }
      let w3 : World :=
        if w2.proc.powerControlMode = PowerControlMode.POWER_CONTROL_MANUAL then
          setPowerPercent w2.proc.rectParams.heatingPower w2
        else setPowerWatts w2.proc.rectParams.heatingPowerWatts w2
      let w4 : World :=
        { w3 with proc :=
          { w3.proc with headsCollected := 0, bodyCollected := 0, tailsCollected := 0 } }
      if w4.proc.rectParams.model = MODEL_ALTERNATIVE then
        { w4 with proc := { w4.proc with temperatureStabilized := false } }
      else w4
    else if w1.proc.currentMode = OperationMode.MODE_DISTILLATION then
      let w2 : World := { w1 with proc := { w1.proc with distPhase := .DIST_PHASE_HEATING } }
      let w3 : World :=
        if w2.proc.powerControlMode = PowerControlMode.POWER_CONTROL_MANUAL then
          setPowerPercent w2.proc.distParams.heatingPower w2
        else setPowerWatts w2.proc.distParams.heatingPowerWatts w2
      { w3 with proc := { w3.proc with distillationCollected := 0 } }
    else w1

/-- `stopProcess` (lines 196-230). -/
def stopProcess (w : World) : World :=
  if !w.proc.systemRunning then w
  else
    let w1 : World :=
      { w with proc := { w.proc with systemRunning := false, systemPaused := false } }
    disableValve (disablePump (setPowerPercent 0 w1))

/-- `pauseProcess` (lines 233-255). -/
def pauseProcess (w : World) : World :=
  if !w.proc.systemRunning || w.proc.systemPaused then w
  else
    let w1 : World := { w with proc := { w.proc with systemPaused := true } }
    let w2 : World := { w1 with proc := { w1.proc with pausedPower := getCurrentPowerPercent w1 } }
    disableValve (disablePump (setPowerPercent 10 w2))

/-- `resumeProcess` (lines 258-273). -/
def resumeProcess (w : World) : World :=
  if !w.proc.systemRunning || !w.proc.systemPaused then w
  else
    let w1 : World := { w with proc := { w.proc with systemPaused := false } }
    setPowerPercent w1.proc.pausedPower w1

/-- The conversion `%02lu` of `sprintf`: decimal, at least two digits. -/
def pad2 (n : Nat) : String :=
  if n < 10 then "0" ++ toString n else toString n

/-- `getFormattedTime` (lines 326-337): the text that `sprintf` produces; the source writes
it into `char buffer[9]`. -/
def getFormattedTime (timeInMs : Nat) : String :=
  let seconds := timeInMs / 1000
  let minutes := seconds / 60
  let hours := minutes / 60
  let minutes := minutes % 60
  let seconds := seconds % 60
  pad2 hours ++ ":" ++ pad2 minutes ++ ":" ++ pad2 seconds

/-- The size of the buffer of `getFormattedTime`. -/
def FORMATTED_TIME_BUFFER : Nat := 9

/-- `handlePowerChange` (`webserver.cpp` lines 744-781); `percent` and `watts` are the
parsed request parameters when present. Returns the `success` field of the answer. -/
def handlePowerChange (percent watts : Option Int) (w : World) : Bool × World :=
  match percent with
  | some p =>
    if p ≥ 0 ∧ p ≤ 100 then (true, setPowerPercent p w) else (false, w)
  | none =>
    match watts with
    | some x =>
      if x ≥ 0 ∧ x ≤ w.proc.maxHeaterPowerWatts then (true, setPowerWatts x w) else (false, w)
    | none => (false, w)

/-- The `setPower` command of `handleWebSocketMessage` (`webserver.cpp` lines 550-559);
`percent` is the `percent` field of the message when present. -/
def handleWebSocketSetPower (percent : Option Int) (w : World) : World :=
  match percent with
  | some p => setPowerPercent p w
  | none => w

/-- `handleStartProcess` (`webserver.cpp` lines 681-718); `mode` is the parsed `mode`
parameter when present. Returns the `success` field of the answer. -/
def handleStartProcess (now : Nat) (connected : TempSensor → Bool) (mode : Option OperationMode)
    (w : World) : Bool × World :=
  if w.proc.systemRunning then (false, w)
  else
    match mode with
    | none => (false, w)
    | some m =>
      if m = OperationMode.MODE_RECTIFICATION ∨ m = OperationMode.MODE_DISTILLATION then
        let w1 : World := { w with proc := { w.proc with currentMode := m } }
        if checkRequiredSensors connected w1 then (true, startProcess now connected w1)
        else (false, w1)
      else (false, w)

/-! ## web.cpp: the start and stop routes of the two engines -/

/-- Modelled from the spec: `startRectification()` of the absent `rectification.cpp`
("an engine ignores `start()` if any process is active"; "`start_X()` returns false when
another engine is active"); `ready` stands for everything else the engine checks. -/
def startRectification (ready : Bool) (c : Controller) : Bool × Controller :=
  if c.rectificationRunning || c.distillationRunning then (false, c)
  else if ready then (true, { c with rectificationRunning := true })
  else (false, c)

/-- Modelled from the spec: `startDistillation()` of the absent `distillation.cpp`, as
`startRectification`. -/
def startDistillation (ready : Bool) (c : Controller) : Bool × Controller :=
  if c.rectificationRunning || c.distillationRunning then (false, c)
  else if ready then (true, { c with distillationRunning := true })
  else (false, c)

/-- Modelled from the spec: `stopRectification()` of the absent `rectification.cpp`. -/
def stopRectification (c : Controller) : Controller :=
  { c with rectificationRunning := false }

/-- Modelled from the spec: `stopDistillation()` of the absent `distillation.cpp`. -/
def stopDistillation (c : Controller) : Controller :=
  { c with distillationRunning := false }

/-- Handler of `POST /api/rectification/start` (`web.cpp` lines 399-411). -/
def handleRectificationStart (ready : Bool) (c : Controller) : Nat × Controller :=
  if c.distillationRunning then (409, c)
  else
    let r := startRectification ready c
    if r.1 then (200, r.2) else (500, r.2)

/-- Handler of `POST /api/distillation/start` (`web.cpp` lines 447-459). -/
def handleDistillationStart (ready : Bool) (c : Controller) : Nat × Controller :=
  if c.rectificationRunning then (409, c)
  else
    let r := startDistillation ready c
    if r.1 then (200, r.2) else (500, r.2)

/-- Handler of `POST /api/rectification/stop` (`web.cpp` lines 414-422). -/
def handleRectificationStop (c : Controller) : Nat × Controller :=
  if !c.rectificationRunning then (400, c) else (200, stopRectification c)

/-- Handler of `POST /api/distillation/stop` (`web.cpp` lines 462-470). -/
def handleDistillationStop (c : Controller) : Nat × Controller :=
  if !c.distillationRunning then (400, c) else (200, stopDistillation c)

/-- The start and stop requests of the two engines. -/
inductive EngineRequest
  | rectificationStart (ready : Bool)
  | rectificationStop
  | distillationStart (ready : Bool)
  | distillationStop

/-- The state after one request. -/
def EngineRequest.apply (c : Controller) : EngineRequest → Controller
  | .rectificationStart ready => (handleRectificationStart ready c).2
  | .rectificationStop => (handleRectificationStop c).2
  | .distillationStart ready => (handleDistillationStart ready c).2
  | .distillationStop => (handleDistillationStop c).2

/-- The state after a sequence of requests, first request first. -/
def runRequests (reqs : List EngineRequest) (c : Controller) : Controller :=
  reqs.foldl EngineRequest.apply c

/-! ## Test inputs for the process functions -/

/-- A rectification in its body phase: running, not paused, heater commanded to 60 percent,
pump and valve on, 150 ml of heads and 420 ml of body collected; the supervisor is in the
running test state. -/
def runningWorld : World :=
  { proc :=
      { systemRunning := true, systemPaused := false
        currentMode := OperationMode.MODE_RECTIFICATION
        rectPhase := RectificationPhase.PHASE_BODY
        distPhase := DistillationPhase.DIST_PHASE_NONE
        processStartTime := 5000
        headsCollected := 150, bodyCollected := 420, tailsCollected := 0
        distillationCollected := 0
        temperatureStabilized := true
        pausedPower := 0
        heaterCommand := PowerCommand.percent 60
        pumpEnabled := true, valveEnabled := true
        powerControlMode := PowerControlMode.POWER_CONTROL_MANUAL
        maxHeaterPowerWatts := 2000
        rectParams := { heatingPower := 90, heatingPowerWatts := 1800, model := 0 }
        distParams := { heatingPower := 100, heatingPowerWatts := 2000 } }
    ctl := runningController }

/-- A store in which `EEPROM.begin` has loaded the stale version-7 record while the
in-memory record holds the factory defaults. -/
def staleLoadedStore : SettingsStore :=
  { sysSettings := factoryDefaults, eeprom := (eepromBegin true staleStore.eeprom).2 }

/-- Sensor readings at time `t`: all probes connected, Cube at `cube` degrees, the coolant
outlet at 60 degrees, the others at 20 degrees. -/
def envHotWater (t : Nat) (cube : ℚ) : Env :=
  { millis := t, millisHistory := t, millisCheck := t,
    connected := fun _ => true,
    temperature := fun i =>
      if i = TEMP_CUBE then cube else if i = TEMP_WATER_OUT then 60 else 20 }

/-! ## The test states are reachable -/

/-- The running test state is the state reached from boot by `runningControllerTrace`. -/
theorem runningController_reachable : runningControllerTrace = runningController := by
  simp [runningControllerTrace, runningController, bootController, updateSafety, tickSampled,
    updateTemperatureHistory, resetSafetyWatchdog, registerProcessStart, resetSafetyErrors,
    handleValveSet, handlePumpSet, handleHeaterSet, valveOpen, pumpStart, setHeaterPower,
    envAt, subU32, U32_MOD, SAFETY_CHECK_INTERVAL, TEMP_HISTORY_SIZE, cleanStatus, tickCheck,
    checkRectificationSafety, calculateTempRiseRate, riseRateOldestIdx, riseRateStep,
    List.range, List.range.loop, runtimeExceeded, toU32, DEFAULT_MAX_CUBE_TEMP,
    DEFAULT_MAX_WATER_OUT_TEMP, DEFAULT_MAX_TEMP_RISE_RATE, DEFAULT_MAX_RUNTIME_HOURS,
    Actuators.allOff]
  norm_num

/-! ## Basic facts about a tick -/

theorem updateSafety_gated (env : Env) (c : Controller)
    (h : tickEvaluated env c = false) : updateSafety env c = c := by
  have h1 : subU32 env.millis c.lastSafetyCheck < SAFETY_CHECK_INTERVAL := by
    simpa [tickEvaluated] using h
  simp [updateSafety, h1]

theorem tickSampled_processRunning (env : Env) (c : Controller) :
    (tickSampled env c).processRunning = c.processRunning := rfl

theorem tickSampled_currentStatus (env : Env) (c : Controller) :
    (tickSampled env c).currentStatus = c.currentStatus := rfl

theorem tickSampled_act (env : Env) (c : Controller) :
    (tickSampled env c).act = c.act := rfl

theorem updateSafety_idle (env : Env) (c : Controller)
    (h : tickEvaluated env c = true) (hp : c.processRunning = false) :
    updateSafety env c = tickSampled env c := by
  have h1 : ¬ subU32 env.millis c.lastSafetyCheck < SAFETY_CHECK_INTERVAL := by
    simpa [tickEvaluated] using h
  simp [updateSafety, h1, tickSampled_processRunning, hp]

theorem updateSafety_ok (env : Env) (c : Controller)
    (h : tickDetects env c SAFETY_OK) : updateSafety env c = tickSampled env c := by
  obtain ⟨h, hp, hc⟩ := h
  have h1 : ¬ subU32 env.millis c.lastSafetyCheck < SAFETY_CHECK_INTERVAL := by
    simpa [tickEvaluated] using h
  simp [updateSafety, h1, tickSampled_processRunning, hp, hc]

theorem updateSafety_raise (env : Env) (c : Controller) (code : SafetyErrorCode)
    (h : tickDetects env c code) (hne : code ≠ SAFETY_OK) :
    updateSafety env c = raiseSafetyError env.millis code (tickSampled env c) := by
  obtain ⟨h, hp, hc⟩ := h
  have h1 : ¬ subU32 env.millis c.lastSafetyCheck < SAFETY_CHECK_INTERVAL := by
    simpa [tickEvaluated] using h
  simp [updateSafety, h1, tickSampled_processRunning, hp, hc, hne]

/-- Every call of `updateSafety` falls in one of three cases: nothing happens, only the
history is sampled, or an error found by the check is raised. -/
theorem updateSafety_cases (env : Env) (c : Controller) :
    updateSafety env c = c ∨ updateSafety env c = tickSampled env c ∨
      (tickDetects env c (tickCheck env c) ∧ tickCheck env c ≠ SAFETY_OK ∧
        updateSafety env c = raiseSafetyError env.millis (tickCheck env c) (tickSampled env c)) := by
  by_cases h : tickEvaluated env c = true
  · by_cases hp : c.processRunning = true
    · by_cases hc : tickCheck env c = SAFETY_OK
      · exact Or.inr (Or.inl (updateSafety_ok env c ⟨h, hp, hc⟩))
      · exact Or.inr (Or.inr ⟨⟨h, hp, rfl⟩, hc, updateSafety_raise env c _ ⟨h, hp, rfl⟩ hc⟩)
    · exact Or.inr (Or.inl (updateSafety_idle env c h (by simpa using hp)))
  · exact Or.inl (updateSafety_gated env c (by simpa using h))

theorem emergencyStop_act (reason : String) (c : Controller) :
    (emergencyStop reason c).act = Actuators.allOff := rfl

theorem checkRectificationSafety_codes (env : Env) (c : Controller) (a b d e f : ℚ) :
    checkRectificationSafety env c a b d e f = SAFETY_ERROR_SENSOR_DISCONNECT ∨
    checkRectificationSafety env c a b d e f = SAFETY_ERROR_TEMPERATURE_HIGH ∨
    checkRectificationSafety env c a b d e f = SAFETY_ERROR_WATER_FLOW_LOW ∨
    checkRectificationSafety env c a b d e f = SAFETY_ERROR_TEMPERATURE_RISE ∨
    checkRectificationSafety env c a b d e f = SAFETY_ERROR_MAX_RUNTIME_EXCEEDED ∨
    checkRectificationSafety env c a b d e f = SAFETY_OK := by
  unfold checkRectificationSafety
  split_ifs <;> simp

theorem raiseSafetyError_act (t : Nat) (code : SafetyErrorCode) (c : Controller) :
    (raiseSafetyError t code c).act =
      if code = SAFETY_ERROR_TEMPERATURE_HIGH ∨ code = SAFETY_ERROR_PRESSURE_HIGH ∨
          code = SAFETY_ERROR_WATER_FLOW_LOW then Actuators.allOff else c.act := by
  unfold raiseSafetyError
  split_ifs <;> rfl

theorem tickCheck_ne_pressure (env : Env) (c : Controller) :
    tickCheck env c ≠ SAFETY_ERROR_PRESSURE_HIGH := by
  unfold tickCheck
  rcases checkRectificationSafety_codes env (tickSampled env c) (env.temperature TEMP_CUBE)
    (env.temperature TEMP_COLUMN) (env.temperature TEMP_REFLUX)
    (env.temperature TEMP_WATER_OUT) (env.temperature TEMP_TSA) with h | h | h | h | h | h <;>
  simp [h]

/-- The commanded actuator state after any call of `updateSafety`. -/
theorem updateSafety_act (env : Env) (c : Controller) :
    (updateSafety env c).act =
      if tickDetects env c SAFETY_ERROR_TEMPERATURE_HIGH ∨
          tickDetects env c SAFETY_ERROR_WATER_FLOW_LOW then Actuators.allOff else c.act := by
  rcases updateSafety_cases env c with h | h | ⟨hd, hne, h⟩
  · rw [h]
    have h1 : ¬ (tickDetects env c SAFETY_ERROR_TEMPERATURE_HIGH ∨
        tickDetects env c SAFETY_ERROR_WATER_FLOW_LOW) := by
      rintro (hd | hd)
      · have := updateSafety_raise env c _ hd (by simp)
        rw [h] at this
        have h3 := congrArg (fun x => x.processRunning) this
        simp [raiseSafetyError, emergencyStop, valveClose, pumpStop, setHeaterPower] at h3
        exact absurd hd.2.1 (by simp [h3])
      · have := updateSafety_raise env c _ hd (by simp)
        rw [h] at this
        have h3 := congrArg (fun x => x.processRunning) this
        simp [raiseSafetyError, emergencyStop, valveClose, pumpStop, setHeaterPower] at h3
        exact absurd hd.2.1 (by simp [h3])
    rw [if_neg h1]
  · by_cases h1 : tickDetects env c SAFETY_ERROR_TEMPERATURE_HIGH ∨
        tickDetects env c SAFETY_ERROR_WATER_FLOW_LOW
    · rw [if_pos h1]
      rcases h1 with hd | hd
      · rw [updateSafety_raise env c _ hd (by simp), raiseSafetyError_act]; simp
      · rw [updateSafety_raise env c _ hd (by simp), raiseSafetyError_act]; simp
    · rw [if_neg h1, h, tickSampled_act]
  · rw [h, raiseSafetyError_act, tickSampled_act]
    have hp := tickCheck_ne_pressure env c
    by_cases h1 : tickCheck env c = SAFETY_ERROR_TEMPERATURE_HIGH
    · have : tickDetects env c SAFETY_ERROR_TEMPERATURE_HIGH := ⟨hd.1, hd.2.1, h1⟩
      simp [h1, this]
    · by_cases h2 : tickCheck env c = SAFETY_ERROR_WATER_FLOW_LOW
      · have : tickDetects env c SAFETY_ERROR_WATER_FLOW_LOW := ⟨hd.1, hd.2.1, h2⟩
        simp [h2, this]
      · have n1 : ¬ tickDetects env c SAFETY_ERROR_TEMPERATURE_HIGH := fun x => h1 x.2.2
        have n2 : ¬ tickDetects env c SAFETY_ERROR_WATER_FLOW_LOW := fun x => h2 x.2.2
        simp [h1, h2, hp, n1, n2]

/-! ## C1: supervisor authority -/

/-- C1, as stated, fails: with a process registered, heater at 50, pump running and valve
open, an evaluated tick that finds the Cube probe unplugged leaves `isSystemSafe = false`
while the commanded actuator state is still heater 50, pump running, valve open. -/
theorem updateSafety_unsafe_yet_actuators_on :
    (updateSafety (envCubeUnplugged 61000) runningController).currentStatus.isSystemSafe = false ∧
    (updateSafety (envCubeUnplugged 61000) runningController).act.heaterPower = 50 ∧
    (updateSafety (envCubeUnplugged 61000) runningController).act.pumpRunning = true ∧
    (updateSafety (envCubeUnplugged 61000) runningController).act.valveOpen = true := by
  decide

/-- C1, amended: after any `updateSafety` tick that leaves `isSystemSafe = false`, the
commanded actuator state is heater 0, pump stopped, valve closed if the tick detected
`TempHigh` or `WaterFlowLow`, and otherwise it is exactly what it was before the tick
(the tick issued no actuator command). -/
theorem updateSafety_unsafe_actuators (env : Env) (c : Controller)
    (_hnotsafe : (updateSafety env c).currentStatus.isSystemSafe = false) :
    (tickDetects env c SAFETY_ERROR_TEMPERATURE_HIGH ∨
        tickDetects env c SAFETY_ERROR_WATER_FLOW_LOW →
      (updateSafety env c).act = Actuators.allOff) ∧
    (¬ (tickDetects env c SAFETY_ERROR_TEMPERATURE_HIGH ∨
        tickDetects env c SAFETY_ERROR_WATER_FLOW_LOW) →
      (updateSafety env c).act = c.act) := by
  rw [updateSafety_act]
  constructor
  · intro h; rw [if_pos h]
  · intro h; rw [if_neg h]

/-- C1, amended, at a concrete input: the over-temperature tick (Cube at 106 against the
limit 105) leaves `isSystemSafe = false`, and the theorem applies to it. -/
theorem updateSafety_unsafe_actuators_witness :
    (updateSafety (envAt 61000 106) runningController).currentStatus.isSystemSafe = false ∧
    ((tickDetects (envAt 61000 106) runningController SAFETY_ERROR_TEMPERATURE_HIGH ∨
        tickDetects (envAt 61000 106) runningController SAFETY_ERROR_WATER_FLOW_LOW →
      (updateSafety (envAt 61000 106) runningController).act = Actuators.allOff) ∧
    (¬ (tickDetects (envAt 61000 106) runningController SAFETY_ERROR_TEMPERATURE_HIGH ∨
        tickDetects (envAt 61000 106) runningController SAFETY_ERROR_WATER_FLOW_LOW) →
      (updateSafety (envAt 61000 106) runningController).act = runningController.act)) :=
  ⟨by decide, updateSafety_unsafe_actuators (envAt 61000 106) runningController (by decide)⟩

/-! ## C2: hard faults -/

/-- In the running test state, a tick at 61 s that reads Cube = 80 degrees (60 degrees above
the sample taken 60 s earlier) makes the check return `TempRise`. -/
theorem tickCheck_rise_example :
    tickCheck (envAt 61000 80) runningController = SAFETY_ERROR_TEMPERATURE_RISE := by
  simp [tickCheck, checkRectificationSafety, calculateTempRiseRate, riseRateOldestIdx,
    riseRateStep, tickSampled, updateTemperatureHistory, resetSafetyWatchdog, envAt,
    runningController, bootController, TEMP_HISTORY_SIZE, subU32, U32_MOD, List.range,
    List.range.loop, DEFAULT_MAX_CUBE_TEMP, DEFAULT_MAX_WATER_OUT_TEMP,
    DEFAULT_MAX_TEMP_RISE_RATE]
  norm_num

theorem tickDetects_rise_example :
    tickDetects (envAt 61000 80) runningController SAFETY_ERROR_TEMPERATURE_RISE :=
  ⟨by decide, rfl, tickCheck_rise_example⟩

/-- The state left by a tick that detected `TempRise`: status marked unsafe with the
temperature flag, nothing else touched. -/
theorem updateSafety_rise (env : Env) (c : Controller)
    (h : tickDetects env c SAFETY_ERROR_TEMPERATURE_RISE) :
    updateSafety env c =
      { tickSampled env c with
        currentStatus :=
          { c.currentStatus with
            isSystemSafe := false, errorCode := SAFETY_ERROR_TEMPERATURE_RISE,
            errorTime := env.millis,
            errorDescription := getSafetyErrorDescription SAFETY_ERROR_TEMPERATURE_RISE,
            isTemperatureError := true } } := by
  rw [updateSafety_raise env c _ h (by simp)]
  simp [raiseSafetyError, setErrorFlag, tickSampled_currentStatus]

/-- C2, as stated, fails for `TempRise`: in the running test state a tick detects
`TempRise`, yet afterwards `isEmergencyStop` is still false, the process is still
registered and the heater, pump and valve are still commanded on. -/
theorem updateSafety_rise_no_emergency_stop :
    tickDetects (envAt 61000 80) runningController SAFETY_ERROR_TEMPERATURE_RISE ∧
    (updateSafety (envAt 61000 80) runningController).currentStatus.errorCode
      = SAFETY_ERROR_TEMPERATURE_RISE ∧
    (updateSafety (envAt 61000 80) runningController).currentStatus.isEmergencyStop = false ∧
    (updateSafety (envAt 61000 80) runningController).processRunning = true ∧
    (updateSafety (envAt 61000 80) runningController).act.heaterPower = 50 ∧
    (updateSafety (envAt 61000 80) runningController).act.pumpRunning = true ∧
    (updateSafety (envAt 61000 80) runningController).act.valveOpen = true := by
  refine ⟨tickDetects_rise_example, ?_⟩
  rw [updateSafety_rise _ _ tickDetects_rise_example]
  refine ⟨rfl, rfl, rfl, rfl, rfl, rfl⟩

/-- C2, amended: whenever an `updateSafety` tick detects `TempHigh` or `WaterFlowLow` it
performs the emergency stop (heater 0, pump stopped, valve closed, process deregistered)
and sets `isEmergencyStop = true`; a tick that detects `TempRise` marks the status unsafe
with `isTemperatureError = true` but performs no emergency stop: the commanded actuator
state, `isEmergencyStop` and `processRunning` are left as they were. -/
theorem updateSafety_hard_faults (env : Env) (c : Controller) :
    (tickDetects env c SAFETY_ERROR_TEMPERATURE_HIGH ∨
        tickDetects env c SAFETY_ERROR_WATER_FLOW_LOW →
      (updateSafety env c).act = Actuators.allOff ∧
      (updateSafety env c).currentStatus.isEmergencyStop = true ∧
      (updateSafety env c).currentStatus.isSystemSafe = false ∧
      (updateSafety env c).processRunning = false) ∧
    (tickDetects env c SAFETY_ERROR_TEMPERATURE_RISE →
      (updateSafety env c).currentStatus.isSystemSafe = false ∧
      (updateSafety env c).currentStatus.errorCode = SAFETY_ERROR_TEMPERATURE_RISE ∧
      (updateSafety env c).currentStatus.isTemperatureError = true ∧
      (updateSafety env c).act = c.act ∧
      (updateSafety env c).currentStatus.isEmergencyStop = c.currentStatus.isEmergencyStop ∧
      (updateSafety env c).processRunning = c.processRunning) := by
  constructor
  · rintro (h | h)
    · rw [updateSafety_raise env c _ h (by simp)]
      exact ⟨rfl, rfl, rfl, rfl⟩
    · rw [updateSafety_raise env c _ h (by simp)]
      exact ⟨rfl, rfl, rfl, rfl⟩
  · intro h
    rw [updateSafety_rise env c h]
    exact ⟨rfl, rfl, rfl, rfl, rfl, rfl⟩

/-! ## C3: emergencyStop -/

/-- C3: for every prior state and every reason string, `emergencyStop` commands heater
power 0, pump stop and valve close, and leaves `isSystemSafe = false`,
`isEmergencyStop = true` and `processRunning = false`. -/
theorem emergencyStop_effect (reason : String) (c : Controller) :
    (emergencyStop reason c).act.heaterPower = 0 ∧
    (emergencyStop reason c).act.pumpRunning = false ∧
    (emergencyStop reason c).act.pumpFlowRate = 0 ∧
    (emergencyStop reason c).act.valveOpen = false ∧
    (emergencyStop reason c).currentStatus.isSystemSafe = false ∧
    (emergencyStop reason c).currentStatus.isEmergencyStop = true ∧
    (emergencyStop reason c).processRunning = false :=
  ⟨rfl, rfl, rfl, rfl, rfl, rfl, rfl⟩

/-- C2, amended, at concrete inputs: the over-temperature tick (Cube 106 against 105) is
stopped, the rise-rate tick (Cube 80, 60 degrees per minute) is not. -/
theorem updateSafety_hard_faults_witness :
    ((updateSafety (envAt 61000 106) runningController).act = Actuators.allOff ∧
      (updateSafety (envAt 61000 106) runningController).currentStatus.isEmergencyStop = true ∧
      (updateSafety (envAt 61000 106) runningController).currentStatus.isSystemSafe = false ∧
      (updateSafety (envAt 61000 106) runningController).processRunning = false) ∧
    ((updateSafety (envAt 61000 80) runningController).currentStatus.isSystemSafe = false ∧
      (updateSafety (envAt 61000 80) runningController).currentStatus.errorCode
        = SAFETY_ERROR_TEMPERATURE_RISE ∧
      (updateSafety (envAt 61000 80) runningController).currentStatus.isTemperatureError = true ∧
      (updateSafety (envAt 61000 80) runningController).act = runningController.act ∧
      (updateSafety (envAt 61000 80) runningController).currentStatus.isEmergencyStop
        = runningController.currentStatus.isEmergencyStop ∧
      (updateSafety (envAt 61000 80) runningController).processRunning
        = runningController.processRunning) :=
  ⟨(updateSafety_hard_faults (envAt 61000 106) runningController).1
      (Or.inl ⟨by decide, rfl, by decide⟩),
   (updateSafety_hard_faults (envAt 61000 80) runningController).2 tickDetects_rise_example⟩

/-! ## C4: the emergency latch and the manual-override handlers -/

/-- C4, as stated, fails: after an emergency stop at idle, with `isEmergencyStop` set and no
reset performed, the three manual-override handlers answer 200 and forward a heater power
of 50, a pump flow of 250 ml/min and valve-open to the actuators. -/
theorem handlers_forward_while_emergency_stop :
    (emergencyStop "operator" bootController).currentStatus.isEmergencyStop = true ∧
    (handleHeaterSet (some 50) (emergencyStop "operator" bootController)).1 = 200 ∧
    (handleHeaterSet (some 50) (emergencyStop "operator" bootController)).2.act.heaterPower = 50 ∧
    (handlePumpSet (some 250) (emergencyStop "operator" bootController)).1 = 200 ∧
    (handlePumpSet (some 250) (emergencyStop "operator" bootController)).2.act.pumpRunning = true ∧
    (handlePumpSet (some 250) (emergencyStop "operator" bootController)).2.act.pumpFlowRate = 250 ∧
    (handleValveSet (some "true") (emergencyStop "operator" bootController)).1 = 200 ∧
    (handleValveSet (some "true") (emergencyStop "operator" bootController)).2.act.valveOpen = true ∧
    (handleHeaterSet (some 50)
      (emergencyStop "operator" bootController)).2.currentStatus.isEmergencyStop = true := by
  decide

/-- C4, amended: the latch set by `emergencyStop` blocks `resetSafetyErrors` only. The
`/api/heater/set`, `/api/pump/set` and `/api/valve/set` handlers consult nothing but the
engines' running flags: while `isEmergencyStop` is set and no engine is running they answer
200 and forward the requested heater power, a positive pump flow and valve-open to the
actuators, leaving the safety status as it is. -/
theorem handlers_forward_despite_latch (c : Controller) (p : Int) (f : ℚ)
    (hf : 0 < f)
    (hlatch : c.currentStatus.isEmergencyStop = true)
    (hrect : c.rectificationRunning = false) (hdist : c.distillationRunning = false) :
    (resetSafetyErrors c).1 = false ∧
    handleHeaterSet (some p) c = (200, setHeaterPower p c) ∧
    (handleHeaterSet (some p) c).2.act.heaterPower = p ∧
    handlePumpSet (some f) c = (200, pumpStart f c) ∧
    (handlePumpSet (some f) c).2.act.pumpRunning = true ∧
    (handlePumpSet (some f) c).2.act.pumpFlowRate = f ∧
    handleValveSet (some "true") c = (200, valveOpen c) ∧
    (handleValveSet (some "true") c).2.act.valveOpen = true ∧
    (handleHeaterSet (some p) c).2.currentStatus = c.currentStatus ∧
    (handlePumpSet (some f) c).2.currentStatus = c.currentStatus ∧
    (handleValveSet (some "true") c).2.currentStatus = c.currentStatus := by
  have hh : handleHeaterSet (some p) c = (200, setHeaterPower p c) := by
    simp [handleHeaterSet, hrect, hdist]
  have hp : handlePumpSet (some f) c = (200, pumpStart f c) := by
    simp [handlePumpSet, hrect, hdist, hf]
  have hv : handleValveSet (some "true") c = (200, valveOpen c) := by
    simp [handleValveSet, hrect, hdist]
  refine ⟨by simp [resetSafetyErrors, hlatch], hh, ?_, hp, ?_, ?_, hv, ?_, ?_, ?_, ?_⟩ <;>
    simp only [hh, hp, hv] <;> rfl

/-- C4, amended, at a concrete input: the state right after an operator emergency stop,
heater request 50 and pump request 250 ml/min. -/
theorem handlers_forward_despite_latch_witness :
    (0 : ℚ) < 250 ∧
    (emergencyStop "operator" bootController).currentStatus.isEmergencyStop = true ∧
    (emergencyStop "operator" bootController).rectificationRunning = false ∧
    (emergencyStop "operator" bootController).distillationRunning = false ∧
    (handleHeaterSet (some 50) (emergencyStop "operator" bootController)).2.act.heaterPower = 50 ∧
    (handlePumpSet (some 250) (emergencyStop "operator" bootController)).2.act.pumpRunning = true ∧
    (handleValveSet (some "true") (emergencyStop "operator" bootController)).2.act.valveOpen
      = true :=
  ⟨by norm_num, rfl, rfl, rfl,
   (handlers_forward_despite_latch (emergencyStop "operator" bootController) 50 250
      (by norm_num) rfl rfl rfl).2.2.1,
   (handlers_forward_despite_latch (emergencyStop "operator" bootController) 50 250
      (by norm_num) rfl rfl rfl).2.2.2.2.1,
   (handlers_forward_despite_latch (emergencyStop "operator" bootController) 50 250
      (by norm_num) rfl rfl rfl).2.2.2.2.2.2.2.1⟩

/-! ## C5: resetSafetyErrors -/

/-- C5: `resetSafetyErrors` returns false exactly when `isEmergencyStop` or `isSensorError`
is set, and then leaves the whole state (the safety status included) unchanged; otherwise
it returns true and leaves `isSystemSafe = true`, `errorCode = SAFETY_OK` and the
temperature, water-flow, pressure and runtime flags all false. -/
theorem resetSafetyErrors_spec (c : Controller) :
    ((resetSafetyErrors c).1 = false ↔
      (c.currentStatus.isEmergencyStop = true ∨ c.currentStatus.isSensorError = true)) ∧
    ((resetSafetyErrors c).1 = false → (resetSafetyErrors c).2 = c) ∧
    ((resetSafetyErrors c).1 = true →
      (resetSafetyErrors c).2.currentStatus.isSystemSafe = true ∧
      (resetSafetyErrors c).2.currentStatus.errorCode = SAFETY_OK ∧
      (resetSafetyErrors c).2.currentStatus.isTemperatureError = false ∧
      (resetSafetyErrors c).2.currentStatus.isWaterFlowError = false ∧
      (resetSafetyErrors c).2.currentStatus.isPressureError = false ∧
      (resetSafetyErrors c).2.currentStatus.isRuntimeError = false) := by
  unfold resetSafetyErrors
  by_cases h : (c.currentStatus.isEmergencyStop || c.currentStatus.isSensorError) = true
  · rw [if_pos h]
    simpa using h
  · rw [if_neg h]
    simp only [Bool.or_eq_true, not_or, Bool.not_eq_true] at h
    simp [h.1, h.2]

/-! ## C6: sticky faults -/

theorem raiseSafetyError_isSystemSafe (t : Nat) (code : SafetyErrorCode) (c : Controller) :
    (raiseSafetyError t code c).currentStatus.isSystemSafe = false := by
  cases code <;> rfl

theorem raiseSafetyError_isEmergencyStop (t : Nat) (code : SafetyErrorCode) (c : Controller)
    (h : c.currentStatus.isEmergencyStop = true) :
    (raiseSafetyError t code c).currentStatus.isEmergencyStop = true := by
  cases code <;> first | rfl | exact h

theorem raiseSafetyError_isSensorError (t : Nat) (code : SafetyErrorCode) (c : Controller)
    (h : c.currentStatus.isSensorError = true) :
    (raiseSafetyError t code c).currentStatus.isSensorError = true := by
  cases code <;> first | rfl | exact h

theorem updateSafety_isEmergencyStop (env : Env) (c : Controller)
    (h : c.currentStatus.isEmergencyStop = true) :
    (updateSafety env c).currentStatus.isEmergencyStop = true := by
  rcases updateSafety_cases env c with h1 | h1 | ⟨_, _, h1⟩
  · rw [h1]; exact h
  · rw [h1]; exact h
  · rw [h1]; exact raiseSafetyError_isEmergencyStop _ _ _ h

theorem updateSafety_isSensorError (env : Env) (c : Controller)
    (h : c.currentStatus.isSensorError = true) :
    (updateSafety env c).currentStatus.isSensorError = true := by
  rcases updateSafety_cases env c with h1 | h1 | ⟨_, _, h1⟩
  · rw [h1]; exact h
  · rw [h1]; exact h
  · rw [h1]; exact raiseSafetyError_isSensorError _ _ _ h

theorem updateSafety_isSystemSafe (env : Env) (c : Controller)
    (h : c.currentStatus.isSystemSafe = false) :
    (updateSafety env c).currentStatus.isSystemSafe = false := by
  rcases updateSafety_cases env c with h1 | h1 | ⟨_, _, h1⟩
  · rw [h1]; exact h
  · rw [h1]; exact h
  · rw [h1]; exact raiseSafetyError_isSystemSafe _ _ _

theorem resetSafetyErrors_sticky (c : Controller)
    (h : c.currentStatus.isEmergencyStop = true ∨ c.currentStatus.isSensorError = true) :
    resetSafetyErrors c = (false, c) := by
  unfold resetSafetyErrors
  rw [if_pos]
  simpa using h

theorem resetSafetyErrors_isEmergencyStop (c : Controller) :
    (resetSafetyErrors c).2.currentStatus.isEmergencyStop = c.currentStatus.isEmergencyStop := by
  unfold resetSafetyErrors
  split_ifs <;> rfl

theorem resetSafetyErrors_isSensorError (c : Controller) :
    (resetSafetyErrors c).2.currentStatus.isSensorError = c.currentStatus.isSensorError := by
  unfold resetSafetyErrors
  split_ifs <;> rfl

theorem registerProcessStart_sticky (now : Nat) (c : Controller)
    (h : c.currentStatus.isEmergencyStop = true ∨ c.currentStatus.isSensorError = true) :
    (registerProcessStart now c).currentStatus = c.currentStatus := by
  unfold registerProcessStart
  rw [resetSafetyErrors_sticky _ (by exact h)]

/-- No call other than `initSafety` clears `isEmergencyStop`. -/
theorem apply_isEmergencyStop (op : SafetyOp) (c : Controller)
    (h : c.currentStatus.isEmergencyStop = true) :
    (op.apply c).currentStatus.isEmergencyStop = true := by
  cases op with
  | updateSafety env => exact updateSafety_isEmergencyStop env c h
  | resetSafetyErrors =>
    show (resetSafetyErrors c).2.currentStatus.isEmergencyStop = true
    rw [resetSafetyErrors_isEmergencyStop]; exact h
  | registerProcessStart now =>
    show (registerProcessStart now c).currentStatus.isEmergencyStop = true
    rw [registerProcessStart_sticky now c (Or.inl h)]; exact h
  | registerProcessEnd => exact h
  | emergencyStop reason => rfl
  | setSafetyMaxRuntime hours =>
    show (setSafetyMaxRuntime hours c).currentStatus.isEmergencyStop = true
    unfold setSafetyMaxRuntime; split_ifs <;> exact h
  | setSafetyMaxCubeTemp t =>
    show (setSafetyMaxCubeTemp t c).currentStatus.isEmergencyStop = true
    unfold setSafetyMaxCubeTemp; split_ifs <;> exact h
  | setSafetyMaxTempRiseRate r =>
    show (setSafetyMaxTempRiseRate r c).currentStatus.isEmergencyStop = true
    unfold setSafetyMaxTempRiseRate; split_ifs <;> exact h
  | setSafetyMinWaterOutTemp t => exact h
  | setSafetyMaxWaterOutTemp t =>
    show (setSafetyMaxWaterOutTemp t c).currentStatus.isEmergencyStop = true
    unfold setSafetyMaxWaterOutTemp; split_ifs <;> exact h

/-- No call other than `initSafety` clears `isSensorError`. -/
theorem apply_isSensorError (op : SafetyOp) (c : Controller)
    (h : c.currentStatus.isSensorError = true) :
    (op.apply c).currentStatus.isSensorError = true := by
  cases op with
  | updateSafety env => exact updateSafety_isSensorError env c h
  | resetSafetyErrors =>
    show (resetSafetyErrors c).2.currentStatus.isSensorError = true
    rw [resetSafetyErrors_isSensorError]; exact h
  | registerProcessStart now =>
    show (registerProcessStart now c).currentStatus.isSensorError = true
    rw [registerProcessStart_sticky now c (Or.inr h)]; exact h
  | registerProcessEnd => exact h
  | emergencyStop reason => exact h
  | setSafetyMaxRuntime hours =>
    show (setSafetyMaxRuntime hours c).currentStatus.isSensorError = true
    unfold setSafetyMaxRuntime; split_ifs <;> exact h
  | setSafetyMaxCubeTemp t =>
    show (setSafetyMaxCubeTemp t c).currentStatus.isSensorError = true
    unfold setSafetyMaxCubeTemp; split_ifs <;> exact h
  | setSafetyMaxTempRiseRate r =>
    show (setSafetyMaxTempRiseRate r c).currentStatus.isSensorError = true
    unfold setSafetyMaxTempRiseRate; split_ifs <;> exact h
  | setSafetyMinWaterOutTemp t => exact h
  | setSafetyMaxWaterOutTemp t =>
    show (setSafetyMaxWaterOutTemp t c).currentStatus.isSensorError = true
    unfold setSafetyMaxWaterOutTemp; split_ifs <;> exact h

/-- While a sticky flag is set, no call other than `initSafety` makes the status safe. -/
theorem apply_isSystemSafe (op : SafetyOp) (c : Controller)
    (h : c.currentStatus.isSystemSafe = false)
    (hs : c.currentStatus.isEmergencyStop = true ∨ c.currentStatus.isSensorError = true) :
    (op.apply c).currentStatus.isSystemSafe = false := by
  cases op with
  | updateSafety env => exact updateSafety_isSystemSafe env c h
  | resetSafetyErrors =>
    show (resetSafetyErrors c).2.currentStatus.isSystemSafe = false
    rw [resetSafetyErrors_sticky c hs]; exact h
  | registerProcessStart now =>
    show (registerProcessStart now c).currentStatus.isSystemSafe = false
    rw [registerProcessStart_sticky now c hs]; exact h
  | registerProcessEnd => exact h
  | emergencyStop reason => rfl
  | setSafetyMaxRuntime hours =>
    show (setSafetyMaxRuntime hours c).currentStatus.isSystemSafe = false
    unfold setSafetyMaxRuntime; split_ifs <;> exact h
  | setSafetyMaxCubeTemp t =>
    show (setSafetyMaxCubeTemp t c).currentStatus.isSystemSafe = false
    unfold setSafetyMaxCubeTemp; split_ifs <;> exact h
  | setSafetyMaxTempRiseRate r =>
    show (setSafetyMaxTempRiseRate r c).currentStatus.isSystemSafe = false
    unfold setSafetyMaxTempRiseRate; split_ifs <;> exact h
  | setSafetyMinWaterOutTemp t => exact h
  | setSafetyMaxWaterOutTemp t =>
    show (setSafetyMaxWaterOutTemp t c).currentStatus.isSystemSafe = false
    unfold setSafetyMaxWaterOutTemp; split_ifs <;> exact h

/-- The sticky condition survives every sequence of calls that contains no `initSafety`. -/
theorem runOps_sticky (ops : List SafetyOp) (c : Controller)
    (h : c.currentStatus.isSystemSafe = false)
    (hs : c.currentStatus.isEmergencyStop = true ∨ c.currentStatus.isSensorError = true) :
    (runOps ops c).currentStatus.isSystemSafe = false ∧
    (c.currentStatus.isEmergencyStop = true →
      (runOps ops c).currentStatus.isEmergencyStop = true) ∧
    (c.currentStatus.isSensorError = true →
      (runOps ops c).currentStatus.isSensorError = true) := by
  induction ops generalizing c with
  | nil => exact ⟨h, id, id⟩
  | cons op ops ih =>
    have hs1 : (op.apply c).currentStatus.isEmergencyStop = true ∨
        (op.apply c).currentStatus.isSensorError = true :=
      hs.imp (apply_isEmergencyStop op c) (apply_isSensorError op c)
    obtain ⟨i1, i2, i3⟩ := ih (op.apply c) (apply_isSystemSafe op c h hs) hs1
    exact ⟨i1, fun he => i2 (apply_isEmergencyStop op c he),
      fun he => i3 (apply_isSensorError op c he)⟩

/-- C6: from any state with `isSystemSafe = false` and `isEmergencyStop` or `isSensorError`
set, every sequence of `updateSafety`, `resetSafetyErrors`, `registerProcessStart`,
`registerProcessEnd` and `emergencyStop` calls (and of threshold setters) leaves
`isSystemSafe = false` and each sticky flag that was set still set; `initSafety`, which is
not among these calls, clears all three. -/
theorem sticky_fault_monotone (ops : List SafetyOp) (c : Controller) (wdtReset : Bool)
    (hnotsafe : c.currentStatus.isSystemSafe = false)
    (hsticky : c.currentStatus.isEmergencyStop = true ∨ c.currentStatus.isSensorError = true) :
    (runOps ops c).currentStatus.isSystemSafe = false ∧
    (c.currentStatus.isEmergencyStop = true →
      (runOps ops c).currentStatus.isEmergencyStop = true) ∧
    (c.currentStatus.isSensorError = true →
      (runOps ops c).currentStatus.isSensorError = true) ∧
    (initSafety wdtReset (runOps ops c)).2.currentStatus.isSystemSafe = true ∧
    (initSafety wdtReset (runOps ops c)).2.currentStatus.isEmergencyStop = false ∧
    (initSafety wdtReset (runOps ops c)).2.currentStatus.isSensorError = false := by
  obtain ⟨h1, h2, h3⟩ := runOps_sticky ops c hnotsafe hsticky
  exact ⟨h1, h2, h3, rfl, rfl, rfl⟩

/-- C6 at a concrete input: after an operator emergency stop of the running test state, a
reset attempt, a clean tick, a process registration and a process end leave the status
unsafe and the emergency flag set. -/
theorem sticky_fault_monotone_witness :
    (emergencyStop "operator" runningController).currentStatus.isSystemSafe = false ∧
    ((emergencyStop "operator" runningController).currentStatus.isEmergencyStop = true ∨
      (emergencyStop "operator" runningController).currentStatus.isSensorError = true) ∧
    (runOps [SafetyOp.resetSafetyErrors, SafetyOp.updateSafety (envAt 61000 20),
        SafetyOp.registerProcessStart 62000, SafetyOp.registerProcessEnd]
      (emergencyStop "operator" runningController)).currentStatus.isSystemSafe = false ∧
    (runOps [SafetyOp.resetSafetyErrors, SafetyOp.updateSafety (envAt 61000 20),
        SafetyOp.registerProcessStart 62000, SafetyOp.registerProcessEnd]
      (emergencyStop "operator" runningController)).currentStatus.isEmergencyStop = true :=
  ⟨rfl, Or.inl rfl,
   (sticky_fault_monotone [SafetyOp.resetSafetyErrors, SafetyOp.updateSafety (envAt 61000 20),
      SafetyOp.registerProcessStart 62000, SafetyOp.registerProcessEnd]
      (emergencyStop "operator" runningController) false rfl (Or.inl rfl)).1,
   (sticky_fault_monotone [SafetyOp.resetSafetyErrors, SafetyOp.updateSafety (envAt 61000 20),
      SafetyOp.registerProcessStart 62000, SafetyOp.registerProcessEnd]
      (emergencyStop "operator" runningController) false rfl (Or.inl rfl)).2.1 rfl⟩

/-! ## C7: transient faults -/

/-- The state of the running test state after the rise-rate tick at 61 s. -/
theorem updateSafety_rise_example :
    updateSafety (envAt 61000 80) runningController =
      { tickSampled (envAt 61000 80) runningController with
        currentStatus :=
          { runningController.currentStatus with
            isSystemSafe := false, errorCode := SAFETY_ERROR_TEMPERATURE_RISE,
            errorTime := 61000,
            errorDescription := getSafetyErrorDescription SAFETY_ERROR_TEMPERATURE_RISE,
            isTemperatureError := true } } :=
  updateSafety_rise _ _ tickDetects_rise_example

/-- After the rise-rate tick, a tick 61 s later that reads Cube = 21 degrees finds every
check predicate false. -/
theorem tickCheck_calm_example :
    tickCheck (envAt 122000 21) (updateSafety (envAt 61000 80) runningController)
      = SAFETY_OK := by
  rw [updateSafety_rise_example]
  simp [tickCheck, checkRectificationSafety, calculateTempRiseRate, riseRateOldestIdx,
    riseRateStep, tickSampled, updateTemperatureHistory, resetSafetyWatchdog, envAt,
    runningController, bootController, TEMP_HISTORY_SIZE, subU32, U32_MOD, List.range,
    List.range.loop, DEFAULT_MAX_CUBE_TEMP, DEFAULT_MAX_WATER_OUT_TEMP,
    DEFAULT_MAX_TEMP_RISE_RATE, runtimeExceeded, toU32, DEFAULT_MAX_RUNTIME_HOURS]
  norm_num

theorem tickDetects_calm_example :
    tickDetects (envAt 122000 21) (updateSafety (envAt 61000 80) runningController)
      SAFETY_OK := by
  refine ⟨?_, ?_, tickCheck_calm_example⟩
  · rw [updateSafety_rise_example]; decide
  · rw [updateSafety_rise_example]; rfl

/-- A tick whose check finds nothing leaves the safety status as it was. -/
theorem updateSafety_ok_currentStatus (env : Env) (c : Controller)
    (h : tickDetects env c SAFETY_OK) :
    (updateSafety env c).currentStatus = c.currentStatus := by
  rw [updateSafety_ok env c h, tickSampled_currentStatus]

/-- C7, as stated, fails: a tick raises `TempRise` (no sticky flag is set); at the next
evaluated tick, 61 s later, every check predicate is false, and yet the status after that
tick is still `isSystemSafe = false` with `errorCode = TempRise`. -/
theorem transient_fault_not_self_clearing :
    (updateSafety (envAt 61000 80) runningController).currentStatus.errorCode
      = SAFETY_ERROR_TEMPERATURE_RISE ∧
    (updateSafety (envAt 61000 80) runningController).currentStatus.isEmergencyStop = false ∧
    (updateSafety (envAt 61000 80) runningController).currentStatus.isSensorError = false ∧
    tickDetects (envAt 122000 21) (updateSafety (envAt 61000 80) runningController)
      SAFETY_OK ∧
    (updateSafety (envAt 122000 21)
      (updateSafety (envAt 61000 80) runningController)).currentStatus.isSystemSafe = false ∧
    (updateSafety (envAt 122000 21)
      (updateSafety (envAt 61000 80) runningController)).currentStatus.errorCode
      = SAFETY_ERROR_TEMPERATURE_RISE := by
  refine ⟨?_, ?_, ?_, tickDetects_calm_example, ?_, ?_⟩
  · rw [updateSafety_rise_example]
  · rw [updateSafety_rise_example]; rfl
  · rw [updateSafety_rise_example]; rfl
  · rw [updateSafety_ok_currentStatus _ _ tickDetects_calm_example, updateSafety_rise_example]
  · rw [updateSafety_ok_currentStatus _ _ tickDetects_calm_example, updateSafety_rise_example]

/-- C7, amended: a fault raised by an `updateSafety` tick does not clear by itself. If at
the next evaluated tick every check predicate is false (the check returns `SAFETY_OK`),
that tick leaves the safety status exactly as it was, so an unsafe status stays unsafe; a
non-sticky fault is cleared only by a call to `resetSafetyErrors`, which then returns true
and restores `isSystemSafe = true`, `errorCode = SAFETY_OK`. -/
theorem transient_fault_needs_reset (env : Env) (c : Controller)
    (hclean : tickDetects env c SAFETY_OK)
    (hnonsticky : c.currentStatus.isEmergencyStop = false ∧
      c.currentStatus.isSensorError = false) :
    (updateSafety env c).currentStatus = c.currentStatus ∧
    (resetSafetyErrors (updateSafety env c)).1 = true ∧
    (resetSafetyErrors (updateSafety env c)).2.currentStatus.isSystemSafe = true ∧
    (resetSafetyErrors (updateSafety env c)).2.currentStatus.errorCode = SAFETY_OK := by
  have h := updateSafety_ok_currentStatus env c hclean
  refine ⟨h, ?_⟩
  unfold resetSafetyErrors
  rw [h, hnonsticky.1, hnonsticky.2]
  exact ⟨rfl, rfl, rfl⟩

/-- C7, amended, at a concrete input: the calm tick that follows the rise-rate tick of the
running test state. -/
theorem transient_fault_needs_reset_witness :
    tickDetects (envAt 122000 21) (updateSafety (envAt 61000 80) runningController)
      SAFETY_OK ∧
    (updateSafety (envAt 122000 21)
      (updateSafety (envAt 61000 80) runningController)).currentStatus
      = (updateSafety (envAt 61000 80) runningController).currentStatus ∧
    (resetSafetyErrors (updateSafety (envAt 122000 21)
      (updateSafety (envAt 61000 80) runningController))).1 = true :=
  ⟨tickDetects_calm_example,
   (transient_fault_needs_reset (envAt 122000 21)
      (updateSafety (envAt 61000 80) runningController) tickDetects_calm_example
      (by rw [updateSafety_rise_example]; exact ⟨rfl, rfl⟩)).1,
   (transient_fault_needs_reset (envAt 122000 21)
      (updateSafety (envAt 61000 80) runningController) tickDetects_calm_example
      (by rw [updateSafety_rise_example]; exact ⟨rfl, rfl⟩)).2.1⟩

/-! ## C8: scenario S2, over-temperature -/

/-- With Cube and Reflux connected, a Cube reading above `maxCubeTemp` makes the check of
a tick return `TempHigh`. -/
theorem tickCheck_temperature_high (env : Env) (c : Controller)
    (hcube : env.connected TEMP_CUBE = true) (hreflux : env.connected TEMP_REFLUX = true)
    (hhot : env.temperature TEMP_CUBE > c.maxCubeTemp) :
    tickCheck env c = SAFETY_ERROR_TEMPERATURE_HIGH := by
  have hhot1 : env.temperature TEMP_CUBE > (tickSampled env c).maxCubeTemp := hhot
  simp [tickCheck, checkRectificationSafety, hcube, hreflux, hhot1]

/-- C8, as stated, fails: from the clean running test state (`maxCubeTemp = 105`, all probes
connected) an evaluated tick with Cube = 106 yields `isSystemSafe = false` and
`errorCode = TempHigh`, but the following `resetSafetyErrors` call returns false and the
status stays unsafe. -/
theorem overtemperature_reset_refused :
    runningController.currentStatus = cleanStatus ∧
    runningController.maxCubeTemp = 105 ∧
    (updateSafety (envAt 61000 106) runningController).currentStatus.isSystemSafe = false ∧
    (updateSafety (envAt 61000 106) runningController).currentStatus.errorCode
      = SAFETY_ERROR_TEMPERATURE_HIGH ∧
    (resetSafetyErrors (updateSafety (envAt 61000 106) runningController)).1 = false ∧
    (resetSafetyErrors
      (updateSafety (envAt 61000 106) runningController)).2.currentStatus.isSystemSafe
      = false := by
  decide

/-- C8, amended: with a process registered and the Cube and Reflux probes connected, an
evaluated `updateSafety` tick whose Cube reading exceeds `maxCubeTemp` (106 against 105 in
the scenario) yields `isSystemSafe = false` and `errorCode = TempHigh` and, because the
tick performs the emergency stop, `isEmergencyStop = true`; the following
`resetSafetyErrors` call therefore returns false and leaves `isSystemSafe = false`. -/
theorem overtemperature_scenario (env : Env) (c : Controller)
    (hrun : c.processRunning = true) (heval : tickEvaluated env c = true)
    (hcube : env.connected TEMP_CUBE = true) (hreflux : env.connected TEMP_REFLUX = true)
    (hhot : env.temperature TEMP_CUBE > c.maxCubeTemp) :
    (updateSafety env c).currentStatus.isSystemSafe = false ∧
    (updateSafety env c).currentStatus.errorCode = SAFETY_ERROR_TEMPERATURE_HIGH ∧
    (updateSafety env c).currentStatus.isEmergencyStop = true ∧
    (updateSafety env c).act = Actuators.allOff ∧
    (resetSafetyErrors (updateSafety env c)).1 = false ∧
    (resetSafetyErrors (updateSafety env c)).2.currentStatus.isSystemSafe = false := by
  have hd : tickDetects env c SAFETY_ERROR_TEMPERATURE_HIGH :=
    ⟨heval, hrun, tickCheck_temperature_high env c hcube hreflux hhot⟩
  rw [updateSafety_raise env c _ hd (by simp)]
  exact ⟨rfl, rfl, rfl, rfl, rfl, rfl⟩

/-- C8, amended, at the literal values of the scenario: clean status, `maxCubeTemp = 105`,
Cube = 106 at 61 s. -/
theorem overtemperature_scenario_witness :
    runningController.processRunning = true ∧
    tickEvaluated (envAt 61000 106) runningController = true ∧
    (envAt 61000 106).connected TEMP_CUBE = true ∧
    (envAt 61000 106).connected TEMP_REFLUX = true ∧
    (envAt 61000 106).temperature TEMP_CUBE > runningController.maxCubeTemp ∧
    (updateSafety (envAt 61000 106) runningController).currentStatus.isSystemSafe = false ∧
    (updateSafety (envAt 61000 106) runningController).currentStatus.errorCode
      = SAFETY_ERROR_TEMPERATURE_HIGH ∧
    (updateSafety (envAt 61000 106) runningController).currentStatus.isEmergencyStop = true ∧
    (updateSafety (envAt 61000 106) runningController).act = Actuators.allOff ∧
    (resetSafetyErrors (updateSafety (envAt 61000 106) runningController)).1 = false ∧
    (resetSafetyErrors
      (updateSafety (envAt 61000 106) runningController)).2.currentStatus.isSystemSafe
      = false :=
  ⟨rfl, by decide, rfl, rfl, by decide,
   overtemperature_scenario (envAt 61000 106) runningController rfl (by decide) rfl rfl
     (by decide)⟩

/-! ## C9: scenario S3, sensor unplug -/

/-- With the Cube probe disconnected the check of a tick returns `SensorDisconnect`. -/
theorem tickCheck_cube_disconnected (env : Env) (c : Controller)
    (hcube : env.connected TEMP_CUBE = false) :
    tickCheck env c = SAFETY_ERROR_SENSOR_DISCONNECT := by
  simp [tickCheck, checkRectificationSafety, hcube]

/-- C9: with a process registered, an evaluated `updateSafety` tick in which the Cube probe
is disconnected yields `isSystemSafe = false`, `errorCode = SensorDisconnect` and
`isSensorError = true`, and `resetSafetyErrors` returns false right afterwards and after
every further sequence of supervisor calls that contains no `initSafety`. -/
theorem sensor_unplug_scenario (env : Env) (c : Controller) (ops : List SafetyOp)
    (hrun : c.processRunning = true) (heval : tickEvaluated env c = true)
    (hcube : env.connected TEMP_CUBE = false) :
    (updateSafety env c).currentStatus.isSystemSafe = false ∧
    (updateSafety env c).currentStatus.errorCode = SAFETY_ERROR_SENSOR_DISCONNECT ∧
    (updateSafety env c).currentStatus.isSensorError = true ∧
    (resetSafetyErrors (updateSafety env c)).1 = false ∧
    (resetSafetyErrors (runOps ops (updateSafety env c))).1 = false := by
  have hd : tickDetects env c SAFETY_ERROR_SENSOR_DISCONNECT :=
    ⟨heval, hrun, tickCheck_cube_disconnected env c hcube⟩
  have h1 : (updateSafety env c).currentStatus.isSystemSafe = false := by
    rw [updateSafety_raise env c _ hd (by simp)]; rfl
  have h2 : (updateSafety env c).currentStatus.errorCode = SAFETY_ERROR_SENSOR_DISCONNECT := by
    rw [updateSafety_raise env c _ hd (by simp)]; rfl
  have h3 : (updateSafety env c).currentStatus.isSensorError = true := by
    rw [updateSafety_raise env c _ hd (by simp)]; rfl
  have h4 := (runOps_sticky ops (updateSafety env c) h1 (Or.inr h3)).2.2 h3
  refine ⟨h1, h2, h3, ?_, ?_⟩
  · rw [resetSafetyErrors_sticky _ (Or.inr h3)]
  · rw [resetSafetyErrors_sticky _ (Or.inr h4)]

/-- C9 at a concrete input: the running test state, Cube unplugged at 61 s, followed by two
reset attempts and a further tick. -/
theorem sensor_unplug_scenario_witness :
    runningController.processRunning = true ∧
    tickEvaluated (envCubeUnplugged 61000) runningController = true ∧
    (envCubeUnplugged 61000).connected TEMP_CUBE = false ∧
    (updateSafety (envCubeUnplugged 61000) runningController).currentStatus.isSystemSafe
      = false ∧
    (updateSafety (envCubeUnplugged 61000) runningController).currentStatus.errorCode
      = SAFETY_ERROR_SENSOR_DISCONNECT ∧
    (updateSafety (envCubeUnplugged 61000) runningController).currentStatus.isSensorError
      = true ∧
    (resetSafetyErrors (updateSafety (envCubeUnplugged 61000) runningController)).1 = false ∧
    (resetSafetyErrors (runOps [SafetyOp.resetSafetyErrors, SafetyOp.resetSafetyErrors,
        SafetyOp.updateSafety (envAt 62000 20)]
      (updateSafety (envCubeUnplugged 61000) runningController))).1 = false :=
  ⟨rfl, by decide, rfl,
   sensor_unplug_scenario (envCubeUnplugged 61000) runningController
     [SafetyOp.resetSafetyErrors, SafetyOp.resetSafetyErrors,
       SafetyOp.updateSafety (envAt 62000 20)] rfl (by decide) rfl⟩

/-! ## C10: the max-runtime bound -/

/-- Once the four earlier checks pass, both check functions return what the runtime test
says. -/
theorem check_runtime_only (env : Env) (c : Controller)
    (cubeTemp columnTemp refluxTemp waterOutTemp tsaTemp : ℚ)
    (hcube : env.connected TEMP_CUBE = true) (hreflux : env.connected TEMP_REFLUX = true)
    (htemp : ¬ cubeTemp > c.maxCubeTemp)
    (hwater : ¬ (env.connected TEMP_WATER_OUT = true ∧ waterOutTemp > c.maxWaterOutTemp))
    (hrise : ¬ calculateTempRiseRate env c TEMP_CUBE > c.maxTempRiseRate) :
    checkRectificationSafety env c cubeTemp columnTemp refluxTemp waterOutTemp tsaTemp
      = (if runtimeExceeded env c then SAFETY_ERROR_MAX_RUNTIME_EXCEEDED else SAFETY_OK) ∧
    checkDistillationSafety env c cubeTemp waterOutTemp
      = (if runtimeExceeded env c then SAFETY_ERROR_MAX_RUNTIME_EXCEEDED else SAFETY_OK) := by
  unfold checkRectificationSafety checkDistillationSafety
  simp only [hcube, hreflux, Bool.not_true, Bool.or_self, Bool.false_eq_true, if_false,
    if_neg htemp, if_neg hwater, if_neg hrise]
  exact ⟨trivial, trivial⟩

/-- C10, as stated, fails at the boundary: with the limit at one hour and the process
registered at time 0, at `now = 3 600 000` ms (so `now - processStartTime` equals
`maxRuntimeHours * 3 600 000`) and no other fault present, both checks return `SAFETY_OK`,
not `MaxRuntime`. -/
theorem maxRuntime_not_inclusive :
    oneHourController.processRunning = true ∧
    ((envAt 3600000 20).millisCheck : Int) - oneHourController.processStartTime
      ≥ oneHourController.maxRuntimeHours * 3600000 ∧
    checkRectificationSafety (envAt 3600000 20) oneHourController 20 20 20 20 20
      = SAFETY_OK ∧
    checkDistillationSafety (envAt 3600000 20) oneHourController 20 20 = SAFETY_OK := by
  decide

/-- C10, amended: the max-runtime bound is exclusive. With a process registered and no
sensor, temperature, coolant or rise-rate fault present, both safety checks report
`MaxRuntime` exactly when `now - processStartTime > maxRuntimeHours * 3 600 000` ms, both
sides computed in 32-bit unsigned arithmetic, and report `SAFETY_OK` otherwise; when
neither side wraps this is the plain comparison of the two numbers. -/
theorem maxRuntime_exclusive (env : Env) (c : Controller)
    (cubeTemp columnTemp refluxTemp waterOutTemp tsaTemp : ℚ)
    (hrun : c.processRunning = true)
    (hcube : env.connected TEMP_CUBE = true) (hreflux : env.connected TEMP_REFLUX = true)
    (htemp : ¬ cubeTemp > c.maxCubeTemp)
    (hwater : ¬ (env.connected TEMP_WATER_OUT = true ∧ waterOutTemp > c.maxWaterOutTemp))
    (hrise : ¬ calculateTempRiseRate env c TEMP_CUBE > c.maxTempRiseRate) :
    (checkRectificationSafety env c cubeTemp columnTemp refluxTemp waterOutTemp tsaTemp
        = SAFETY_ERROR_MAX_RUNTIME_EXCEEDED ↔
      subU32 env.millisCheck c.processStartTime > toU32 (c.maxRuntimeHours * 3600000)) ∧
    (checkDistillationSafety env c cubeTemp waterOutTemp
        = SAFETY_ERROR_MAX_RUNTIME_EXCEEDED ↔
      subU32 env.millisCheck c.processStartTime > toU32 (c.maxRuntimeHours * 3600000)) ∧
    (¬ subU32 env.millisCheck c.processStartTime > toU32 (c.maxRuntimeHours * 3600000) →
      checkRectificationSafety env c cubeTemp columnTemp refluxTemp waterOutTemp tsaTemp
        = SAFETY_OK ∧
      checkDistillationSafety env c cubeTemp waterOutTemp = SAFETY_OK) ∧
    (c.processStartTime ≤ env.millisCheck → env.millisCheck < U32_MOD →
      0 ≤ c.maxRuntimeHours → c.maxRuntimeHours * 3600000 < U32_MOD →
      (subU32 env.millisCheck c.processStartTime > toU32 (c.maxRuntimeHours * 3600000) ↔
        (env.millisCheck : Int) - c.processStartTime > c.maxRuntimeHours * 3600000)) := by
  obtain ⟨h1, h2⟩ := check_runtime_only env c cubeTemp columnTemp refluxTemp waterOutTemp
    tsaTemp hcube hreflux htemp hwater hrise
  rw [h1, h2]
  have hr : runtimeExceeded env c = true ↔
      subU32 env.millisCheck c.processStartTime > toU32 (c.maxRuntimeHours * 3600000) := by
    simp [runtimeExceeded, hrun]
  refine ⟨?_, ?_, ?_, ?_⟩
  · rw [← hr]; by_cases h : runtimeExceeded env c = true <;> simp [h]
  · rw [← hr]; by_cases h : runtimeExceeded env c = true <;> simp [h]
  · intro h
    rw [← hr] at h
    simp [h]
  · intro hle hlt h0 hlt2
    unfold subU32 toU32 U32_MOD at *
    omega

/-- C10, amended, at a concrete input: limit one hour, process registered at time 0, all
readings at 20 degrees; one millisecond past the hour both checks report `MaxRuntime`. -/
theorem maxRuntime_exclusive_witness :
    oneHourController.processRunning = true ∧
    (envAt 3600001 20).connected TEMP_CUBE = true ∧
    (envAt 3600001 20).connected TEMP_REFLUX = true ∧
    ¬ (20 : ℚ) > oneHourController.maxCubeTemp ∧
    ¬ ((envAt 3600001 20).connected TEMP_WATER_OUT = true ∧
        (20 : ℚ) > oneHourController.maxWaterOutTemp) ∧
    ¬ calculateTempRiseRate (envAt 3600001 20) oneHourController TEMP_CUBE
        > oneHourController.maxTempRiseRate ∧
    checkRectificationSafety (envAt 3600001 20) oneHourController 20 20 20 20 20
      = SAFETY_ERROR_MAX_RUNTIME_EXCEEDED ∧
    checkDistillationSafety (envAt 3600001 20) oneHourController 20 20
      = SAFETY_ERROR_MAX_RUNTIME_EXCEEDED :=
  ⟨rfl, rfl, rfl, by decide, by decide, by decide,
   (maxRuntime_exclusive (envAt 3600001 20) oneHourController 20 20 20 20 20 rfl rfl rfl
      (by decide) (by decide) (by decide)).1.mpr (by decide),
   (maxRuntime_exclusive (envAt 3600001 20) oneHourController 20 20 20 20 20 rfl rfl rfl
      (by decide) (by decide) (by decide)).2.1.mpr (by decide)⟩

/-! ## C11: which check a tick runs -/

/-- In the distillation test state, with the Reflux probe unplugged and everything else in
order, `checkDistillationSafety` finds nothing. -/
theorem checkDistillationSafety_reflux_example :
    checkDistillationSafety (envRefluxUnplugged 61000)
      (tickSampled (envRefluxUnplugged 61000) distillationController) 20 20 = SAFETY_OK := by
  simp [checkDistillationSafety, calculateTempRiseRate, riseRateOldestIdx, riseRateStep,
    tickSampled, updateTemperatureHistory, resetSafetyWatchdog, envRefluxUnplugged,
    distillationController, runningController, bootController, TEMP_HISTORY_SIZE, subU32,
    U32_MOD, List.range, List.range.loop, DEFAULT_MAX_CUBE_TEMP, DEFAULT_MAX_WATER_OUT_TEMP,
    DEFAULT_MAX_TEMP_RISE_RATE, runtimeExceeded, toU32, DEFAULT_MAX_RUNTIME_HOURS]
  norm_num

/-- C11, the code at the failing input: the registered process is a distillation, Cube is
connected, every reading is 20 degrees and `checkDistillationSafety` returns `SAFETY_OK`,
yet the tick, which runs `checkRectificationSafety` whatever the engine, raises
`SensorDisconnect` and sets the sticky `isSensorError` because Reflux is unplugged. -/
theorem distillation_tick_raises_reflux_disconnect :
    distillationController.distillationRunning = true ∧
    distillationController.rectificationRunning = false ∧
    (envRefluxUnplugged 61000).connected TEMP_CUBE = true ∧
    (envRefluxUnplugged 61000).connected TEMP_REFLUX = false ∧
    checkDistillationSafety (envRefluxUnplugged 61000)
      (tickSampled (envRefluxUnplugged 61000) distillationController) 20 20 = SAFETY_OK ∧
    tickDetects (envRefluxUnplugged 61000) distillationController
      SAFETY_ERROR_SENSOR_DISCONNECT ∧
    (updateSafety (envRefluxUnplugged 61000) distillationController).currentStatus.errorCode
      = SAFETY_ERROR_SENSOR_DISCONNECT ∧
    (updateSafety (envRefluxUnplugged 61000) distillationController).currentStatus.isSensorError
      = true ∧
    (updateSafety (envRefluxUnplugged 61000) distillationController).currentStatus.isSystemSafe
      = false :=
  ⟨rfl, rfl, rfl, rfl, checkDistillationSafety_reflux_example, by decide, by decide,
    by decide, by decide⟩

/-! ## C12: soundness of the check table -/

/-- C12: `checkRectificationSafety` and `checkDistillationSafety` return a code other than
`SAFETY_OK` only if that code's predicate holds (`SensorDisconnect`: a required probe is
disconnected; `TempHigh`: `cubeTemp > maxCubeTemp`; `WaterFlowLow`: WaterOut connected and
`waterOutTemp > maxWaterOutTemp`; `TempRise`: rise rate of Cube above `maxTempRiseRate`;
`MaxRuntime`: the runtime test), and return `SAFETY_OK` only if none of the four sensor
predicates holds; a disconnected WaterOut probe never produces `WaterFlowLow`. -/
theorem check_table_sound (env : Env) (c : Controller)
    (cubeTemp columnTemp refluxTemp waterOutTemp tsaTemp : ℚ) :
    ((checkRectificationSafety env c cubeTemp columnTemp refluxTemp waterOutTemp tsaTemp
        = SAFETY_ERROR_SENSOR_DISCONNECT →
      env.connected TEMP_CUBE = false ∨ env.connected TEMP_REFLUX = false) ∧
     (checkRectificationSafety env c cubeTemp columnTemp refluxTemp waterOutTemp tsaTemp
        = SAFETY_ERROR_TEMPERATURE_HIGH → cubeTemp > c.maxCubeTemp) ∧
     (checkRectificationSafety env c cubeTemp columnTemp refluxTemp waterOutTemp tsaTemp
        = SAFETY_ERROR_WATER_FLOW_LOW →
      env.connected TEMP_WATER_OUT = true ∧ waterOutTemp > c.maxWaterOutTemp) ∧
     (checkRectificationSafety env c cubeTemp columnTemp refluxTemp waterOutTemp tsaTemp
        = SAFETY_ERROR_TEMPERATURE_RISE →
      calculateTempRiseRate env c TEMP_CUBE > c.maxTempRiseRate) ∧
     (checkRectificationSafety env c cubeTemp columnTemp refluxTemp waterOutTemp tsaTemp
        = SAFETY_ERROR_MAX_RUNTIME_EXCEEDED → runtimeExceeded env c = true) ∧
     (checkRectificationSafety env c cubeTemp columnTemp refluxTemp waterOutTemp tsaTemp
        = SAFETY_OK →
      env.connected TEMP_CUBE = true ∧ env.connected TEMP_REFLUX = true ∧
      ¬ cubeTemp > c.maxCubeTemp ∧
      ¬ (env.connected TEMP_WATER_OUT = true ∧ waterOutTemp > c.maxWaterOutTemp) ∧
      ¬ calculateTempRiseRate env c TEMP_CUBE > c.maxTempRiseRate) ∧
     (env.connected TEMP_WATER_OUT = false →
      checkRectificationSafety env c cubeTemp columnTemp refluxTemp waterOutTemp tsaTemp
        ≠ SAFETY_ERROR_WATER_FLOW_LOW)) ∧
    ((checkDistillationSafety env c cubeTemp waterOutTemp = SAFETY_ERROR_SENSOR_DISCONNECT →
      env.connected TEMP_CUBE = false) ∧
     (checkDistillationSafety env c cubeTemp waterOutTemp = SAFETY_ERROR_TEMPERATURE_HIGH →
      cubeTemp > c.maxCubeTemp) ∧
     (checkDistillationSafety env c cubeTemp waterOutTemp = SAFETY_ERROR_WATER_FLOW_LOW →
      env.connected TEMP_WATER_OUT = true ∧ waterOutTemp > c.maxWaterOutTemp) ∧
     (checkDistillationSafety env c cubeTemp waterOutTemp = SAFETY_ERROR_TEMPERATURE_RISE →
      calculateTempRiseRate env c TEMP_CUBE > c.maxTempRiseRate) ∧
     (checkDistillationSafety env c cubeTemp waterOutTemp
        = SAFETY_ERROR_MAX_RUNTIME_EXCEEDED → runtimeExceeded env c = true) ∧
     (checkDistillationSafety env c cubeTemp waterOutTemp = SAFETY_OK →
      env.connected TEMP_CUBE = true ∧ ¬ cubeTemp > c.maxCubeTemp ∧
      ¬ (env.connected TEMP_WATER_OUT = true ∧ waterOutTemp > c.maxWaterOutTemp) ∧
      ¬ calculateTempRiseRate env c TEMP_CUBE > c.maxTempRiseRate) ∧
     (env.connected TEMP_WATER_OUT = false →
      checkDistillationSafety env c cubeTemp waterOutTemp ≠ SAFETY_ERROR_WATER_FLOW_LOW)) := by
  constructor
  · unfold checkRectificationSafety
    split_ifs with h1 h2 h3 h4 h5 <;>
      simp_all
  · unfold checkDistillationSafety
    split_ifs with h1 h2 h3 h4 h5 <;>
      simp_all

/-! ## C16: tick gating -/

theorem subU32_self (a : Nat) : subU32 a a = 0 := by
  unfold subU32 U32_MOD
  omega

theorem raiseSafetyError_lastSafetyCheck (t : Nat) (code : SafetyErrorCode) (c : Controller) :
    (raiseSafetyError t code c).lastSafetyCheck = c.lastSafetyCheck := by
  cases code <;> rfl

/-- An evaluated tick stores its time in `lastSafetyCheck`. -/
theorem updateSafety_lastSafetyCheck (env : Env) (c : Controller)
    (h : tickEvaluated env c = true) :
    (updateSafety env c).lastSafetyCheck = env.millis := by
  by_cases hp : c.processRunning = true
  · by_cases hc : tickCheck env c = SAFETY_OK
    · rw [updateSafety_ok env c ⟨h, hp, hc⟩]; rfl
    · rw [updateSafety_raise env c _ ⟨h, hp, rfl⟩ hc, raiseSafetyError_lastSafetyCheck]; rfl
  · rw [updateSafety_idle env c h (by simpa using hp)]; rfl

/-- C16: an `updateSafety` call at time `now` with `now - lastSafetyCheck < 1000` ms changes
nothing at all (no history sample, ring index, `lastSafetyCheck` and safety status
untouched); consequently a second `updateSafety` call at the same time as the previous one,
whatever the sensors then read, changes nothing: two such calls have the effect of one. -/
theorem updateSafety_gating_idempotent (env env2 : Env) (c : Controller) :
    (subU32 env.millis c.lastSafetyCheck < SAFETY_CHECK_INTERVAL →
      updateSafety env c = c ∧
      (updateSafety env c).tempHistory = c.tempHistory ∧
      (updateSafety env c).tempHistoryTime = c.tempHistoryTime ∧
      (updateSafety env c).tempHistoryIndex = c.tempHistoryIndex ∧
      (updateSafety env c).lastSafetyCheck = c.lastSafetyCheck ∧
      (updateSafety env c).currentStatus = c.currentStatus) ∧
    (env2.millis = env.millis →
      updateSafety env2 (updateSafety env c) = updateSafety env c) := by
  constructor
  · intro h
    have hg : updateSafety env c = c := updateSafety_gated env c (by simp [tickEvaluated, h])
    rw [hg]
    exact ⟨rfl, rfl, rfl, rfl, rfl, rfl⟩
  · intro hm
    by_cases h : tickEvaluated env c = true
    · apply updateSafety_gated
      have hl := updateSafety_lastSafetyCheck env c h
      simp [tickEvaluated, hl, hm, subU32_self, SAFETY_CHECK_INTERVAL]
    · have h1 : tickEvaluated env c = false := by simpa using h
      rw [updateSafety_gated env c h1]
      apply updateSafety_gated
      simpa [tickEvaluated, hm] using h1

/-- C16 at a concrete input: in the running test state (`lastSafetyCheck = 1000`) a call at
1500 ms changes nothing, and after the tick at 61 s a second call at 61 s, with the Cube
now reading 106 degrees, changes nothing either. -/
theorem updateSafety_gating_idempotent_witness :
    subU32 (envAt 1500 80).millis runningController.lastSafetyCheck < SAFETY_CHECK_INTERVAL ∧
    updateSafety (envAt 1500 80) runningController = runningController ∧
    (envAt 61000 106).millis = (envAt 61000 20).millis ∧
    updateSafety (envAt 61000 106) (updateSafety (envAt 61000 20) runningController)
      = updateSafety (envAt 61000 20) runningController :=
  ⟨by decide,
   ((updateSafety_gating_idempotent (envAt 1500 80) (envAt 1500 80) runningController).1
      (by decide)).1,
   rfl,
   (updateSafety_gating_idempotent (envAt 61000 20) (envAt 61000 106) runningController).2 rfl⟩

/-! ## C17: settings round trip -/

/-- C17: for every settings record `s` carrying the current version, `saveSystemSettings`
with a successful commit followed by `loadSystemSettings` returns true and leaves the
in-memory record equal to `s`; the persisted record equals `s` as well. The record comes
back from the EEPROM and not from memory: whatever the in-memory record holds when
`loadSystemSettings` is called, on the EEPROM left by the save, or on that EEPROM after a
restart (`EEPROM.begin` reading the persisted record), the call returns true and leaves the
in-memory record equal to `s`. -/
theorem settings_round_trip (st : SettingsStore)
    (hversion : st.sysSettings.settingsVersion = SETTINGS_VERSION) :
    (saveSystemSettings true st).1 = true ∧
    (loadSystemSettings (saveSystemSettings true st).2).1 = true ∧
    (loadSystemSettings (saveSystemSettings true st).2).2.sysSettings = st.sysSettings ∧
    (loadSystemSettings (saveSystemSettings true st).2).2.eeprom.persisted = st.sysSettings ∧
    (∀ st2 : SettingsStore, st2.eeprom = (saveSystemSettings true st).2.eeprom →
      (loadSystemSettings st2).1 = true ∧
      (loadSystemSettings st2).2.sysSettings = st.sysSettings) ∧
    (∀ st2 : SettingsStore,
      st2.eeprom = (eepromBegin true (saveSystemSettings true st).2.eeprom).2 →
      (loadSystemSettings st2).1 = true ∧
      (loadSystemSettings st2).2.sysSettings = st.sysSettings) := by
  obtain ⟨s, e⟩ := st
  have hs : ({ s with settingsVersion := SETTINGS_VERSION } : SystemSettings) = s := by
    cases s
    simp only at hversion
    subst hversion
    rfl
  have hv : s.settingsVersion = SETTINGS_VERSION := hversion
  refine ⟨?_, ?_, ?_, ?_, ?_, ?_⟩
  · simp [saveSystemSettings, eepromCommit]
  · simp [saveSystemSettings, loadSystemSettings, eepromCommit, hs, hv]
  · simp [saveSystemSettings, loadSystemSettings, eepromCommit, hs, hv]
  · simp [saveSystemSettings, loadSystemSettings, eepromCommit, hs, hv]
  · intro st2 h2
    obtain ⟨s2, e2⟩ := st2
    simp only at h2
    subst h2
    simp [saveSystemSettings, loadSystemSettings, eepromCommit, hs, hv]
  · intro st2 h2
    obtain ⟨s2, e2⟩ := st2
    simp only at h2
    subst h2
    simp [saveSystemSettings, loadSystemSettings, eepromCommit, eepromBegin, hs, hv]

/-- C17 at a concrete input: the factory defaults, which carry the current version, are
saved; the in-memory record is then zeroed (it no longer carries the current version) and
`loadSystemSettings` brings the factory defaults back, from the EEPROM as the save left it
and from the EEPROM after a restart. -/
theorem settings_round_trip_witness :
    (resetSystemSettings staleStore).sysSettings.settingsVersion = SETTINGS_VERSION ∧
    zeroSettings.settingsVersion ≠ SETTINGS_VERSION ∧
    (loadSystemSettings (saveSystemSettings true (resetSystemSettings staleStore)).2).1
      = true ∧
    (loadSystemSettings
      (saveSystemSettings true (resetSystemSettings staleStore)).2).2.sysSettings
      = (resetSystemSettings staleStore).sysSettings ∧
    (loadSystemSettings
      { sysSettings := zeroSettings,
        eeprom := (saveSystemSettings true (resetSystemSettings staleStore)).2.eeprom }).1
      = true ∧
    (loadSystemSettings
      { sysSettings := zeroSettings,
        eeprom := (saveSystemSettings true (resetSystemSettings staleStore)).2.eeprom
      }).2.sysSettings = (resetSystemSettings staleStore).sysSettings ∧
    (loadSystemSettings
      { sysSettings := zeroSettings,
        eeprom := (eepromBegin true
          (saveSystemSettings true (resetSystemSettings staleStore)).2.eeprom).2
      }).2.sysSettings = (resetSystemSettings staleStore).sysSettings :=
  ⟨rfl, by decide,
   (settings_round_trip (resetSystemSettings staleStore) rfl).2.1,
   (settings_round_trip (resetSystemSettings staleStore) rfl).2.2.1,
   ((settings_round_trip (resetSystemSettings staleStore) rfl).2.2.2.2.1 _ rfl).1,
   ((settings_round_trip (resetSystemSettings staleStore) rfl).2.2.2.2.1 _ rfl).2,
   ((settings_round_trip (resetSystemSettings staleStore) rfl).2.2.2.2.2 _ rfl).2⟩

/-! ## C18: version gating -/

theorem resetSystemSettings_sysSettings (st : SettingsStore) :
    (resetSystemSettings st).sysSettings = factoryDefaults := rfl

theorem resetSystemSettings_eeprom (st : SettingsStore) :
    (resetSystemSettings st).eeprom = st.eeprom := rfl

theorem factoryDefaults_version : factoryDefaults.settingsVersion = SETTINGS_VERSION := rfl

theorem saveSystemSettings_sysSettings (ok : Bool) (st : SettingsStore) :
    (saveSystemSettings ok st).2.sysSettings
      = { st.sysSettings with settingsVersion := SETTINGS_VERSION } := by
  cases ok <;> rfl

theorem saveSystemSettings_image (ok : Bool) (st : SettingsStore) :
    (saveSystemSettings ok st).2.eeprom.image
      = { st.sysSettings with settingsVersion := SETTINGS_VERSION } := by
  cases ok <;> rfl

theorem saveSystemSettings_persisted (st : SettingsStore) :
    (saveSystemSettings true st).2.eeprom.persisted
      = { st.sysSettings with settingsVersion := SETTINGS_VERSION } := rfl

/-- C18, as stated, fails when the EEPROM does not cooperate. The persisted record carries
version 7. If the commit inside `saveSystemSettings` fails, `initSettings` still returns
true and the persisted record is still the version-7 record, not the factory defaults; if
`EEPROM.begin` fails, `initSettings` returns false and the in-memory record is not the
factory defaults either. -/
theorem initSettings_stale_record_survives :
    staleStore.eeprom.persisted.settingsVersion ≠ SETTINGS_VERSION ∧
    (initSettings true false staleStore).1 = true ∧
    (initSettings true false staleStore).2.eeprom.persisted.settingsVersion = 7 ∧
    (initSettings true false staleStore).2.eeprom.persisted ≠ factoryDefaults ∧
    (initSettings false true staleStore).1 = false ∧
    (initSettings false true staleStore).2.sysSettings ≠ factoryDefaults := by
  decide

/-- C18, amended: if the persisted record's `settingsVersion` differs from
`SETTINGS_VERSION`, `loadSystemSettings` (reading the image that `EEPROM.begin` loaded)
returns false, and `initSettings`, `EEPROM.begin` having succeeded, returns true and leaves
the in-memory record and the EEPROM image equal to the factory defaults with
`settingsVersion = SETTINGS_VERSION`, and the persisted record too when the commit succeeds;
every `saveSystemSettings` writes the current version. -/
theorem version_gating (st : SettingsStore) (commitOk : Bool)
    (hstale : st.eeprom.persisted.settingsVersion ≠ SETTINGS_VERSION) :
    (loadSystemSettings { st with eeprom := (eepromBegin true st.eeprom).2 }).1 = false ∧
    (initSettings true commitOk st).1 = true ∧
    (initSettings true commitOk st).2.sysSettings = factoryDefaults ∧
    factoryDefaults.settingsVersion = SETTINGS_VERSION ∧
    (initSettings true commitOk st).2.eeprom.image = factoryDefaults ∧
    (commitOk = true → (initSettings true commitOk st).2.eeprom.persisted = factoryDefaults) ∧
    (∀ (ok : Bool) (st2 : SettingsStore),
      (saveSystemSettings ok st2).2.sysSettings.settingsVersion = SETTINGS_VERSION ∧
      (saveSystemSettings ok st2).2.eeprom.image.settingsVersion = SETTINGS_VERSION ∧
      (ok = true →
        (saveSystemSettings ok st2).2.eeprom.persisted.settingsVersion = SETTINGS_VERSION)) := by
  have hload : (loadSystemSettings { st with eeprom := (eepromBegin true st.eeprom).2 }).1
      = false := by
    simp [loadSystemSettings, eepromBegin, hstale]
  have hinit : initSettings true commitOk st =
      (true, (saveSystemSettings commitOk (resetSystemSettings
        (loadSystemSettings { st with eeprom := (eepromBegin true st.eeprom).2 }).2)).2) := by
    simp [initSettings, eepromBegin, loadSystemSettings, hstale]
  have hfd : ({ factoryDefaults with settingsVersion := SETTINGS_VERSION } : SystemSettings)
      = factoryDefaults := rfl
  refine ⟨hload, ?_, ?_, rfl, ?_, ?_, ?_⟩
  · rw [hinit]
  · rw [hinit]
    show (saveSystemSettings commitOk _).2.sysSettings = factoryDefaults
    rw [saveSystemSettings_sysSettings, resetSystemSettings_sysSettings]
    exact hfd
  · rw [hinit]
    show (saveSystemSettings commitOk _).2.eeprom.image = factoryDefaults
    rw [saveSystemSettings_image, resetSystemSettings_sysSettings]
    exact hfd
  · intro hc
    rw [hinit, hc]
    show (saveSystemSettings true _).2.eeprom.persisted = factoryDefaults
    rw [saveSystemSettings_persisted, resetSystemSettings_sysSettings]
    exact hfd
  · intro ok st2
    refine ⟨?_, ?_, ?_⟩
    · rw [saveSystemSettings_sysSettings]
    · rw [saveSystemSettings_image]
    · intro hok
      rw [hok, saveSystemSettings_persisted]

/-- C18, amended, at a concrete input: the store whose persisted record carries version 7,
with a successful commit. -/
theorem version_gating_witness :
    staleStore.eeprom.persisted.settingsVersion ≠ SETTINGS_VERSION ∧
    (initSettings true true staleStore).1 = true ∧
    (initSettings true true staleStore).2.sysSettings = factoryDefaults ∧
    (initSettings true true staleStore).2.eeprom.persisted = factoryDefaults :=
  ⟨by decide, (version_gating staleStore true (by decide)).2.1,
   (version_gating staleStore true (by decide)).2.2.1,
   (version_gating staleStore true (by decide)).2.2.2.2.2.1 rfl⟩

/-! ## C19: factory defaults -/

/-- C19: from any prior in-memory record, `resetSystemSettings` produces the documented
defaults: heater max 2000 W; pump rates heads 50, body 250, tails 350 ml/min; rectification
temperatures heads 78.0, body 78.3, tails 92.0, end 97.0, maxCube 101.0, tailsCube 95.0;
reflux ratio 3.0, period 60 s; headsVolume 150, bodyVolume 2000; stabilisation 30 min,
postHeads 10 min; distillation startCollecting 70.0, end 97.0, maxCube 101.0, separateHeads
true, headsVolume 200, flowRate 800, headsFlowRate 200; safety maxRuntime 12 h, maxCube
105.0, maxRise 5.0, waterOut 5.0..50.0, emergencyStopEnabled and watchdogEnabled true; with
the current settings version. The result does not depend on the prior record. -/
theorem resetSystemSettings_defaults (st st2 : SettingsStore) :
    (resetSystemSettings st).sysSettings = (resetSystemSettings st2).sysSettings ∧
    (resetSystemSettings st).sysSettings.settingsVersion = SETTINGS_VERSION ∧
    (resetSystemSettings st).sysSettings.heaterSettings.maxPowerWatts = 2000 ∧
    (resetSystemSettings st).sysSettings.pumpSettings.headsFlowRate = 50 ∧
    (resetSystemSettings st).sysSettings.pumpSettings.bodyFlowRate = 250 ∧
    (resetSystemSettings st).sysSettings.pumpSettings.tailsFlowRate = 350 ∧
    (resetSystemSettings st).sysSettings.rectificationSettings.headsTemp = 78 ∧
    (resetSystemSettings st).sysSettings.rectificationSettings.bodyTemp = 783 / 10 ∧
    (resetSystemSettings st).sysSettings.rectificationSettings.tailsTemp = 92 ∧
    (resetSystemSettings st).sysSettings.rectificationSettings.endTemp = 97 ∧
    (resetSystemSettings st).sysSettings.rectificationSettings.maxCubeTemp = 101 ∧
    (resetSystemSettings st).sysSettings.rectificationSettings.tailsCubeTemp = 95 ∧
    (resetSystemSettings st).sysSettings.rectificationSettings.refluxRatio = 3 ∧
    (resetSystemSettings st).sysSettings.rectificationSettings.refluxPeriod = 60 ∧
    (resetSystemSettings st).sysSettings.rectificationSettings.headsVolume = 150 ∧
    (resetSystemSettings st).sysSettings.rectificationSettings.bodyVolume = 2000 ∧
    (resetSystemSettings st).sysSettings.rectificationSettings.stabilizationTime = 30 ∧
    (resetSystemSettings st).sysSettings.rectificationSettings.postHeadsStabilizationTime = 10 ∧
    (resetSystemSettings st).sysSettings.distillationSettings.startCollectingTemp = 70 ∧
    (resetSystemSettings st).sysSettings.distillationSettings.endTemp = 97 ∧
    (resetSystemSettings st).sysSettings.distillationSettings.maxCubeTemp = 101 ∧
    (resetSystemSettings st).sysSettings.distillationSettings.separateHeads = true ∧
    (resetSystemSettings st).sysSettings.distillationSettings.headsVolume = 200 ∧
    (resetSystemSettings st).sysSettings.distillationSettings.flowRate = 800 ∧
    (resetSystemSettings st).sysSettings.distillationSettings.headsFlowRate = 200 ∧
    (resetSystemSettings st).sysSettings.safetySettings.maxRuntimeHours = 12 ∧
    (resetSystemSettings st).sysSettings.safetySettings.maxCubeTemp = 105 ∧
    (resetSystemSettings st).sysSettings.safetySettings.maxTempRiseRate = 5 ∧
    (resetSystemSettings st).sysSettings.safetySettings.minWaterOutTemp = 5 ∧
    (resetSystemSettings st).sysSettings.safetySettings.maxWaterOutTemp = 50 ∧
    (resetSystemSettings st).sysSettings.safetySettings.emergencyStopEnabled = true ∧
    (resetSystemSettings st).sysSettings.safetySettings.watchdogEnabled = true := by
  refine ⟨rfl, rfl, rfl, rfl, rfl, rfl, rfl, rfl, rfl, rfl, rfl, rfl, rfl, rfl, rfl, rfl, rfl,
    rfl, rfl, rfl, rfl, rfl, rfl, rfl, rfl, rfl, rfl, rfl, rfl, rfl, rfl, rfl⟩

/-! ## C20: manual overrides while a process runs -/

/-- C20: for every request, if rectification or distillation is running then the
`/api/heater/set`, `/api/pump/set` and `/api/valve/set` handlers answer 409 and issue no
heater, pump or valve command: the whole state, the commanded actuator state included, is
left as it was. -/
theorem manual_override_rejected (c : Controller) (power : Option Int)
    (flowRate : Option ℚ) (openParam : Option String)
    (hrunning : c.rectificationRunning = true ∨ c.distillationRunning = true) :
    handleHeaterSet power c = (409, c) ∧
    handlePumpSet flowRate c = (409, c) ∧
    handleValveSet openParam c = (409, c) ∧
    (handleHeaterSet power c).2.act = c.act ∧
    (handlePumpSet flowRate c).2.act = c.act ∧
    (handleValveSet openParam c).2.act = c.act := by
  have h : (c.rectificationRunning || c.distillationRunning) = true := by
    simpa using hrunning
  simp [handleHeaterSet, handlePumpSet, handleValveSet, h]

/-- C20 at a concrete input: rectification running, requests for heater 50, pump 250 ml/min
and valve open. -/
theorem manual_override_rejected_witness :
    (rectificationController.rectificationRunning = true ∨
      rectificationController.distillationRunning = true) ∧
    handleHeaterSet (some 50) rectificationController = (409, rectificationController) ∧
    handlePumpSet (some 250) rectificationController = (409, rectificationController) ∧
    handleValveSet (some "true") rectificationController = (409, rectificationController) :=
  ⟨Or.inl rfl,
   (manual_override_rejected rectificationController (some 50) (some 250) (some "true")
      (Or.inl rfl)).1,
   (manual_override_rejected rectificationController (some 50) (some 250) (some "true")
      (Or.inl rfl)).2.1,
   (manual_override_rejected rectificationController (some 50) (some 250) (some "true")
      (Or.inl rfl)).2.2.1⟩



/-! ## The search loop of calculateTempRiseRate -/

theorem entryValid_iff (c : Controller) (s : TempSensor) (idx : Nat) :
    entryValid c s idx = true ↔
      (c.tempHistoryTime idx > 0 ∧ c.tempHistory s idx > -100 ∧
        subU32 (c.tempHistoryTime c.tempHistoryIndex) (c.tempHistoryTime idx) ≤ 300000) := by
  simp [entryValid, entryAge, and_assoc]

/-- Inside the loop `oldestTime` always equals `tempHistoryTime[oldestIdx]`, so the inner
test of line 438 always succeeds: a valid entry always replaces the candidate. -/
theorem riseRateStep_eq (c : Controller) (s : TempSensor) (acc : Nat × Nat) (i : Nat)
    (h : acc.2 = c.tempHistoryTime acc.1) :
    riseRateStep c s c.tempHistoryIndex acc i =
      if entryValid c s (ringIdx c i) = true then
        (ringIdx c i, c.tempHistoryTime (ringIdx c i))
      else acc := by
  by_cases hv : entryValid c s (ringIdx c i) = true
  · rw [if_pos hv]
    have hv1 := (entryValid_iff c s _).1 hv
    unfold ringIdx at hv1
    simp only [riseRateStep]
    rw [if_pos hv1, if_pos (Or.inr h)]
    rfl
  · rw [if_neg hv]
    have hv1 := fun x => hv ((entryValid_iff c s _).2 x)
    unfold ringIdx at hv1
    simp only [riseRateStep]
    rw [if_neg hv1]

/-- After `n` iterations the candidate is the valid entry furthest back among the first `n`
ring positions, or still the newest index when none of them is valid. -/
theorem riseRate_fold_char (c : Controller) (s : TempSensor) (n : Nat) :
    ((List.range n).foldl (riseRateStep c s c.tempHistoryIndex)
        (c.tempHistoryIndex, c.tempHistoryTime c.tempHistoryIndex)).2 =
      c.tempHistoryTime ((List.range n).foldl (riseRateStep c s c.tempHistoryIndex)
        (c.tempHistoryIndex, c.tempHistoryTime c.tempHistoryIndex)).1 ∧
    ((((List.range n).foldl (riseRateStep c s c.tempHistoryIndex)
        (c.tempHistoryIndex, c.tempHistoryTime c.tempHistoryIndex)).1 = c.tempHistoryIndex ∧
        ∀ i, i < n → entryValid c s (ringIdx c i) = false) ∨
      ∃ j, j < n ∧ entryValid c s (ringIdx c j) = true ∧
        (∀ i, j < i → i < n → entryValid c s (ringIdx c i) = false) ∧
        ((List.range n).foldl (riseRateStep c s c.tempHistoryIndex)
          (c.tempHistoryIndex, c.tempHistoryTime c.tempHistoryIndex)).1 = ringIdx c j) := by
  induction n with
  | zero => exact ⟨rfl, Or.inl ⟨rfl, fun i hi => absurd hi (Nat.not_lt_zero i)⟩⟩
  | succ n ih =>
    obtain ⟨h2, hcases⟩ := ih
    rw [List.range_succ, List.foldl_append, List.foldl_cons, List.foldl_nil,
      riseRateStep_eq c s _ n h2]
    by_cases hv : entryValid c s (ringIdx c n) = true
    · rw [if_pos hv]
      refine ⟨rfl, Or.inr ⟨n, Nat.lt_succ_self n, hv, ?_, rfl⟩⟩
      intro i h1 h3
      omega
    · rw [if_neg hv]
      have hvf : entryValid c s (ringIdx c n) = false := by simpa using hv
      refine ⟨h2, ?_⟩
      rcases hcases with ⟨h0, hall⟩ | ⟨j, hj, hjv, hjall, hje⟩
      · refine Or.inl ⟨h0, ?_⟩
        intro i hi
        rcases Nat.lt_succ_iff_lt_or_eq.1 hi with h | h
        · exact hall i h
        · rw [h]; exact hvf
      · refine Or.inr ⟨j, Nat.lt_succ_of_lt hj, hjv, ?_, hje⟩
        intro i h1 h3
        rcases Nat.lt_succ_iff_lt_or_eq.1 h3 with h | h
        · exact hjall i h1 h
        · rw [h]; exact hvf

/-- What the whole loop leaves in `oldestIdx`. -/
theorem riseRateOldestIdx_char (c : Controller) (s : TempSensor) :
    (riseRateOldestIdx c s = c.tempHistoryIndex ∧
        ∀ i, i < TEMP_HISTORY_SIZE → entryValid c s (ringIdx c i) = false) ∨
      ∃ j, j < TEMP_HISTORY_SIZE ∧ entryValid c s (ringIdx c j) = true ∧
        (∀ i, j < i → i < TEMP_HISTORY_SIZE → entryValid c s (ringIdx c i) = false) ∧
        riseRateOldestIdx c s = ringIdx c j :=
  (riseRate_fold_char c s TEMP_HISTORY_SIZE).2

theorem ringIdx_zero (c : Controller) (h : c.tempHistoryIndex < TEMP_HISTORY_SIZE) :
    ringIdx c 0 = c.tempHistoryIndex := by
  unfold ringIdx TEMP_HISTORY_SIZE at *
  omega

theorem entryAge_newest (c : Controller) : entryAge c c.tempHistoryIndex = 0 :=
  subU32_self _

/-- With timestamps non-decreasing in ring order, an entry further back is at least as old. -/
theorem entryAge_mono (c : Controller) (hidx : c.tempHistoryIndex < TEMP_HISTORY_SIZE)
    (hmono : ringMonotone c)
    (hrange : c.tempHistoryTime c.tempHistoryIndex < U32_MOD) (i j : Nat) (hij : i ≤ j)
    (hj : j < TEMP_HISTORY_SIZE) :
    entryAge c (ringIdx c i) ≤ entryAge c (ringIdx c j) := by
  have h1 := hmono i j hij hj
  have h2 := hmono 0 i (Nat.zero_le i) (lt_of_le_of_lt hij hj)
  rw [ringIdx_zero c hidx] at h2
  unfold entryAge subU32 U32_MOD at *
  omega

/-- With the arithmetic of lines 452-455 taken without rounding, the parametric function is
`calculateTempRiseRate`. -/
theorem calculateTempRiseRateWith_exact (env : Env) (c : Controller) (s : TempSensor) :
    calculateTempRiseRateWith riseRateQuotient env c s = calculateTempRiseRate env c s := rfl

/-- With timestamps non-decreasing in ring order and a 32-bit newest timestamp, the
`unsigned long` difference of line 436 is the age of the entry. -/
theorem entryAge_eq_specAge (c : Controller) (hidx : c.tempHistoryIndex < TEMP_HISTORY_SIZE)
    (hmono : ringMonotone c)
    (hrange : c.tempHistoryTime c.tempHistoryIndex < U32_MOD) (i : Nat)
    (hi : i < TEMP_HISTORY_SIZE) :
    entryAge c (ringIdx c i) = specAge c (ringIdx c i) := by
  have h := hmono 0 i (Nat.zero_le i) hi
  rw [ringIdx_zero c hidx] at h
  unfold entryAge specAge subU32 U32_MOD at *
  omega

/-- On a history in ring order whose readings are the sentinel or above -100 degrees, the
specification's eligible entries are the ones that pass the test of lines 434-436 and are
at least 30 s old. -/
theorem specEligible_iff (c : Controller) (s : TempSensor) (i : Nat)
    (hidx : c.tempHistoryIndex < TEMP_HISTORY_SIZE) (hmono : ringMonotone c)
    (hrange : c.tempHistoryTime c.tempHistoryIndex < U32_MOD)
    (hi : i < TEMP_HISTORY_SIZE) (hreadings : readingsInRange c s) :
    specEligible c s i = true ↔
      (entryValid c s (ringIdx c i) = true ∧ 30000 ≤ entryAge c (ringIdx c i)) := by
  have hr := hreadings i hi
  have hage := entryAge_eq_specAge c hidx hmono hrange i hi
  have hsent : c.tempHistory s (ringIdx c i) ≠ disconnectedSentinel ↔
      c.tempHistory s (ringIdx c i) > -100 := by
    constructor
    · intro hne
      rcases hr with h | h
      · exact absurd h hne
      · exact h
    · intro hgt heq
      rw [heq] at hgt
      unfold disconnectedSentinel at hgt
      norm_num at hgt
  simp only [specEligible, specSampleValid, entryValid, Bool.and_eq_true, decide_eq_true_eq,
    hsent, hage, Nat.pos_iff_ne_zero, gt_iff_lt]
  tauto

/-- C14, amended: for a connected probe and a history whose timestamps are non-decreasing
in ring order (ring index in range, newest timestamp a 32-bit value), whose readings are
the sentinel -127 or above -100 degrees and whose newest entry is a valid sample,
`calculateTempRiseRate` returns what the specification says: the quotient of
(newest - oldest) by the time span in minutes, formed by the arithmetic `quot` of lines
452-455 whatever its rounding, where oldest is the oldest valid history entry whose age
relative to the newest entry lies in [30 s, 300 s], and 0 when no such entry exists. -/
theorem calculateTempRiseRate_refines_spec (quot : ℚ → ℚ → Nat → ℚ) (env : Env)
    (c : Controller) (sensorIndex : TempSensor)
    (hconn : env.connected sensorIndex = true)
    (hidx : c.tempHistoryIndex < TEMP_HISTORY_SIZE)
    (hmono : ringMonotone c)
    (hrange : c.tempHistoryTime c.tempHistoryIndex < U32_MOD)
    (hreadings : readingsInRange c sensorIndex)
    (hnewest : specSampleValid c sensorIndex c.tempHistoryIndex = true) :
    calculateTempRiseRateWith quot env c sensorIndex = specRiseRateWith quot c sensorIndex := by
  have hk : specOldestSteps c sensorIndex < TEMP_HISTORY_SIZE := by
    have := Nat.findGreatest_le (P := fun i => specEligible c sensorIndex i = true)
      (TEMP_HISTORY_SIZE - 1)
    unfold specOldestSteps
    unfold TEMP_HISTORY_SIZE at *
    omega
  have hcalc : calculateTempRiseRateWith quot env c sensorIndex =
      if riseRateOldestIdx c sensorIndex = c.tempHistoryIndex ∨
          entryAge c (riseRateOldestIdx c sensorIndex) < 30000 then 0
      else quot (c.tempHistory sensorIndex c.tempHistoryIndex)
          (c.tempHistory sensorIndex (riseRateOldestIdx c sensorIndex))
          (entryAge c (riseRateOldestIdx c sensorIndex)) := by
    unfold calculateTempRiseRateWith
    simp only [hconn, Bool.not_true, Bool.false_eq_true, if_false]
    rfl
  rw [hcalc]
  unfold specRiseRateWith
  rw [if_pos hnewest]
  rcases riseRateOldestIdx_char c sensorIndex with ⟨h0, hall⟩ | ⟨j, hj, hjv, hjall, hje⟩
  · rw [if_pos (Or.inl h0), if_neg]
    intro he
    have := ((specEligible_iff c sensorIndex _ hidx hmono hrange hk hreadings).1 he).1
    rw [hall _ hk] at this
    exact Bool.false_ne_true this
  · by_cases hearly : riseRateOldestIdx c sensorIndex = c.tempHistoryIndex ∨
        entryAge c (riseRateOldestIdx c sensorIndex) < 30000
    · rw [if_pos hearly, if_neg]
      intro he
      obtain ⟨hev, hea⟩ := (specEligible_iff c sensorIndex _ hidx hmono hrange hk hreadings).1 he
      have hyoung : entryAge c (ringIdx c j) < 30000 := by
        rcases hearly with h | h
        · rw [← hje, h, entryAge_newest]; norm_num
        · rw [← hje]; exact h
      have hkj : specOldestSteps c sensorIndex ≤ j := by
        by_contra hcon
        have := hjall _ (Nat.lt_of_not_le hcon) hk
        rw [this] at hev
        exact Bool.false_ne_true hev
      have := entryAge_mono c hidx hmono hrange _ j hkj hj
      omega
    · rw [if_neg hearly]
      have hage : 30000 ≤ entryAge c (ringIdx c j) := by
        rw [← hje]
        exact Nat.le_of_not_lt (fun h => hearly (Or.inr h))
      have hel : specEligible c sensorIndex j = true :=
        (specEligible_iff c sensorIndex j hidx hmono hrange hj hreadings).2 ⟨hjv, hage⟩
      have hfind : specOldestSteps c sensorIndex = j := by
        unfold specOldestSteps
        rw [Nat.findGreatest_eq_iff]
        refine ⟨?_, fun _ => hel, ?_⟩
        · unfold TEMP_HISTORY_SIZE at *; omega
        · intro n hn hn9 hen
          have hn10 : n < TEMP_HISTORY_SIZE := by unfold TEMP_HISTORY_SIZE at *; omega
          have := ((specEligible_iff c sensorIndex n hidx hmono hrange hn10 hreadings).1 hen).1
          rw [hjall n hn hn10] at this
          exact Bool.false_ne_true this
      rw [hfind, if_pos hel, hje, entryAge_eq_specAge c hidx hmono hrange j hj]

/-- The history of the running test state after the sample at 61 s is in ring order. -/
theorem ringMonotone_rise_example :
    ringMonotone (tickSampled (envAt 61000 80) runningController) := by
  intro i j hij hj
  unfold TEMP_HISTORY_SIZE at hj
  interval_cases j <;> interval_cases i <;>
    simp [ringIdx, tickSampled, updateTemperatureHistory, resetSafetyWatchdog, envAt,
      runningController, bootController, TEMP_HISTORY_SIZE]

/-- In that history the Cube rose from 20 to 80 degrees in 60 s: 60 degrees per minute. -/
theorem calculateTempRiseRate_rise_example :
    calculateTempRiseRate (envAt 61000 80) (tickSampled (envAt 61000 80) runningController)
      TEMP_CUBE = 60 := by
  simp [calculateTempRiseRate, riseRateOldestIdx,
    riseRateStep, tickSampled, updateTemperatureHistory, resetSafetyWatchdog, envAt,
    runningController, bootController, TEMP_HISTORY_SIZE, subU32, U32_MOD, List.range,
    List.range.loop]
  norm_num

/-- The readings of that history are all above -100 degrees. -/
theorem readingsInRange_rise_example :
    readingsInRange (tickSampled (envAt 61000 80) runningController) TEMP_CUBE := by
  intro i hi
  right
  unfold TEMP_HISTORY_SIZE at hi
  interval_cases i <;>
    simp [ringIdx, tickSampled, updateTemperatureHistory, resetSafetyWatchdog, envAt,
      runningController, bootController, TEMP_HISTORY_SIZE] <;> norm_num

/-- C14, amended, at a concrete input: the running test state after the sample at 61 s,
Cube at 80 degrees, with the quotient taken without rounding (every operation is exact in
binary32 here); both sides are 60 degrees per minute. -/
theorem calculateTempRiseRate_refines_spec_witness :
    (envAt 61000 80).connected TEMP_CUBE = true ∧
    (tickSampled (envAt 61000 80) runningController).tempHistoryIndex < TEMP_HISTORY_SIZE ∧
    ringMonotone (tickSampled (envAt 61000 80) runningController) ∧
    (tickSampled (envAt 61000 80) runningController).tempHistoryTime
      (tickSampled (envAt 61000 80) runningController).tempHistoryIndex < U32_MOD ∧
    readingsInRange (tickSampled (envAt 61000 80) runningController) TEMP_CUBE ∧
    specSampleValid (tickSampled (envAt 61000 80) runningController) TEMP_CUBE
      (tickSampled (envAt 61000 80) runningController).tempHistoryIndex = true ∧
    calculateTempRiseRateWith riseRateQuotient (envAt 61000 80)
        (tickSampled (envAt 61000 80) runningController) TEMP_CUBE
      = specRiseRateWith riseRateQuotient (tickSampled (envAt 61000 80) runningController)
          TEMP_CUBE ∧
    calculateTempRiseRate (envAt 61000 80) (tickSampled (envAt 61000 80) runningController)
      TEMP_CUBE = 60 ∧
    specRiseRate (tickSampled (envAt 61000 80) runningController) TEMP_CUBE = 60 :=
  ⟨rfl, by decide, ringMonotone_rise_example, by decide, readingsInRange_rise_example,
   by decide,
   calculateTempRiseRate_refines_spec riseRateQuotient (envAt 61000 80)
     (tickSampled (envAt 61000 80) runningController) TEMP_CUBE rfl (by decide)
     ringMonotone_rise_example (by decide) readingsInRange_rise_example (by decide),
   calculateTempRiseRate_rise_example,
   (calculateTempRiseRate_refines_spec riseRateQuotient (envAt 61000 80)
     (tickSampled (envAt 61000 80) runningController) TEMP_CUBE rfl (by decide)
     ringMonotone_rise_example (by decide) readingsInRange_rise_example
     (by decide)).symm.trans calculateTempRiseRate_rise_example⟩

/-- The history with the -110 degree entry is in ring order. -/
theorem ringMonotone_coldEntry : ringMonotone coldEntryController := by
  intro i j hij hj
  unfold TEMP_HISTORY_SIZE at hj
  interval_cases j <;> interval_cases i <;>
    simp [ringIdx, coldEntryController, updateTemperatureHistory, envAt, bootController,
      TEMP_HISTORY_SIZE]

/-- The history whose newest Cube entry is the sentinel is in ring order. -/
theorem ringMonotone_sentinelNewest : ringMonotone sentinelNewestController := by
  intro i j hij hj
  unfold TEMP_HISTORY_SIZE at hj
  interval_cases j <;> interval_cases i <;>
    simp [ringIdx, sentinelNewestController, updateTemperatureHistory, envCubeUnplugged,
      runningController, bootController, TEMP_HISTORY_SIZE]

/-- C14, as stated, fails against the rise rate the specification words. First input: the
Cube history holds a -110 degree reading stored 60 s before the newest one (20 degrees);
that entry is not the sentinel, so the specified value is (20 - (-110)) / 1 = 130 degrees
per minute, but the test of line 435 (`> -100.0`) rejects the entry and the function
returns 0. Second input: the newest Cube entry is the sentinel, stored while the probe was
unplugged, and the probe is connected again at the call; no pair of valid samples exists,
so the specified value is 0, but the function returns (-127 - 20) / 1 = -147. In both
histories the probe is connected and the timestamps are non-decreasing in ring order. -/
theorem riseRate_differs_from_spec :
    (envAt 61500 20).connected TEMP_CUBE = true ∧
    ringMonotone coldEntryController ∧
    coldEntryController.tempHistory TEMP_CUBE (ringIdx coldEntryController 1) = -110 ∧
    calculateTempRiseRate (envAt 61500 20) coldEntryController TEMP_CUBE = 0 ∧
    specRiseRate coldEntryController TEMP_CUBE = 130 ∧
    ringMonotone sentinelNewestController ∧
    sentinelNewestController.tempHistory TEMP_CUBE sentinelNewestController.tempHistoryIndex
      = disconnectedSentinel ∧
    calculateTempRiseRate (envAt 61500 20) sentinelNewestController TEMP_CUBE = -147 ∧
    specRiseRate sentinelNewestController TEMP_CUBE = 0 := by
  refine ⟨rfl, ringMonotone_coldEntry, by decide, ?_, ?_, ringMonotone_sentinelNewest,
    by decide, ?_, ?_⟩
  · simp [calculateTempRiseRate, riseRateOldestIdx, riseRateStep, coldEntryController,
      updateTemperatureHistory, envAt, bootController, TEMP_HISTORY_SIZE, subU32, U32_MOD,
      List.range, List.range.loop]
    norm_num
  · have hk : specOldestSteps coldEntryController TEMP_CUBE = 1 := by decide
    have hv : specSampleValid coldEntryController TEMP_CUBE
        coldEntryController.tempHistoryIndex = true := by decide
    have he : specEligible coldEntryController TEMP_CUBE 1 = true := by decide
    have hn : coldEntryController.tempHistory TEMP_CUBE coldEntryController.tempHistoryIndex
        = 20 := by decide
    have ho : coldEntryController.tempHistory TEMP_CUBE (ringIdx coldEntryController 1)
        = -110 := by decide
    have ha : specAge coldEntryController (ringIdx coldEntryController 1) = 60000 := by
      decide
    unfold specRiseRate specRiseRateWith
    rw [if_pos hv, hk, if_pos he, hn, ho, ha]
    norm_num [riseRateQuotient]
  · simp [calculateTempRiseRate, riseRateOldestIdx, riseRateStep, sentinelNewestController,
      updateTemperatureHistory, envAt, envCubeUnplugged, runningController, bootController,
      TEMP_HISTORY_SIZE, subU32, U32_MOD, List.range, List.range.loop]
    norm_num
  · have hv : specSampleValid sentinelNewestController TEMP_CUBE
        sentinelNewestController.tempHistoryIndex = false := by decide
    unfold specRiseRate specRiseRateWith
    rw [hv]
    rfl

/-! ## C15: sentinel entries -/

/-- C15, the code at the failing input: the newest Cube sample was stored while the probe
was unplugged, so it is the sentinel -127; the probe is connected again when
`calculateTempRiseRate` is called. The function pairs the sentinel with the valid entry
stored 60 s earlier (20 degrees) and returns (-127 - 20) / 1 = -147 degrees per minute. -/
theorem riseRate_includes_sentinel_newest :
    sentinelNewestController.tempHistory TEMP_CUBE sentinelNewestController.tempHistoryIndex
      = -127 ∧
    (envAt 61500 20).connected TEMP_CUBE = true ∧
    riseRateOldestIdx sentinelNewestController TEMP_CUBE = 1 ∧
    sentinelNewestController.tempHistory TEMP_CUBE 1 = 20 ∧
    calculateTempRiseRate (envAt 61500 20) sentinelNewestController TEMP_CUBE = -147 := by
  refine ⟨by decide, rfl, by decide, by decide, ?_⟩
  simp [calculateTempRiseRate, riseRateOldestIdx, riseRateStep, sentinelNewestController,
    updateTemperatureHistory, envAt, envCubeUnplugged, runningController, bootController,
    TEMP_HISTORY_SIZE, subU32, U32_MOD, List.range, List.range.loop]
  norm_num

/-! ## C21: manual power while a process runs -/

/-- C21, as stated, fails: with a rectification running at 60 percent, `POST /api/power`
with `percent = 80` reports success and the commanded heater power becomes 80 percent; the
WebSocket `setPower` command with `percent = 100` commands 100 percent. -/
theorem power_change_accepted_while_running :
    runningWorld.proc.systemRunning = true ∧
    getCurrentPowerPercent runningWorld = 60 ∧
    (handlePowerChange (some 80) none runningWorld).1 = true ∧
    getCurrentPowerPercent (handlePowerChange (some 80) none runningWorld).2 = 80 ∧
    getCurrentPowerPercent (handleWebSocketSetPower (some 100) runningWorld) = 100 := by
  decide

/-- C21, amended: the manual power entry points do not look at `systemRunning`. While a
process runs, `handlePowerChange` with a percent in 0..100 (or, without a percent, watts in
0..`maxHeaterPowerWatts`) reports success and commands that power; it reports failure and
leaves the commanded power unchanged only when the value is out of range or missing; the
WebSocket `setPower` command commands the given percent without any check. -/
theorem power_change_ignores_running (w : World) (p x q : Int)
    (hrun : w.proc.systemRunning = true)
    (hp : p ≥ 0 ∧ p ≤ 100) (hx : x ≥ 0 ∧ x ≤ w.proc.maxHeaterPowerWatts)
    (hq : ¬ (q ≥ 0 ∧ q ≤ 100)) :
    handlePowerChange (some p) none w = (true, setPowerPercent p w) ∧
    getCurrentPowerPercent (handlePowerChange (some p) none w).2 = p ∧
    handlePowerChange none (some x) w = (true, setPowerWatts x w) ∧
    (handlePowerChange none (some x) w).2.proc.heaterCommand = PowerCommand.watts x ∧
    handlePowerChange (some q) none w = (false, w) ∧
    handlePowerChange none none w = (false, w) ∧
    handleWebSocketSetPower (some q) w = setPowerPercent q w ∧
    (handlePowerChange (some p) none w).2.proc.systemRunning = true := by
  have h1 : handlePowerChange (some p) none w = (true, setPowerPercent p w) := by
    simp only [handlePowerChange]; rw [if_pos hp]
  have h2 : handlePowerChange none (some x) w = (true, setPowerWatts x w) := by
    simp only [handlePowerChange]; rw [if_pos hx]
  have h3 : handlePowerChange (some q) none w = (false, w) := by
    simp only [handlePowerChange]; rw [if_neg hq]
  refine ⟨h1, ?_, h2, ?_, h3, rfl, rfl, ?_⟩
  · rw [h1]; rfl
  · rw [h2]; rfl
  · rw [h1]; exact hrun

/-- C21, amended, at a concrete input: rectification running at 60 percent; requests for
80 percent, 1500 W and the out-of-range 150 percent. -/
theorem power_change_ignores_running_witness :
    runningWorld.proc.systemRunning = true ∧
    ((80 : Int) ≥ 0 ∧ (80 : Int) ≤ 100) ∧
    ((1500 : Int) ≥ 0 ∧ (1500 : Int) ≤ runningWorld.proc.maxHeaterPowerWatts) ∧
    ¬ ((150 : Int) ≥ 0 ∧ (150 : Int) ≤ 100) ∧
    getCurrentPowerPercent (handlePowerChange (some 80) none runningWorld).2 = 80 ∧
    handlePowerChange (some 150) none runningWorld = (false, runningWorld) :=
  ⟨rfl, by decide, by decide, by decide,
   (power_change_ignores_running runningWorld 80 1500 150 rfl (by decide) (by decide)
      (by decide)).2.1,
   (power_change_ignores_running runningWorld 80 1500 150 rfl (by decide) (by decide)
      (by decide)).2.2.2.2.1⟩

/-! ## C22: start while a process is active -/

/-- A start or stop request never leaves both engines running. -/
theorem EngineRequest.apply_exclusive (req : EngineRequest) (c : Controller)
    (h : ¬ (c.rectificationRunning = true ∧ c.distillationRunning = true)) :
    ¬ ((req.apply c).rectificationRunning = true ∧
      (req.apply c).distillationRunning = true) := by
  cases hr : c.rectificationRunning <;> cases hd : c.distillationRunning <;>
    cases req <;>
    simp_all [EngineRequest.apply, handleRectificationStart, handleDistillationStart,
      handleRectificationStop, handleDistillationStop, startRectification, startDistillation,
      stopRectification, stopDistillation] <;>
    split_ifs <;> simp_all

/-- No sequence of start and stop requests leaves both engines running. -/
theorem runRequests_exclusive (reqs : List EngineRequest) (c : Controller)
    (h : ¬ (c.rectificationRunning = true ∧ c.distillationRunning = true)) :
    ¬ ((runRequests reqs c).rectificationRunning = true ∧
      (runRequests reqs c).distillationRunning = true) := by
  induction reqs generalizing c with
  | nil => exact h
  | cons req reqs ih => exact ih (req.apply c) (EngineRequest.apply_exclusive req c h)

/-- C22: `startProcess` called with `systemRunning = true` changes nothing (mode, phases,
collected-volume counters, `processStartTime`, paused flag and heater command are as
before), and so does `handleStartProcess`; the start-rectification and start-distillation
handlers answer 409 and start nothing while the other engine is running, so from a state
with at most one engine running no sequence of start and stop requests reaches a state
with both engines running. -/
theorem start_rejected_when_active (w : World) (now : Nat) (connected : TempSensor → Bool)
    (mode : Option OperationMode) (c : Controller) (ready : Bool)
    (reqs : List EngineRequest)
    (hrun : w.proc.systemRunning = true)
    (hone : ¬ (c.rectificationRunning = true ∧ c.distillationRunning = true)) :
    startProcess now connected w = w ∧
    (startProcess now connected w).proc.currentMode = w.proc.currentMode ∧
    (startProcess now connected w).proc.rectPhase = w.proc.rectPhase ∧
    (startProcess now connected w).proc.distPhase = w.proc.distPhase ∧
    (startProcess now connected w).proc.headsCollected = w.proc.headsCollected ∧
    (startProcess now connected w).proc.bodyCollected = w.proc.bodyCollected ∧
    (startProcess now connected w).proc.tailsCollected = w.proc.tailsCollected ∧
    (startProcess now connected w).proc.distillationCollected = w.proc.distillationCollected ∧
    (startProcess now connected w).proc.processStartTime = w.proc.processStartTime ∧
    (startProcess now connected w).proc.systemPaused = w.proc.systemPaused ∧
    (startProcess now connected w).proc.heaterCommand = w.proc.heaterCommand ∧
    handleStartProcess now connected mode w = (false, w) ∧
    (c.distillationRunning = true → handleRectificationStart ready c = (409, c)) ∧
    (c.rectificationRunning = true → handleDistillationStart ready c = (409, c)) ∧
    ¬ ((runRequests reqs c).rectificationRunning = true ∧
      (runRequests reqs c).distillationRunning = true) := by
  have h1 : startProcess now connected w = w := by
    simp [startProcess, hrun]
  have h2 : handleStartProcess now connected mode w = (false, w) := by
    simp [handleStartProcess, hrun]
  rw [h1]
  refine ⟨rfl, rfl, rfl, rfl, rfl, rfl, rfl, rfl, rfl, rfl, rfl, h2, ?_, ?_,
    runRequests_exclusive reqs c hone⟩
  · intro hd; simp [handleRectificationStart, hd]
  · intro hr; simp [handleDistillationStart, hr]

/-- C22 at a concrete input: a second start while the rectification of the test state runs,
and a start-distillation request followed by a start-rectification request from boot. -/
theorem start_rejected_when_active_witness :
    runningWorld.proc.systemRunning = true ∧
    ¬ (bootController.rectificationRunning = true ∧ bootController.distillationRunning = true) ∧
    startProcess 70000 (fun _ => true) runningWorld = runningWorld ∧
    ¬ ((runRequests [EngineRequest.distillationStart true, EngineRequest.rectificationStart true]
        bootController).rectificationRunning = true ∧
      (runRequests [EngineRequest.distillationStart true, EngineRequest.rectificationStart true]
        bootController).distillationRunning = true) :=
  ⟨rfl, by decide,
   (start_rejected_when_active runningWorld 70000 (fun _ => true) none bootController true
      [EngineRequest.distillationStart true, EngineRequest.rectificationStart true] rfl
      (by decide)).1,
   (start_rejected_when_active runningWorld 70000 (fun _ => true) none bootController true
      [EngineRequest.distillationStart true, EngineRequest.rectificationStart true] rfl
      (by decide)).2.2.2.2.2.2.2.2.2.2.2.2.2.2⟩

/-! ## C23: stop -/

/-- C23, as stated, fails: stopping the rectification of the test state, which is in its
body phase, leaves `rectPhase` at `PHASE_BODY`; the phase is not set to idle. -/
theorem stopProcess_keeps_phase :
    runningWorld.proc.systemRunning = true ∧
    runningWorld.proc.rectPhase = RectificationPhase.PHASE_BODY ∧
    (stopProcess runningWorld).proc.rectPhase = RectificationPhase.PHASE_BODY ∧
    (stopProcess runningWorld).proc.rectPhase ≠ RectificationPhase.PHASE_NONE := by
  decide

/-- C23, amended: `stopProcess` on a running process clears running and paused, drives the
heater to 0, the pump off and the valve closed, and leaves the safety supervisor (its
status included) unchanged; it does not touch the engine phase: `rectPhase` and `distPhase`
keep their values, as do the mode and the collected-volume counters. -/
theorem stopProcess_effect (w : World) (hrun : w.proc.systemRunning = true) :
    (stopProcess w).proc.systemRunning = false ∧
    (stopProcess w).proc.systemPaused = false ∧
    (stopProcess w).proc.heaterCommand = PowerCommand.percent 0 ∧
    getCurrentPowerPercent (stopProcess w) = 0 ∧
    (stopProcess w).proc.pumpEnabled = false ∧
    (stopProcess w).proc.valveEnabled = false ∧
    (stopProcess w).ctl = w.ctl ∧
    (stopProcess w).ctl.currentStatus = w.ctl.currentStatus ∧
    (stopProcess w).proc.rectPhase = w.proc.rectPhase ∧
    (stopProcess w).proc.distPhase = w.proc.distPhase ∧
    (stopProcess w).proc.currentMode = w.proc.currentMode ∧
    (stopProcess w).proc.headsCollected = w.proc.headsCollected ∧
    (stopProcess w).proc.bodyCollected = w.proc.bodyCollected ∧
    (stopProcess w).proc.tailsCollected = w.proc.tailsCollected ∧
    (stopProcess w).proc.distillationCollected = w.proc.distillationCollected := by
  have hstop : stopProcess w =
      disableValve (disablePump (setPowerPercent 0
        { w with proc := { w.proc with systemRunning := false, systemPaused := false } })) := by
    simp [stopProcess, hrun]
  rw [hstop]
  exact ⟨rfl, rfl, rfl, rfl, rfl, rfl, rfl, rfl, rfl, rfl, rfl, rfl, rfl, rfl, rfl⟩

/-- C23, amended, at a concrete input: the rectification of the test state. -/
theorem stopProcess_effect_witness :
    runningWorld.proc.systemRunning = true ∧
    (stopProcess runningWorld).proc.systemRunning = false ∧
    (stopProcess runningWorld).proc.heaterCommand = PowerCommand.percent 0 ∧
    (stopProcess runningWorld).proc.pumpEnabled = false ∧
    (stopProcess runningWorld).proc.valveEnabled = false :=
  ⟨rfl, (stopProcess_effect runningWorld rfl).1, (stopProcess_effect runningWorld rfl).2.2.1,
   (stopProcess_effect runningWorld rfl).2.2.2.2.1,
   (stopProcess_effect runningWorld rfl).2.2.2.2.2.1⟩

/-! ## C24: pause and resume -/

/-- C24: for every running, un-paused process with commanded heater percent `p`,
`pauseProcess` sets the heater to the maintenance level (10 percent) with pump and valve
off and `paused = true`, and a following `resumeProcess` restores the heater percent to
exactly `p` with `paused = false`, the process still running and the phases unchanged. -/
theorem pause_resume_round_trip (w : World) (p : Int)
    (hrun : w.proc.systemRunning = true) (hnotpaused : w.proc.systemPaused = false)
    (hp : getCurrentPowerPercent w = p) :
    (pauseProcess w).proc.heaterCommand = PowerCommand.percent 10 ∧
    (pauseProcess w).proc.pumpEnabled = false ∧
    (pauseProcess w).proc.valveEnabled = false ∧
    (pauseProcess w).proc.systemPaused = true ∧
    getCurrentPowerPercent (resumeProcess (pauseProcess w)) = p ∧
    (resumeProcess (pauseProcess w)).proc.heaterCommand = PowerCommand.percent p ∧
    (resumeProcess (pauseProcess w)).proc.systemPaused = false ∧
    (resumeProcess (pauseProcess w)).proc.systemRunning = true ∧
    (resumeProcess (pauseProcess w)).proc.rectPhase = w.proc.rectPhase ∧
    (resumeProcess (pauseProcess w)).proc.distPhase = w.proc.distPhase := by
  have hpause : pauseProcess w =
      disableValve (disablePump (setPowerPercent 10
        { w with proc := { w.proc with systemPaused := true, pausedPower := p } })) := by
    simp only [pauseProcess, hrun, hnotpaused, Bool.not_true, Bool.or_self, Bool.false_eq_true,
      if_false]
    rw [← hp]
    rfl
  have hresume : resumeProcess (pauseProcess w) =
      setPowerPercent p
        { pauseProcess w with
          proc := { (pauseProcess w).proc with systemPaused := false } } := by
    rw [hpause]
    simp [resumeProcess, disableValve, disablePump, setPowerPercent, hrun]
  rw [hresume, hpause]
  exact ⟨rfl, rfl, rfl, rfl, rfl, rfl, rfl, hrun, rfl, rfl⟩

/-- C24 at a concrete input: the rectification of the test state, heater at 60 percent. -/
theorem pause_resume_round_trip_witness :
    runningWorld.proc.systemRunning = true ∧
    runningWorld.proc.systemPaused = false ∧
    getCurrentPowerPercent runningWorld = 60 ∧
    (pauseProcess runningWorld).proc.heaterCommand = PowerCommand.percent 10 ∧
    getCurrentPowerPercent (resumeProcess (pauseProcess runningWorld)) = 60 ∧
    (resumeProcess (pauseProcess runningWorld)).proc.systemPaused = false :=
  ⟨rfl, rfl, rfl, (pause_resume_round_trip runningWorld 60 rfl rfl rfl).1,
   (pause_resume_round_trip runningWorld 60 rfl rfl rfl).2.2.2.2.1,
   (pause_resume_round_trip runningWorld 60 rfl rfl rfl).2.2.2.2.2.2.1⟩

/-! ## C25: getFormattedTime -/

/-- C25, the code at the failing input: for `timeInMs = 360 000 000` (100 hours, a value
`millis()` reaches after 100 hours of uptime) the formatted text is `100:00:00`: nine
characters, which with the terminating zero need ten bytes of the 9-byte buffer. The
arithmetic of the fields is as claimed. -/
theorem getFormattedTime_overflows_buffer :
    360000000 < U32_MOD ∧
    getFormattedTime 360000000 = "100:00:00" ∧
    (getFormattedTime 360000000).length = 9 ∧
    (getFormattedTime 360000000).length + 1 > FORMATTED_TIME_BUFFER ∧
    100 * 3600 + 0 * 60 + 0 = 360000000 / 1000 := by
  decide

/-- Below 100 the conversion `%02lu` gives exactly two characters. -/
theorem pad2_length (n : Nat) (h : n < 100) : (pad2 n).length = 2 := by
  interval_cases n <;> rfl

/-- Below 100 hours `getFormattedTime` behaves as documented: eight characters `HH:MM:SS`,
which fit the buffer, with the fields adding up to the whole seconds. -/
theorem getFormattedTime_short (timeInMs : Nat) (h : timeInMs < 360000000) :
    (getFormattedTime timeInMs).length = 8 ∧
    (getFormattedTime timeInMs).length + 1 ≤ FORMATTED_TIME_BUFFER ∧
    getFormattedTime timeInMs =
      pad2 (timeInMs / 3600000) ++ ":" ++ pad2 (timeInMs / 60000 % 60) ++ ":" ++
        pad2 (timeInMs / 1000 % 60) ∧
    timeInMs / 3600000 * 3600 + timeInMs / 60000 % 60 * 60 + timeInMs / 1000 % 60
      = timeInMs / 1000 := by
  have e1 : timeInMs / 1000 / 60 = timeInMs / 60000 := by omega
  have e2 : timeInMs / 60000 / 60 = timeInMs / 3600000 := by omega
  have hf : getFormattedTime timeInMs =
      pad2 (timeInMs / 3600000) ++ ":" ++ pad2 (timeInMs / 60000 % 60) ++ ":" ++
        pad2 (timeInMs / 1000 % 60) := by
    simp only [getFormattedTime, e1, e2]
  have hl : (getFormattedTime timeInMs).length = 8 := by
    rw [hf]
    simp only [String.length_append]
    rw [pad2_length _ (by omega), pad2_length _ (by omega), pad2_length _ (by omega)]
    rfl
  refine ⟨hl, ?_, hf, by omega⟩
  rw [hl]; decide

/-! ## C26: ticks without a registered process -/

/-- C26: when no process is registered (`processRunning = false`), an evaluated
`updateSafety` tick leaves the safety status as it is, whatever the sensors read; it only
samples the history (ring index advanced by one, the sample stored there) and stores its
time in `lastSafetyCheck`; thresholds, process registration and actuator commands are
untouched. -/
theorem updateSafety_idle_frame (env : Env) (c : Controller)
    (hidle : c.processRunning = false) (heval : tickEvaluated env c = true) :
    (updateSafety env c).currentStatus = c.currentStatus ∧
    updateSafety env c = updateTemperatureHistory env { c with lastSafetyCheck := env.millis } ∧
    (updateSafety env c).lastSafetyCheck = env.millis ∧
    (updateSafety env c).tempHistoryIndex = (c.tempHistoryIndex + 1) % TEMP_HISTORY_SIZE ∧
    (updateSafety env c).tempHistoryTime (updateSafety env c).tempHistoryIndex
      = env.millisHistory ∧
    (updateSafety env c).act = c.act ∧
    (updateSafety env c).processRunning = false ∧
    (updateSafety env c).processStartTime = c.processStartTime ∧
    (updateSafety env c).maxCubeTemp = c.maxCubeTemp ∧
    (updateSafety env c).maxRuntimeHours = c.maxRuntimeHours := by
  rw [updateSafety_idle env c heval hidle]
  refine ⟨rfl, rfl, rfl, rfl, ?_, rfl, hidle, rfl, rfl, rfl⟩
  simp [tickSampled, updateTemperatureHistory, resetSafetyWatchdog]

/-- C26 at concrete inputs: at boot, with no process registered, neither an unplugged Cube
probe nor a Cube reading of 106 degrees changes the clean status. -/
theorem updateSafety_idle_frame_witness :
    bootController.processRunning = false ∧
    tickEvaluated (envCubeUnplugged 61000) bootController = true ∧
    (updateSafety (envCubeUnplugged 61000) bootController).currentStatus = cleanStatus ∧
    (updateSafety (envAt 61000 106) bootController).currentStatus = cleanStatus :=
  ⟨rfl, by decide,
   (updateSafety_idle_frame (envCubeUnplugged 61000) bootController rfl (by decide)).1,
   (updateSafety_idle_frame (envAt 61000 106) bootController rfl (by decide)).1⟩

/-! ## C27: fault priority -/

/-- C27: when several check predicates hold at once, both check functions report the first
one in the order `SensorDisconnect`, `TempHigh`, `WaterFlowLow`, `TempRise`, `MaxRuntime`:
each code is returned as soon as its predicate holds and no earlier one does, whatever the
later predicates say. In particular, with the required probes connected, a simultaneous
over-temperature and coolant fault is reported as `TempHigh`, and a coolant fault masks a
rise-rate fault. -/
theorem fault_priority (env : Env) (c : Controller)
    (cubeTemp columnTemp refluxTemp waterOutTemp tsaTemp : ℚ) :
    ((env.connected TEMP_CUBE = false ∨ env.connected TEMP_REFLUX = false →
      checkRectificationSafety env c cubeTemp columnTemp refluxTemp waterOutTemp tsaTemp
        = SAFETY_ERROR_SENSOR_DISCONNECT) ∧
     (env.connected TEMP_CUBE = true → env.connected TEMP_REFLUX = true →
      cubeTemp > c.maxCubeTemp →
      checkRectificationSafety env c cubeTemp columnTemp refluxTemp waterOutTemp tsaTemp
        = SAFETY_ERROR_TEMPERATURE_HIGH) ∧
     (env.connected TEMP_CUBE = true → env.connected TEMP_REFLUX = true →
      ¬ cubeTemp > c.maxCubeTemp →
      env.connected TEMP_WATER_OUT = true → waterOutTemp > c.maxWaterOutTemp →
      checkRectificationSafety env c cubeTemp columnTemp refluxTemp waterOutTemp tsaTemp
        = SAFETY_ERROR_WATER_FLOW_LOW) ∧
     (env.connected TEMP_CUBE = true → env.connected TEMP_REFLUX = true →
      ¬ cubeTemp > c.maxCubeTemp →
      ¬ (env.connected TEMP_WATER_OUT = true ∧ waterOutTemp > c.maxWaterOutTemp) →
      calculateTempRiseRate env c TEMP_CUBE > c.maxTempRiseRate →
      checkRectificationSafety env c cubeTemp columnTemp refluxTemp waterOutTemp tsaTemp
        = SAFETY_ERROR_TEMPERATURE_RISE) ∧
     (env.connected TEMP_CUBE = true → env.connected TEMP_REFLUX = true →
      ¬ cubeTemp > c.maxCubeTemp →
      ¬ (env.connected TEMP_WATER_OUT = true ∧ waterOutTemp > c.maxWaterOutTemp) →
      ¬ calculateTempRiseRate env c TEMP_CUBE > c.maxTempRiseRate →
      runtimeExceeded env c = true →
      checkRectificationSafety env c cubeTemp columnTemp refluxTemp waterOutTemp tsaTemp
        = SAFETY_ERROR_MAX_RUNTIME_EXCEEDED)) ∧
    ((env.connected TEMP_CUBE = false →
      checkDistillationSafety env c cubeTemp waterOutTemp = SAFETY_ERROR_SENSOR_DISCONNECT) ∧
     (env.connected TEMP_CUBE = true → cubeTemp > c.maxCubeTemp →
      checkDistillationSafety env c cubeTemp waterOutTemp = SAFETY_ERROR_TEMPERATURE_HIGH) ∧
     (env.connected TEMP_CUBE = true → ¬ cubeTemp > c.maxCubeTemp →
      env.connected TEMP_WATER_OUT = true → waterOutTemp > c.maxWaterOutTemp →
      checkDistillationSafety env c cubeTemp waterOutTemp = SAFETY_ERROR_WATER_FLOW_LOW) ∧
     (env.connected TEMP_CUBE = true → ¬ cubeTemp > c.maxCubeTemp →
      ¬ (env.connected TEMP_WATER_OUT = true ∧ waterOutTemp > c.maxWaterOutTemp) →
      calculateTempRiseRate env c TEMP_CUBE > c.maxTempRiseRate →
      checkDistillationSafety env c cubeTemp waterOutTemp = SAFETY_ERROR_TEMPERATURE_RISE) ∧
     (env.connected TEMP_CUBE = true → ¬ cubeTemp > c.maxCubeTemp →
      ¬ (env.connected TEMP_WATER_OUT = true ∧ waterOutTemp > c.maxWaterOutTemp) →
      ¬ calculateTempRiseRate env c TEMP_CUBE > c.maxTempRiseRate →
      runtimeExceeded env c = true →
      checkDistillationSafety env c cubeTemp waterOutTemp
        = SAFETY_ERROR_MAX_RUNTIME_EXCEEDED)) := by
  refine ⟨⟨?_, ?_, ?_, ?_, ?_⟩, ⟨?_, ?_, ?_, ?_, ?_⟩⟩
  · rintro (h | h) <;> simp [checkRectificationSafety, h]
  · intro h1 h2 h3
    simp [checkRectificationSafety, h1, h2, h3]
  · intro h1 h2 h3 h4 h5
    simp only [checkRectificationSafety, h1, h2, Bool.not_true, Bool.or_self,
      Bool.false_eq_true, if_false, if_neg h3]
    rw [if_pos ⟨h4, h5⟩]
  · intro h1 h2 h3 h4 h5
    simp only [checkRectificationSafety, h1, h2, Bool.not_true, Bool.or_self,
      Bool.false_eq_true, if_false, if_neg h3, if_neg h4, if_pos h5]
  · intro h1 h2 h3 h4 h5 h6
    simp only [checkRectificationSafety, h1, h2, Bool.not_true, Bool.or_self,
      Bool.false_eq_true, if_false, if_neg h3, if_neg h4, if_neg h5, h6, if_true]
  · intro h
    simp [checkDistillationSafety, h]
  · intro h1 h3
    simp [checkDistillationSafety, h1, h3]
  · intro h1 h3 h4 h5
    simp only [checkDistillationSafety, h1, Bool.not_true,
      Bool.false_eq_true, if_false, if_neg h3]
    rw [if_pos ⟨h4, h5⟩]
  · intro h1 h3 h4 h5
    simp only [checkDistillationSafety, h1, Bool.not_true,
      Bool.false_eq_true, if_false, if_neg h3, if_neg h4, if_pos h5]
  · intro h1 h3 h4 h5 h6
    simp only [checkDistillationSafety, h1, Bool.not_true,
      Bool.false_eq_true, if_false, if_neg h3, if_neg h4, if_neg h5, h6, if_true]

/-- With the coolant outlet at 60 degrees and the Cube up from 20 to 80 degrees in 60 s,
the rise rate is 60 degrees per minute, above the limit of 5. -/
theorem calculateTempRiseRate_hot_water_example :
    calculateTempRiseRate (envHotWater 61000 80)
      (tickSampled (envHotWater 61000 80) runningController) TEMP_CUBE
      > (tickSampled (envHotWater 61000 80) runningController).maxTempRiseRate := by
  simp [calculateTempRiseRate, riseRateOldestIdx, riseRateStep, tickSampled,
    updateTemperatureHistory, resetSafetyWatchdog, envHotWater, runningController,
    bootController, TEMP_HISTORY_SIZE, subU32, U32_MOD, List.range, List.range.loop,
    DEFAULT_MAX_TEMP_RISE_RATE]
  norm_num

/-- C27 at concrete inputs: Cube at 106 degrees together with a coolant outlet at 60 degrees
is reported as `TempHigh`; a coolant outlet at 60 degrees together with a rise rate of 60
degrees per minute is reported as `WaterFlowLow`. -/
theorem fault_priority_witness :
    checkRectificationSafety (envHotWater 61000 106)
      (tickSampled (envHotWater 61000 106) runningController) 106 20 20 60 20
      = SAFETY_ERROR_TEMPERATURE_HIGH ∧
    calculateTempRiseRate (envHotWater 61000 80)
      (tickSampled (envHotWater 61000 80) runningController) TEMP_CUBE
      > (tickSampled (envHotWater 61000 80) runningController).maxTempRiseRate ∧
    checkRectificationSafety (envHotWater 61000 80)
      (tickSampled (envHotWater 61000 80) runningController) 80 20 20 60 20
      = SAFETY_ERROR_WATER_FLOW_LOW ∧
    checkDistillationSafety (envHotWater 61000 80)
      (tickSampled (envHotWater 61000 80) runningController) 80 60
      = SAFETY_ERROR_WATER_FLOW_LOW :=
  ⟨(fault_priority (envHotWater 61000 106)
      (tickSampled (envHotWater 61000 106) runningController) 106 20 20 60 20).1.2.1
      rfl rfl (by decide),
   calculateTempRiseRate_hot_water_example,
   (fault_priority (envHotWater 61000 80)
      (tickSampled (envHotWater 61000 80) runningController) 80 20 20 60 20).1.2.2.1
      rfl rfl (by decide) rfl (by decide),
   (fault_priority (envHotWater 61000 80)
      (tickSampled (envHotWater 61000 80) runningController) 80 20 20 60 20).2.2.2.1
      rfl (by decide) rfl (by decide)⟩

/-! ## C28: the runtime threshold in 32-bit arithmetic -/

/-- C28: the runtime test compares `(now - processStartTime) mod 2^32` with
`(maxRuntimeHours * 3 600 000) mod 2^32`. `setSafetyMaxRuntime` accepts every positive
number of hours; the threshold equals the exact product for 1 <= hours <= 1193 and is
smaller than the exact product for every hours >= 1194 (for 1194 hours it is 3 432 704
ms, less than one hour). -/
theorem maxRuntime_threshold_wraps (env : Env) (c : Controller) (hours : Int) :
    runtimeExceeded env c =
      (c.processRunning &&
        decide (subU32 env.millisCheck c.processStartTime
          > toU32 (c.maxRuntimeHours * 3600000))) ∧
    ((toU32 (c.maxRuntimeHours * 3600000) : Int)
      = (c.maxRuntimeHours * 3600000) % 4294967296) ∧
    (env.millisCheck < U32_MOD → c.processStartTime < U32_MOD →
      (subU32 env.millisCheck c.processStartTime : Int)
        = ((env.millisCheck : Int) - (c.processStartTime : Int)) % 4294967296) ∧
    (hours > 0 → (setSafetyMaxRuntime hours c).maxRuntimeHours = hours) ∧
    (1 ≤ hours → hours ≤ 1193 → (toU32 (hours * 3600000) : Int) = hours * 3600000) ∧
    (1194 ≤ hours → (toU32 (hours * 3600000) : Int) < hours * 3600000) ∧
    toU32 (1194 * 3600000) = 3432704 := by
  refine ⟨rfl, ?_, ?_, ?_, ?_, ?_, ?_⟩
  · unfold toU32 U32_MOD; omega
  · intro h1 h2
    unfold subU32 U32_MOD at *
    omega
  · intro h
    simp [setSafetyMaxRuntime, h]
  · intro h1 h2
    unfold toU32 U32_MOD
    omega
  · intro h
    unfold toU32 U32_MOD
    omega
  · decide

/-- C28 at concrete inputs: 12 hours (the default) and 1193 hours give the exact product,
1194 hours is accepted by `setSafetyMaxRuntime` and gives a threshold below one hour. -/
theorem maxRuntime_threshold_wraps_witness :
    (toU32 (12 * 3600000) : Int) = 12 * 3600000 ∧
    (toU32 (1193 * 3600000) : Int) = 1193 * 3600000 ∧
    (setSafetyMaxRuntime 1194 bootController).maxRuntimeHours = 1194 ∧
    (toU32 (1194 * 3600000) : Int) < 1194 * 3600000 :=
  ⟨(maxRuntime_threshold_wraps (envAt 0 20) bootController 12).2.2.2.2.1 (by decide)
      (by decide),
   (maxRuntime_threshold_wraps (envAt 0 20) bootController 1193).2.2.2.2.1 (by decide)
      (by decide),
   (maxRuntime_threshold_wraps (envAt 0 20) bootController 1194).2.2.2.1 (by decide),
   (maxRuntime_threshold_wraps (envAt 0 20) bootController 1194).2.2.2.2.2.1 (by decide)⟩

/-! ## C29: what emergencyStop leaves alone -/

/-- C29: in the supervisor's state `emergencyStop` changes only `isSystemSafe`,
`isEmergencyStop`, `errorDescription` and `processRunning` (besides commanding the three
actuators off): `errorCode`, `errorTime` and the sensor, temperature, water-flow, pressure,
runtime and watchdog flags are left unchanged, as are thresholds, history and timers. An
operator emergency stop from the clean boot state therefore yields `isSystemSafe = false`
with `errorCode = SAFETY_OK`, not `SAFETY_ERROR_EMERGENCY_STOP`. -/
theorem emergencyStop_frame (reason : String) (c : Controller) :
    emergencyStop reason c =
      { c with
        currentStatus :=
          { c.currentStatus with
            isSystemSafe := false, isEmergencyStop := true,
            errorDescription := "АВАРИЙНАЯ ОСТАНОВКА: " ++ reason }
        processRunning := false
        act := Actuators.allOff } ∧
    (emergencyStop reason c).currentStatus.errorCode = c.currentStatus.errorCode ∧
    (emergencyStop reason c).currentStatus.errorTime = c.currentStatus.errorTime ∧
    (emergencyStop reason c).currentStatus.isSensorError = c.currentStatus.isSensorError ∧
    (emergencyStop reason c).currentStatus.isTemperatureError
      = c.currentStatus.isTemperatureError ∧
    (emergencyStop reason c).currentStatus.isWaterFlowError
      = c.currentStatus.isWaterFlowError ∧
    (emergencyStop reason c).currentStatus.isPressureError = c.currentStatus.isPressureError ∧
    (emergencyStop reason c).currentStatus.isRuntimeError = c.currentStatus.isRuntimeError ∧
    (emergencyStop reason c).currentStatus.isWatchdogReset = c.currentStatus.isWatchdogReset ∧
    (emergencyStop reason bootController).currentStatus.isSystemSafe = false ∧
    (emergencyStop reason bootController).currentStatus.errorCode = SAFETY_OK ∧
    (emergencyStop reason bootController).currentStatus.errorCode
      ≠ SAFETY_ERROR_EMERGENCY_STOP :=
  ⟨rfl, rfl, rfl, rfl, rfl, rfl, rfl, rfl, rfl, rfl, rfl, fun h => by cases h⟩

/-! ## C30: a failed load -/

/-- C30: when `loadSystemSettings` returns false, the in-memory settings record has already
been overwritten with the record read from the EEPROM, whose version is not the current
one; it is not left at its previous value. -/
theorem failed_load_overwrites (st : SettingsStore)
    (hfail : (loadSystemSettings st).1 = false) :
    (loadSystemSettings st).2.sysSettings = st.eeprom.image ∧
    (loadSystemSettings st).2.sysSettings.settingsVersion ≠ SETTINGS_VERSION ∧
    (loadSystemSettings st).2.eeprom = st.eeprom ∧
    (st.sysSettings.settingsVersion = SETTINGS_VERSION →
      (loadSystemSettings st).2.sysSettings ≠ st.sysSettings) := by
  have hv : st.eeprom.image.settingsVersion ≠ SETTINGS_VERSION := by
    intro h
    simp [loadSystemSettings, h] at hfail
  have hl : loadSystemSettings st = (false, { st with sysSettings := st.eeprom.image }) := by
    simp [loadSystemSettings, hv]
  rw [hl]
  refine ⟨rfl, hv, rfl, ?_⟩
  intro hcur heq
  apply hv
  have : st.eeprom.image = st.sysSettings := heq
  rw [this]
  exact hcur

/-- C30 at a concrete input: the in-memory record holds the factory defaults and the EEPROM
holds the version-7 record; after the failed load the in-memory record is the version-7
record. -/
theorem failed_load_overwrites_witness :
    (loadSystemSettings staleLoadedStore).1 = false ∧
    staleLoadedStore.sysSettings = factoryDefaults ∧
    (loadSystemSettings staleLoadedStore).2.sysSettings.settingsVersion = 7 ∧
    (loadSystemSettings staleLoadedStore).2.sysSettings = staleLoadedStore.eeprom.image ∧
    (loadSystemSettings staleLoadedStore).2.sysSettings ≠ factoryDefaults :=
  ⟨by decide, rfl, by decide,
   (failed_load_overwrites staleLoadedStore (by decide)).1,
   (failed_load_overwrites staleLoadedStore (by decide)).2.2.2 rfl⟩

end DriveVision
